import Mathlib

/-!
# Wallet ledger engine of `be-pln`

A shallow embedding of the wallet service (`internal/services/wallet_service.go`,
`internal/services/midtrans_client.go`) and of its storage layer
(`internal/repositories/wallet_repo.go`), followed by the properties proved about them.

Modelling conventions.

* Currency amounts are the exact decimal quantities held in the store's numeric columns;
  they are represented by `Int` (a count of the smallest currency unit), so the arithmetic of
  the `AddSaldo` statement is exact.
* A `time.Time` is an instant, represented by an `Int`.
* A Go `string` is a Lean `String`; byte-level operations go through its UTF-8 encoding.
* Functions of the Go standard library whose tables are not part of the repository
  (Unicode case mapping, JSON encoding, timestamp parsing) are fields of `Lib`; every theorem
  holds for every `Lib`.  `refLib` is a concrete instance used to evaluate the model.
* The relational store is a record of tables (lists of rows).  A statement may fail for reasons
  outside the model (connection loss, constraint or enum violation); `Faults` says which
  repository call of the current operation fails.
-/

/-! ## Standard-library layer -/

/-- An instant (`time.Time`). -/
abbrev Time := Int

namespace sha512

/-- The eighty round constants of SHA-512 (FIPS 180-4, section 4.2.3). -/
def K : List Nat :=
  [0x428a2f98d728ae22, 0x7137449123ef65cd, 0xb5c0fbcfec4d3b2f, 0xe9b5dba58189dbbc,
   0x3956c25bf348b538, 0x59f111f1b605d019, 0x923f82a4af194f9b, 0xab1c5ed5da6d8118,
   0xd807aa98a3030242, 0x12835b0145706fbe, 0x243185be4ee4b28c, 0x550c7dc3d5ffb4e2,
   0x72be5d74f27b896f, 0x80deb1fe3b1696b1, 0x9bdc06a725c71235, 0xc19bf174cf692694,
   0xe49b69c19ef14ad2, 0xefbe4786384f25e3, 0x0fc19dc68b8cd5b5, 0x240ca1cc77ac9c65,
   0x2de92c6f592b0275, 0x4a7484aa6ea6e483, 0x5cb0a9dcbd41fbd4, 0x76f988da831153b5,
   0x983e5152ee66dfab, 0xa831c66d2db43210, 0xb00327c898fb213f, 0xbf597fc7beef0ee4,
   0xc6e00bf33da88fc2, 0xd5a79147930aa725, 0x06ca6351e003826f, 0x142929670a0e6e70,
   0x27b70a8546d22ffc, 0x2e1b21385c26c926, 0x4d2c6dfc5ac42aed, 0x53380d139d95b3df,
   0x650a73548baf63de, 0x766a0abb3c77b2a8, 0x81c2c92e47edaee6, 0x92722c851482353b,
   0xa2bfe8a14cf10364, 0xa81a664bbc423001, 0xc24b8b70d0f89791, 0xc76c51a30654be30,
   0xd192e819d6ef5218, 0xd69906245565a910, 0xf40e35855771202a, 0x106aa07032bbd1b8,
   0x19a4c116b8d2d0c8, 0x1e376c085141ab53, 0x2748774cdf8eeb99, 0x34b0bcb5e19b48a8,
   0x391c0cb3c5c95a63, 0x4ed8aa4ae3418acb, 0x5b9cca4f7763e373, 0x682e6ff3d6b2b8a3,
   0x748f82ee5defb2fc, 0x78a5636f43172f60, 0x84c87814a1f0ab72, 0x8cc702081a6439ec,
   0x90befffa23631e28, 0xa4506cebde82bde9, 0xbef9a3f7b2c67915, 0xc67178f2e372532b,
   0xca273eceea26619c, 0xd186b8c721c0c207, 0xeada7dd6cde0eb1e, 0xf57d4f7fee6ed178,
   0x06f067aa72176fba, 0x0a637dc5a2c898a6, 0x113f9804bef90dae, 0x1b710b35131c471b,
   0x28db77f523047d84, 0x32caab7b40c72493, 0x3c9ebe0a15c9bebc, 0x431d67c49c100d4c,
   0x4cc5d4becb3e42b6, 0x597f299cfc657e2a, 0x5fcb6fab3ad6faec, 0x6c44198c4a475817]

/-- Rotate a 64-bit word right by `n` bits. -/
def rotr (x n : Nat) : Nat := ((x >>> n) ||| (x <<< (64 - n))) % 2 ^ 64

def ssig0 (x : Nat) : Nat := rotr x 1 ^^^ rotr x 8 ^^^ (x >>> 7)

def ssig1 (x : Nat) : Nat := rotr x 19 ^^^ rotr x 61 ^^^ (x >>> 6)

def bsig0 (x : Nat) : Nat := rotr x 28 ^^^ rotr x 34 ^^^ rotr x 39

def bsig1 (x : Nat) : Nat := rotr x 14 ^^^ rotr x 18 ^^^ rotr x 41

def ch (e f g : Nat) : Nat := (e &&& f) ^^^ ((e ^^^ (2 ^ 64 - 1)) &&& g)

def maj (a b c : Nat) : Nat := (a &&& b) ^^^ (a &&& c) ^^^ (b &&& c)

/-- Extend the message schedule by `n` words; the list holds the newest word first. -/
def extend : Nat → List Nat → List Nat
  | 0, ws => ws
  | n + 1, ws =>
    extend n (((ws.getD 15 0 + ssig0 (ws.getD 14 0) + ws.getD 6 0 + ssig1 (ws.getD 1 0))
      % 2 ^ 64) :: ws)

/-- The eight working variables / chaining values. -/
structure Regs where
  a : Nat
  b : Nat
  c : Nat
  d : Nat
  e : Nat
  f : Nat
  g : Nat
  h : Nat

/-- One round, on a round constant paired with a schedule word. -/
def step (r : Regs) (kw : Nat × Nat) : Regs :=
  let t1 := (r.h + bsig1 r.e + ch r.e r.f r.g + kw.1 + kw.2) % 2 ^ 64
  let t2 := (bsig0 r.a + maj r.a r.b r.c) % 2 ^ 64
  { a := (t1 + t2) % 2 ^ 64, b := r.a, c := r.b, d := r.c,
    e := (r.d + t1) % 2 ^ 64, f := r.e, g := r.f, h := r.g }

/-- Big-endian value of a byte string. -/
def word (bs : List Nat) : Nat := bs.foldl (fun acc b => acc * 256 + b) 0

/-- The first `n` 64-bit words of a byte string. -/
def words : Nat → List Nat → List Nat
  | 0, _ => []
  | n + 1, bs => word (bs.take 8) :: words n (bs.drop 8)

/-- Compression of one 128-byte block. -/
def compress (hs : Regs) (block : List Nat) : Regs :=
  let w := (extend 64 (words 16 block).reverse).reverse
  let r := (K.zip w).foldl step hs
  { a := (hs.a + r.a) % 2 ^ 64, b := (hs.b + r.b) % 2 ^ 64,
    c := (hs.c + r.c) % 2 ^ 64, d := (hs.d + r.d) % 2 ^ 64,
    e := (hs.e + r.e) % 2 ^ 64, f := (hs.f + r.f) % 2 ^ 64,
    g := (hs.g + r.g) % 2 ^ 64, h := (hs.h + r.h) % 2 ^ 64 }

/-- The `n` low-order bytes of `x`, most significant first. -/
def bytesBE : Nat → Nat → List Nat
  | 0, _ => []
  | n + 1, x => (x / 256 ^ n) % 256 :: bytesBE n x

/-- Padding: a `0x80` byte, zeros up to 112 modulo 128, then the bit length on 16 bytes. -/
def pad (msg : List Nat) : List Nat :=
  let l := msg.length
  let z := (128 - (l + 17) % 128) % 128
  msg ++ 0x80 :: List.replicate z 0 ++ bytesBE 16 (l * 8)

/-- Fold the compression function over `n` blocks. -/
def run : Nat → Regs → List Nat → Regs
  | 0, hs, _ => hs
  | n + 1, hs, bs => run n (compress hs (bs.take 128)) (bs.drop 128)

/-- The digest `sha512.New()`, `Write`, `Sum(nil)` computes: 64 bytes. -/
def Sum (msg : List Nat) : List Nat :=
  let p := pad msg
  let r := run (p.length / 128)
    ⟨0x6a09e667f3bcc908, 0xbb67ae8584caa73b, 0x3c6ef372fe94f82b, 0xa54ff53a5f1d36f1,
     0x510e527fade682d1, 0x9b05688c2b3e6c1f, 0x1f83d9abfb41bd6b, 0x5be0cd19137e2179⟩ p
  [r.a, r.b, r.c, r.d, r.e, r.f, r.g, r.h].flatMap (bytesBE 8)

end sha512

/-- UTF-8 encoding of one code point, as bytes. -/
def utf8Char (c : Char) : List Nat :=
  let n := c.toNat
  if n < 0x80 then [n]
  else if n < 0x800 then [0xC0 + n / 64, 0x80 + n % 64]
  else if n < 0x10000 then [0xE0 + n / 4096, 0x80 + n / 64 % 64, 0x80 + n % 64]
  else [0xF0 + n / 262144, 0x80 + n / 4096 % 64, 0x80 + n / 64 % 64, 0x80 + n % 64]

/-- The bytes of a Go string: `[]byte(s)`. -/
def bytesOf (s : String) : List Nat := s.toList.flatMap utf8Char

/-- One lower-case hexadecimal digit. -/
def hexDigit (n : Nat) : Char := Char.ofNat (if n < 10 then 48 + n else 87 + n)

/-- The `%x` verb of `fmt.Sprintf` on a byte slice: two lower-case digits a byte. -/
def hexEncode (bs : List Nat) : String :=
  String.mk (bs.flatMap fun b => [hexDigit (b / 16 % 16), hexDigit (b % 16)])

/-- `unicode.IsSpace`: the Latin-1 spaces and the code points with property White_Space. -/
def isSpace (c : Char) : Bool :=
  let n := c.toNat
  (9 ≤ n && n ≤ 13) || n = 0x20 || n = 0x85 || n = 0xA0 || n = 0x1680
    || (0x2000 ≤ n && n ≤ 0x200A) || n = 0x2028 || n = 0x2029 || n = 0x202F
    || n = 0x205F || n = 0x3000

/-- `strings.TrimSpace`: drop leading and trailing white space. -/
def TrimSpace (s : String) : String :=
  String.mk ((s.toList.dropWhile isSpace).reverse.dropWhile isSpace).reverse

/-- `strings.ReplaceAll(s, "-", "")`. -/
def removeDashes (s : String) : String := String.mk (s.toList.filter fun c => c.toNat ≠ 45)

/-- Standard-library functions that depend on tables outside the repository. -/
structure Lib where
  /-- The function `strings.ToLower`. -/
  ToLower : String → String
  /-- The function `strings.ToUpper`. -/
  ToUpper : String → String
  /-- The function `json.Marshal` on an object given as its fields in encoding order. -/
  Marshal : List (String × String) → String
  /-- The function `time.Parse`, by layout and value; `none` when it returns an error. -/
  Parse : String → String → Option Time

/-- Lower-case image of a rune: ASCII letters, and the two non-ASCII runes `unicode.ToLower`
sends into ASCII (U+0130 to `i`, U+212A to `k`); other runes are left fixed. -/
def refLowerRune (c : Char) : Char :=
  let n := c.toNat
  if 65 ≤ n ∧ n ≤ 90 then Char.ofNat (n + 32)
  else if n = 0x130 then Char.ofNat 105
  else if n = 0x212A then Char.ofNat 107
  else c

/-- Upper-case image of a rune: ASCII letters, and the two non-ASCII runes `unicode.ToUpper`
sends into ASCII (U+017F to `S`, U+0131 to `I`); other runes are left fixed. -/
def refUpperRune (c : Char) : Char :=
  let n := c.toNat
  if 97 ≤ n ∧ n ≤ 122 then Char.ofNat (n - 32)
  else if n = 0x17F then Char.ofNat 83
  else if n = 0x131 then Char.ofNat 73
  else c

/-- A concrete library for evaluating the model: exact on ASCII text.  Objects are rendered
as `key=value;` runs and a timestamp parses when it is a non-empty run of digits. -/
def refLib : Lib where
  ToLower s := String.mk (s.toList.map refLowerRune)
  ToUpper s := String.mk (s.toList.map refUpperRune)
  Marshal kvs := String.join (kvs.map fun kv => kv.1 ++ "=" ++ kv.2 ++ ";")
  Parse _ v :=
    if v ≠ "" ∧ v.toList.all (fun c => 48 ≤ c.toNat && c.toNat ≤ 57) then
      some (Int.ofNat (v.toList.foldl (fun acc c => acc * 10 + (c.toNat - 48)) 0))
    else none

/-! ## Validation (`go-playground/validator` tags used by the service) -/

/-- A lower-case hexadecimal digit. -/
def isHexLower (c : Char) : Bool :=
  let n := c.toNat
  (48 ≤ n && n ≤ 57) || (97 ≤ n && n ≤ 102)

/-- Tag `uuid4`: `8-4-4-4-12` lower-case hex digits, version digit `4`, variant in `89ab`. -/
def isUUID4 (s : String) : Bool :=
  let cs := s.toList
  cs.length = 36 && cs.enum.all fun ic =>
    let n := ic.2.toNat
    if ic.1 = 8 ∨ ic.1 = 13 ∨ ic.1 = 18 ∨ ic.1 = 23 then n = 45
    else if ic.1 = 14 then n = 52
    else if ic.1 = 19 then n = 56 || n = 57 || n = 97 || n = 98
    else isHexLower ic.2

/-- Tags `required,uuid4` on a string. -/
def validUUID4 (s : String) : Bool := s ≠ "" && isUUID4 s

/-- Tags `required,gt=0` on an amount. -/
def validAmount (x : Int) : Bool := x ≠ 0 && 0 < x

/-- Tags `required,min=6` on a string (length in runes). -/
def validMin6 (s : String) : Bool := s ≠ "" && 6 ≤ s.toList.length

/-! ## Errors -/

/-- The error values the service and the repository produce. -/
inductive Error where
  /-- The type `services.ErrBadRequest`. -/
  | ErrBadRequest (msg : String)
  /-- The type `services.ErrConflict`. -/
  | ErrConflict (msg : String)
  /-- The type `services.ErrInsufficientBalance`. -/
  | ErrInsufficientBalance (msg : String)
  /-- The type `services.ErrNotFoundResource`. -/
  | ErrNotFoundResource (msg : String)
  /-- The type `repositories.ErrNotFound`. -/
  | ErrNotFound (msg : String)
  /-- The value `sql.ErrNoRows`. -/
  | ErrNoRows
  /-- Any other error: `fmt.Errorf`, a driver or gateway failure. -/
  | other (msg : String)
  deriving DecidableEq, Repr

deriving instance DecidableEq for Except

/-! ## Data model (`internal/repositories/wallet_repo.go`) -/

namespace repositories

/-- A row of `wallet_summary`. -/
structure WalletSummary where
  userId : String
  totalSaldo : Int
  saldoTopup : Int
  saldoRedeem : Int
  evPoin : Int
  updatedAt : Time
  deriving DecidableEq, Repr

/-- A row of `transactions` (the Go field `Type` is named after its column here); its
generated `id` is left out, a row is identified by its position in the table. -/
structure TransactionRecord where
  UserID : String
  TipeTransaksi : String
  Amount : Int
  Description : Option String
  ReferenceID : Option String
  CreatedAt : Time
  deriving DecidableEq, Repr

/-- A row of `vouchers`. -/
structure VoucherRecord where
  ID : String
  Code : String
  Amount : Int
  Description : Option String
  ExpiresAt : Option Time
  Active : Bool
  Quota : Option Int
  PerUserLimit : Option Int
  CreatedAt : Time
  deriving DecidableEq, Repr

/-- A row of `user_voucher_claims`, unique on `(user_id, voucher_id)`. -/
structure VoucherClaim where
  userId : String
  voucherId : String
  claimedAt : Time
  deriving DecidableEq, Repr

/-- A row of `payment_orders`. -/
structure PaymentOrderRecord where
  UserID : String
  OrderID : String
  GrossAmount : Int
  SnapToken : String
  RedirectURL : String
  Status : String
  MidtransTrxID : Option String
  RawNotification : Option String
  SettledAt : Option Time
  BalanceApplied : Bool
  CreatedAt : Time
  UpdatedAt : Time
  deriving DecidableEq, Repr

/-- A row of `payout_requests`. -/
structure PayoutRequestRecord where
  ID : String
  UserID : String
  Amount : Int
  BankCode : String
  BankName : Option String
  AccountNumber : String
  AccountHolderName : String
  Status : String
  MidtransPayoutID : Option String
  RawResponse : Option String
  RequestedAt : Time
  CompletedAt : Option Time
  CreatedAt : Time
  UpdatedAt : Time
  deriving DecidableEq, Repr

/-- A row of `users`, as far as `GetUserProfile` reads it. -/
structure UserRow where
  id : String
  email : String
  phone : Option String
  deriving DecidableEq, Repr

structure UserProfile where
  ID : String
  Email : String
  Name : String
  Phone : String
  deriving DecidableEq, Repr

/-- The committed content of the relational store. -/
structure Store where
  walletSummary : List WalletSummary
  transactions : List TransactionRecord
  vouchers : List VoucherRecord
  userVoucherClaims : List VoucherClaim
  paymentOrders : List PaymentOrderRecord
  payoutRequests : List PayoutRequestRecord
  users : List UserRow
  deriving DecidableEq, Repr

structure CreateTransactionParams where
  UserID : String
  TipeTransaksi : String
  Jumlah : Int
  Deskripsi : String
  ReferensiID : Option String
  CreatedAt : Time

structure AddSaldoParams where
  UserID : String
  DeltaTotal : Int
  DeltaTopup : Int
  DeltaRedeem : Int
  UpdatedAt : Time

structure CreatePaymentOrderParams where
  UserID : String
  OrderID : String
  GrossAmount : Int
  SnapToken : String
  RedirectURL : String

structure UpdatePaymentOrderStatusParams where
  OrderID : String
  Status : String
  MidtransTrxID : Option String
  RawNotification : Option String
  SettledAt : Option Time
  BalanceAlreadyUsed : Option Bool

structure CreatePayoutRequestParams where
  UserID : String
  Amount : Int
  BankCode : String
  BankName : String
  AccountNumber : String
  AccountHolderName : String
  Status : String
  MidtransPayoutID : Option String
  RawResponse : Option String
  RequestedAt : Time
  CompletedAt : Option Time

structure UpdatePayoutRequestStatusParams where
  ID : String
  Status : String
  MidtransPayoutID : Option String
  RawResponse : Option String
  CompletedAt : Option Time

/-- Which repository calls of the current operation fail with a driver error.  Every
operation of the service issues each call at most once. -/
structure Faults where
  BeginTx : Bool := false
  Commit : Bool := false
  GetSaldoForUpdate : Bool := false
  GetUserProfile : Bool := false
  GetVoucherByCode : Bool := false
  CreateVoucherClaim : Bool := false
  CreateTransaction : Bool := false
  AddSaldo : Bool := false
  CreatePaymentOrder : Bool := false
  GetPaymentOrder : Bool := false
  UpdatePaymentOrderStatus : Bool := false
  CreatePayoutRequest : Bool := false
  UpdatePayoutRequestStatus : Bool := false
  deriving DecidableEq, Repr

/-- The error of a failed statement. -/
def driverError : Error := .other "store failure"

/-- A transactional scope (`*sql.Tx`): the statements executed in it so far, oldest first.
Under READ COMMITTED each statement sees the committed store with the scope's own writes
applied; `Commit` installs them, `Rollback` drops them. -/
structure Tx where
  log : List (Store → Store)

/-- What a statement of the scope sees. -/
def Tx.view (tx : Tx) (db : Store) : Store := tx.log.foldl (fun st w => w st) db

/-- Execute a write in the scope. -/
def Tx.exec (tx : Tx) (w : Store → Store) : Tx := ⟨tx.log ++ [w]⟩

def BeginTx (f : Faults) : Except Error Tx :=
  if f.BeginTx then .error driverError else .ok ⟨[]⟩

/-- The method `tx.Commit()`. -/
def Commit (f : Faults) (tx : Tx) (db : Store) : Except Error Store :=
  if f.Commit then .error driverError else .ok (tx.view db)

/-- The query of `GetSaldo` and `GetSaldoForUpdate` on a table. -/
def selectSaldo (ws : List WalletSummary) (userID : String) :
    Except Error (Int × Int × Int × Int) :=
  match ws.find? (fun w => w.userId = userID) with
  | none => .error (.ErrNotFound "wallet not found")
  | some w => .ok (w.totalSaldo, w.saldoTopup, w.saldoRedeem, w.evPoin)

def GetSaldo (db : Store) (userID : String) : Except Error (Int × Int × Int × Int) :=
  selectSaldo db.walletSummary userID

def GetSaldoForUpdate (f : Faults) (tx : Tx) (db : Store) (userID : String) :
    Except Error (Int × Int × Int × Int) :=
  if f.GetSaldoForUpdate then .error driverError
  else selectSaldo (tx.view db).walletSummary userID

/-- The profile name: the part of the e-mail address before its first `@`, when that part
is not empty. -/
def profileName (email : String) : String :=
  let pre := email.toList.takeWhile (fun c => c.toNat ≠ 64)
  if pre.length < email.toList.length ∧ 0 < pre.length then String.mk pre else ""

def GetUserProfile (f : Faults) (db : Store) (userID : String) : Except Error UserProfile :=
  if f.GetUserProfile then .error driverError
  else match db.users.find? (fun u => u.id = userID) with
    | none => .error (.ErrNotFound "user not found")
    | some u =>
      .ok { ID := u.id, Email := u.email, Name := profileName u.email,
            Phone := u.phone.getD "" }

/-- The insert of `CreateVoucherClaim`: `ON CONFLICT (user_id, voucher_id) DO NOTHING`. -/
def insertVoucherClaim (c : VoucherClaim) (st : Store) : Store :=
  if st.userVoucherClaims.any (fun r => r.userId = c.userId ∧ r.voucherId = c.voucherId)
  then st
  else { st with userVoucherClaims := st.userVoucherClaims ++ [c] }

/-- Returns whether a row was inserted (`RowsAffected() == 1`). -/
def CreateVoucherClaim (f : Faults) (tx : Tx) (db : Store) (userID voucherID : String)
    (now : Time) : Except Error (Bool × Tx) :=
  if f.CreateVoucherClaim then .error driverError
  else
    let inserted := !(tx.view db).userVoucherClaims.any
      (fun r => r.userId = userID ∧ r.voucherId = voucherID)
    .ok (inserted, tx.exec (insertVoucherClaim ⟨userID, voucherID, now⟩))

def GetVoucherByCode (f : Faults) (db : Store) (kode : String) :
    Except Error (String × Int × Bool × Option Time) :=
  if f.GetVoucherByCode then .error driverError
  else match db.vouchers.find? (fun v => v.Code = kode) with
    | none => .error .ErrNoRows
    | some v => .ok (v.ID, v.Amount, v.Active, v.ExpiresAt)

/-- The insert of `CreateTransaction`. -/
def insertTransaction (p : CreateTransactionParams) (st : Store) : Store :=
  { st with transactions := st.transactions ++
      [{ UserID := p.UserID, TipeTransaksi := p.TipeTransaksi, Amount := p.Jumlah,
         Description := some p.Deskripsi, ReferenceID := p.ReferensiID,
         CreatedAt := p.CreatedAt }] }

def CreateTransaction (f : Faults) (tx : Tx) (p : CreateTransactionParams) : Except Error Tx :=
  if f.CreateTransaction then .error driverError else .ok (tx.exec (insertTransaction p))

/-- The upsert of `AddSaldo` on the table: insert the deltas as a new row when the user has
none, otherwise add them to the existing row. -/
def upsertSaldo (p : AddSaldoParams) : List WalletSummary → List WalletSummary
  | [] => [{ userId := p.UserID, totalSaldo := p.DeltaTotal, saldoTopup := p.DeltaTopup,
             saldoRedeem := p.DeltaRedeem, evPoin := 0, updatedAt := p.UpdatedAt }]
  | w :: ws =>
    if w.userId = p.UserID then
      { w with totalSaldo := w.totalSaldo + p.DeltaTotal,
               saldoTopup := w.saldoTopup + p.DeltaTopup,
               saldoRedeem := w.saldoRedeem + p.DeltaRedeem,
               updatedAt := p.UpdatedAt } :: ws
    else w :: upsertSaldo p ws

def AddSaldo (f : Faults) (tx : Tx) (p : AddSaldoParams) : Except Error Tx :=
  if f.AddSaldo then .error driverError
  else .ok (tx.exec fun st => { st with walletSummary := upsertSaldo p st.walletSummary })

/-- Modelled from the spec: the column defaults of `payment_orders` (the migrations are not
among the sources): a new order is PENDING, carries no gateway data and has
`balanceApplied = false`. -/
def newPaymentOrder (p : CreatePaymentOrderParams) (dbNow : Time) : PaymentOrderRecord :=
  { UserID := p.UserID, OrderID := p.OrderID, GrossAmount := p.GrossAmount,
    SnapToken := p.SnapToken, RedirectURL := p.RedirectURL, Status := "PENDING",
    MidtransTrxID := none, RawNotification := none, SettledAt := none,
    BalanceApplied := false, CreatedAt := dbNow, UpdatedAt := dbNow }

def CreatePaymentOrder (f : Faults) (db : Store) (p : CreatePaymentOrderParams) (dbNow : Time) :
    Except Error Store :=
  if f.CreatePaymentOrder then .error driverError
  else .ok { db with paymentOrders := db.paymentOrders ++ [newPaymentOrder p dbNow] }

def GetPaymentOrder (f : Faults) (db : Store) (orderID : String) :
    Except Error PaymentOrderRecord :=
  if f.GetPaymentOrder then .error driverError
  else match db.paymentOrders.find? (fun o => o.OrderID = orderID) with
    | none => .error (.ErrNotFound "payment order not found")
    | some o => .ok o

/-- The `SET` clause of `updatePaymentOrderStatus` on one row: the status is overwritten,
the `COALESCE` columns only when a value is supplied. -/
def setPaymentOrder (p : UpdatePaymentOrderStatusParams) (dbNow : Time)
    (o : PaymentOrderRecord) : PaymentOrderRecord :=
  { o with Status := p.Status,
           MidtransTrxID := p.MidtransTrxID.orElse fun _ => o.MidtransTrxID,
           RawNotification := p.RawNotification.orElse fun _ => o.RawNotification,
           SettledAt := p.SettledAt.orElse fun _ => o.SettledAt,
           BalanceApplied := p.BalanceAlreadyUsed.getD o.BalanceApplied,
           UpdatedAt := dbNow }

/-- The statement of `updatePaymentOrderStatus`: every row `WHERE order_id = $1`. -/
def updatePaymentOrderStatus (p : UpdatePaymentOrderStatusParams) (dbNow : Time)
    (st : Store) : Store :=
  { st with paymentOrders := st.paymentOrders.map fun o =>
      if o.OrderID = p.OrderID then setPaymentOrder p dbNow o else o }

def UpdatePaymentOrderStatus (f : Faults) (db : Store) (p : UpdatePaymentOrderStatusParams)
    (dbNow : Time) : Except Error Store :=
  if f.UpdatePaymentOrderStatus then .error driverError
  else .ok (updatePaymentOrderStatus p dbNow db)

def UpdatePaymentOrderStatusTx (f : Faults) (tx : Tx) (p : UpdatePaymentOrderStatusParams)
    (dbNow : Time) : Except Error Tx :=
  if f.UpdatePaymentOrderStatus then .error driverError
  else .ok (tx.exec (updatePaymentOrderStatus p dbNow))

/-- The row `CreatePayoutRequest` inserts and returns; `id` is the identifier the store
generates, the two timestamps are column defaults. -/
def newPayoutRequest (p : CreatePayoutRequestParams) (id : String) (dbNow : Time) :
    PayoutRequestRecord :=
  { ID := id, UserID := p.UserID, Amount := p.Amount, BankCode := p.BankCode,
    BankName := some p.BankName, AccountNumber := p.AccountNumber,
    AccountHolderName := p.AccountHolderName, Status := p.Status,
    MidtransPayoutID := p.MidtransPayoutID, RawResponse := p.RawResponse,
    RequestedAt := p.RequestedAt, CompletedAt := p.CompletedAt,
    CreatedAt := dbNow, UpdatedAt := dbNow }

def CreatePayoutRequest (f : Faults) (db : Store) (p : CreatePayoutRequestParams)
    (id : String) (dbNow : Time) : Except Error (PayoutRequestRecord × Store) :=
  if f.CreatePayoutRequest then .error driverError
  else .ok (newPayoutRequest p id dbNow,
            { db with payoutRequests := db.payoutRequests ++ [newPayoutRequest p id dbNow] })

/-- The statement of `updatePayoutRequestStatus`: every row `WHERE id = $1`. -/
def updatePayoutRequestStatus (p : UpdatePayoutRequestStatusParams) (dbNow : Time)
    (st : Store) : Store :=
  { st with payoutRequests := st.payoutRequests.map fun r =>
      if r.ID = p.ID then
        { r with Status := p.Status,
                 MidtransPayoutID := p.MidtransPayoutID.orElse fun _ => r.MidtransPayoutID,
                 RawResponse := p.RawResponse.orElse fun _ => r.RawResponse,
                 CompletedAt := p.CompletedAt.orElse fun _ => r.CompletedAt,
                 UpdatedAt := dbNow }
      else r }

def UpdatePayoutRequestStatus (f : Faults) (db : Store) (p : UpdatePayoutRequestStatusParams)
    (dbNow : Time) : Except Error Store :=
  if f.UpdatePayoutRequestStatus then .error driverError
  else .ok (updatePayoutRequestStatus p dbNow db)

end repositories

/-! ## Gateway clients and signature check (`internal/services/midtrans_client.go`) -/

namespace services

open repositories

structure SnapClient where
  ServerKey : String
  BaseURL : String
  deriving DecidableEq, Repr

structure SnapCustomerDetails where
  FirstName : String
  Email : String
  Phone : String
  deriving DecidableEq, Repr

/-- The request of a Snap transaction: `transaction_details` and optional customer. -/
structure SnapRequest where
  OrderID : String
  GrossAmount : Int
  CustomerDetails : Option SnapCustomerDetails
  deriving DecidableEq, Repr

structure SnapResponse where
  Token : String
  RedirectURL : String
  deriving DecidableEq, Repr

structure IrisClient where
  BaseURL : String
  ClientKey : String
  ClientSecret : String
  deriving DecidableEq, Repr

/-- The single element of `IrisPayoutRequest.Payouts` the service sends. -/
structure IrisPayoutRequest where
  Amount : String
  BeneficiaryName : String
  BeneficiaryAccount : String
  BeneficiaryBank : String
  BeneficiaryEmail : String
  Notes : String
  PartnerTrxID : String
  deriving DecidableEq, Repr

structure IrisPayoutResponse where
  Result : String
  PayoutID : String
  Status : String
  deriving DecidableEq, Repr

/-- The payload of a gateway notification. -/
structure NotificationPayload where
  TransactionStatus : String
  FraudStatus : String
  OrderID : String
  StatusCode : String
  GrossAmount : String
  SignatureKey : String
  PaymentType : String
  TransactionID : String
  SettlementTime : String
  deriving DecidableEq, Repr

/-- Hex-encoded SHA-512 digest of the bytes of `input`. -/
def computeSHA512 (input : String) : String := hexEncode (sha512.Sum (bytesOf input))

def VerifyNotificationSignature (serverKey : String) (payload : NotificationPayload) : Bool :=
  let raw := payload.OrderID ++ payload.StatusCode ++ payload.GrossAmount ++ serverKey
  let expected := computeSHA512 raw
  expected = payload.SignatureKey

/-! ## Wallet service (`internal/services/wallet_service.go`) -/

/-- The configuration held by a `WalletService`; its repository is the store argument of
each operation, its clock and its gateways are in `Env`. -/
structure WalletService where
  snapClient : Option SnapClient
  irisClient : Option IrisClient
  midtransServerKey : String
  callbackToken : String
  deriving DecidableEq, Repr

/-- What one call of the service observes of its environment. -/
structure Env where
  /-- The `k`-th reading of the clock `s.now` during the call. -/
  now : Nat → Time
  /-- The value of `now()` inside the store. -/
  dbNow : Time
  /-- The result of `uuid.NewString()`. -/
  uuid : String
  /-- The identifier the store generates for a row of `payout_requests`. -/
  payoutRowID : String
  faults : Faults
  /-- The answer of the payment gateway to `SnapClient.CreateTransaction`. -/
  snap : SnapRequest → Except Error SnapResponse
  /-- The answer of the payout gateway to `IrisClient.CreatePayout`. -/
  iris : IrisPayoutRequest → Except Error IrisPayoutResponse

/-- The fields `json.Marshal` writes for a payload, in struct order. -/
def payloadFields (p : NotificationPayload) : List (String × String) :=
  [("transaction_status", p.TransactionStatus), ("fraud_status", p.FraudStatus),
   ("order_id", p.OrderID), ("status_code", p.StatusCode), ("gross_amount", p.GrossAmount),
   ("signature_key", p.SignatureKey), ("payment_type", p.PaymentType),
   ("transaction_id", p.TransactionID), ("settlement_time", p.SettlementTime)]

/-- The `switch` of `HandleSnapNotification`: the internal status and `applyBalance`. -/
def newStatus (L : Lib) (payload : NotificationPayload) : String × Bool :=
  let status := L.ToLower payload.TransactionStatus
  let fraud := L.ToLower payload.FraudStatus
  if status = "capture" then
    if fraud = "accept" then ("SETTLEMENT", true) else ("PENDING", false)
  else if status = "settlement" then ("SETTLEMENT", true)
  else if status = "cancel" then ("CANCELLED", false)
  else if status = "expire" then ("EXPIRED", false)
  else if status = "deny" then ("DENY", false)
  else (L.ToUpper payload.TransactionStatus, false)

/-- The settlement time of `HandleSnapNotification`: RFC 3339, else `2006-01-02 15:04:05`,
else unset. -/
def settledAt (L : Lib) (settlementTime : String) : Option Time :=
  if settlementTime ≠ "" then
    match L.Parse "2006-01-02T15:04:05Z07:00" settlementTime with
    | some t => some t
    | none => L.Parse "2006-01-02 15:04:05" settlementTime
  else none

/-- Returns the committed store after the call and the error value (`ok` for `nil`). -/
def HandleSnapNotification (L : Lib) (s : WalletService) (env : Env) (db : Store)
    (payload : NotificationPayload) : Store × Except Error Unit :=
  if s.midtransServerKey = "" then
    (db, .error (.other "midtrans server key belum dikonfigurasi"))
  else if !VerifyNotificationSignature s.midtransServerKey payload then
    (db, .error (.ErrBadRequest "signature midtrans tidak valid"))
  else
    match GetPaymentOrder env.faults db payload.OrderID with
    | .error (.ErrNotFound m) => (db, .error (.ErrNotFoundResource m))
    | .error e => (db, .error e)
    | .ok order =>
      let st := newStatus L payload
      let rawBytes := L.Marshal (payloadFields payload)
      let midtransID := if payload.TransactionID ≠ "" then some payload.TransactionID else none
      if st.1 = "SETTLEMENT" ∧ order.BalanceApplied = false ∧ st.2 = true then
        match BeginTx env.faults with
        | .error e => (db, .error e)
        | .ok tx =>
          match UpdatePaymentOrderStatusTx env.faults tx
              { OrderID := order.OrderID, Status := st.1, MidtransTrxID := midtransID,
                RawNotification := some rawBytes,
                SettledAt := settledAt L payload.SettlementTime,
                BalanceAlreadyUsed := some true } env.dbNow with
          | .error e => (db, .error e)
          | .ok tx =>
            let ref := if payload.TransactionID = "" then order.OrderID
              else payload.TransactionID
            match CreateTransaction env.faults tx
                { UserID := order.UserID, TipeTransaksi := "TOP_UP",
                  Jumlah := order.GrossAmount, Deskripsi := "Top up via Midtrans",
                  ReferensiID := some ref, CreatedAt := env.now 0 } with
            | .error e => (db, .error e)
            | .ok tx =>
              match AddSaldo env.faults tx
                  { UserID := order.UserID, DeltaTotal := order.GrossAmount,
                    DeltaTopup := order.GrossAmount, DeltaRedeem := 0,
                    UpdatedAt := env.now 1 } with
              | .error e => (db, .error e)
              | .ok tx =>
                match Commit env.faults tx db with
                | .error e => (db, .error e)
                | .ok db1 => (db1, .ok ())
      else
        match UpdatePaymentOrderStatus env.faults db
            { OrderID := order.OrderID, Status := st.1, MidtransTrxID := midtransID,
              RawNotification := some rawBytes,
              SettledAt := settledAt L payload.SettlementTime,
              BalanceAlreadyUsed := none } env.dbNow with
        | .error e => (db, .error e)
        | .ok db1 => (db1, .ok ())

structure KlaimVoucherInput where
  UserID : String
  KodeVoucher : String
  deriving DecidableEq, Repr

/-- The call `s.validate.Struct(in)` on a `KlaimVoucherInput`: the first failing field. -/
def validateKlaimVoucherInput (inp : KlaimVoucherInput) : Option String :=
  if !validUUID4 inp.UserID then some "KlaimVoucherInput.UserID"
  else if !validMin6 inp.KodeVoucher then some "KlaimVoucherInput.KodeVoucher"
  else none

def KlaimVoucher (env : Env) (db : Store) (inp : KlaimVoucherInput) :
    Store × Except Error Unit :=
  match validateKlaimVoucherInput inp with
  | some e => (db, .error (.ErrBadRequest e))
  | none =>
    match GetVoucherByCode env.faults db inp.KodeVoucher with
    | .error .ErrNoRows => (db, .error (.ErrBadRequest "voucher tidak ditemukan"))
    | .error e => (db, .error e)
    | .ok (vID, nilai, aktif, exp) =>
      let now := env.now 0
      if !aktif then (db, .error (.ErrConflict "voucher non-aktif"))
      else if (match exp with | some t => decide (t < now) | none => false) then
        (db, .error (.ErrConflict "voucher kadaluarsa"))
      else
        match BeginTx env.faults with
        | .error e => (db, .error e)
        | .ok tx =>
          match CreateVoucherClaim env.faults tx db inp.UserID vID now with
          | .error e => (db, .error e)
          | .ok (inserted, tx) =>
            if !inserted then (db, .error (.ErrConflict "voucher sudah diklaim"))
            else
              match CreateTransaction env.faults tx
                  { UserID := inp.UserID, TipeTransaksi := "KLAIM_VOUCHER", Jumlah := nilai,
                    Deskripsi := "Klaim voucher " ++ inp.KodeVoucher,
                    ReferensiID := some vID, CreatedAt := now } with
              | .error e => (db, .error e)
              | .ok tx =>
                match AddSaldo env.faults tx
                    { UserID := inp.UserID, DeltaTotal := nilai, DeltaTopup := 0,
                      DeltaRedeem := nilai, UpdatedAt := now } with
                | .error e => (db, .error e)
                | .ok tx =>
                  match Commit env.faults tx db with
                  | .error e => (db, .error e)
                  | .ok db1 => (db1, .ok ())

structure TopUpInput where
  UserID : String
  Jumlah : Int
  deriving DecidableEq, Repr

structure TopUpResult where
  OrderID : String
  SnapToken : String
  RedirectURL : String
  Status : String
  deriving DecidableEq, Repr

/-- The call `s.validate.Struct(in)` on a `TopUpInput`: the first failing field. -/
def validateTopUpInput (inp : TopUpInput) : Option String :=
  if !validUUID4 inp.UserID then some "TopUpInput.UserID"
  else if !validAmount inp.Jumlah then some "TopUpInput.Jumlah"
  else none

def TopUp (s : WalletService) (env : Env) (db : Store) (inp : TopUpInput) :
    Store × Except Error TopUpResult :=
  match validateTopUpInput inp with
  | some e => (db, .error (.ErrBadRequest e))
  | none =>
    match s.snapClient with
    | none => (db, .error (.other "midtrans snap client belum dikonfigurasi"))
    | some _ =>
      match GetUserProfile env.faults db inp.UserID with
      | .error e => (db, .error e)
      | .ok user =>
        let orderID := "TOPUP-" ++ removeDashes env.uuid
        let req : SnapRequest :=
          { OrderID := orderID, GrossAmount := inp.Jumlah,
            CustomerDetails := some { FirstName := user.Name, Email := user.Email,
                                      Phone := user.Phone } }
        match env.snap req with
        | .error e => (db, .error e)
        | .ok res =>
          match CreatePaymentOrder env.faults db
              { UserID := inp.UserID, OrderID := orderID, GrossAmount := inp.Jumlah,
                SnapToken := res.Token, RedirectURL := res.RedirectURL } env.dbNow with
          | .error e => (db, .error e)
          | .ok db1 =>
            (db1, .ok { OrderID := orderID, SnapToken := res.Token,
                        RedirectURL := res.RedirectURL, Status := "PENDING" })

structure WithdrawInput where
  UserID : String
  Jumlah : Int
  BalanceType : String
  BalanceTypeAlt : String
  Source : String
  BankCode : String
  BankName : String
  AccountNumber : String
  AccountHolderName : String
  Email : String
  Phone : String
  Notes : String
  deriving DecidableEq, Repr

structure WithdrawResult where
  OrderID : String
  Status : String
  deriving DecidableEq, Repr

def firstNonEmpty : List String → String
  | [] => ""
  | v :: values => if TrimSpace v ≠ "" then v else firstNonEmpty values

/-- The `switch` of `Withdraw` on the normalised balance type; `none` is its `default`. -/
def target (balanceType : String) : Option String :=
  if balanceType = "topup" ∨ balanceType = "saldo_topup" ∨ balanceType = "pendapatan"
      ∨ balanceType = "deposit" ∨ balanceType = "saldo_deposit" then some "topup"
  else if balanceType = "redeem" ∨ balanceType = "saldo_redeem" ∨ balanceType = "refund"
      ∨ balanceType = "saldo_refund" ∨ balanceType = "ev" ∨ balanceType = "ev_poin" then
    some "redeem"
  else none

/-- The payout call made after the debit is committed: skipped without a configured client,
its failure and the failure of the status update are swallowed. -/
def payoutAfterCommit (L : Lib) (s : WalletService) (env : Env) (db : Store)
    (inp : WithdrawInput) (amount : Int) (payoutID : String) (payout : PayoutRequestRecord) :
    Store × String :=
  match s.irisClient with
  | none => (db, "PENDING")
  | some c =>
    if c.ClientKey ≠ "" ∧ c.ClientSecret ≠ "" then
      match env.iris
          { Amount := toString amount, BeneficiaryName := inp.AccountHolderName,
            BeneficiaryAccount := inp.AccountNumber, BeneficiaryBank := inp.BankCode,
            BeneficiaryEmail := inp.Email, Notes := inp.Notes, PartnerTrxID := payoutID } with
      | .error _ => (db, "PENDING")
      | .ok irisRes =>
        let resBytes := L.Marshal [("result", irisRes.Result),
          ("payout_id", irisRes.PayoutID), ("status", irisRes.Status)]
        match UpdatePayoutRequestStatus env.faults db
            { ID := payout.ID, Status := L.ToUpper irisRes.Status,
              MidtransPayoutID := some irisRes.PayoutID, RawResponse := some resBytes,
              CompletedAt := none } env.dbNow with
        | .error _ => (db, L.ToUpper irisRes.Status)
        | .ok db1 => (db1, L.ToUpper irisRes.Status)
    else (db, "PENDING")

def Withdraw (L : Lib) (s : WalletService) (env : Env) (db : Store) (inp : WithdrawInput) :
    Store × Except Error WithdrawResult :=
  if !validUUID4 inp.UserID then (db, .error (.ErrBadRequest "UserID"))
  else if !validAmount inp.Jumlah then (db, .error (.ErrBadRequest "Jumlah"))
  else if TrimSpace inp.BankCode = "" ∨ TrimSpace inp.AccountNumber = ""
      ∨ TrimSpace inp.AccountHolderName = "" then
    (db, .error (.ErrBadRequest "data bank wajib diisi"))
  else
    let balanceType := L.ToLower (TrimSpace
      (firstNonEmpty [inp.BalanceType, inp.BalanceTypeAlt, inp.Source]))
    if balanceType = "" then (db, .error (.ErrBadRequest "balanceType wajib diisi"))
    else
      match target balanceType with
      | none => (db, .error (.ErrBadRequest "balanceType tidak valid"))
      | some target =>
        match BeginTx env.faults with
        | .error e => (db, .error e)
        | .ok tx =>
          match GetSaldoForUpdate env.faults tx db inp.UserID with
          | .error e => (db, .error e)
          | .ok (total, topupBalance, redeemBalance, _) =>
            let amount := inp.Jumlah
            if target = "topup" ∧ topupBalance < amount then
              (db, .error (.ErrInsufficientBalance "saldo top up tidak mencukupi"))
            else if target = "redeem" ∧ redeemBalance < amount then
              (db, .error (.ErrInsufficientBalance "saldo redeem tidak mencukupi"))
            else if total < amount then
              (db, .error (.ErrInsufficientBalance "total saldo tidak mencukupi"))
            else
              let now := env.now 0
              let deltaTopup : Int := if target = "topup" then -amount else 0
              let deltaRedeem : Int := if target = "redeem" then -amount else 0
              let txnType := if target = "redeem" then "TARIK_SALDO_REFUND"
                else if target = "topup" then "TARIK_SALDO_PENDAPATAN" else ""
              let txnDesc := if target = "redeem" then "Tarik saldo redeem"
                else if target = "topup" then "Tarik saldo top up" else ""
              let payoutID := "WD-" ++ removeDashes env.uuid
              let rawBytes := L.Marshal [("accountHolderName", inp.AccountHolderName),
                ("accountNumber", inp.AccountNumber), ("bankCode", inp.BankCode),
                ("bankName", inp.BankName), ("notes", inp.Notes)]
              match CreatePayoutRequest env.faults db
                  { UserID := inp.UserID, Amount := amount, BankCode := inp.BankCode,
                    BankName := inp.BankName, AccountNumber := inp.AccountNumber,
                    AccountHolderName := inp.AccountHolderName, Status := "PENDING",
                    MidtransPayoutID := none, RawResponse := some rawBytes,
                    RequestedAt := now, CompletedAt := none }
                  env.payoutRowID env.dbNow with
              | .error e => (db, .error e)
              | .ok (payout, db1) =>
                match CreateTransaction env.faults tx
                    { UserID := inp.UserID, TipeTransaksi := txnType, Jumlah := amount,
                      Deskripsi := txnDesc, ReferensiID := none, CreatedAt := now } with
                | .error e => (db1, .error e)
                | .ok tx =>
                  match AddSaldo env.faults tx
                      { UserID := inp.UserID, DeltaTotal := -amount,
                        DeltaTopup := deltaTopup, DeltaRedeem := deltaRedeem,
                        UpdatedAt := now } with
                  | .error e => (db1, .error e)
                  | .ok tx =>
                    match Commit env.faults tx db1 with
                    | .error e => (db1, .error e)
                    | .ok db2 =>
                      let r := payoutAfterCommit L s env db2 inp amount payoutID payout
                      (r.1, .ok { OrderID := payout.ID, Status := r.2 })

end services

/-! ## Observations used in the statements -/

namespace services

open repositories

/-- The balance `(total, topup, redeem)` of a user in the wallet table; a user without a row
counts as `(0, 0, 0)`. -/
def saldo (ws : List WalletSummary) (userID : String) : Int × Int × Int :=
  match ws.find? (fun w => w.userId = userID) with
  | none => (0, 0, 0)
  | some w => (w.totalSaldo, w.saldoTopup, w.saldoRedeem)

/-- Every wallet row has `totalBalance = topupBalance + redeemBalance`. -/
def WalletInvariant (db : Store) : Prop :=
  ∀ w ∈ db.walletSummary, w.totalSaldo = w.saldoTopup + w.saldoRedeem

/-- The notification carries the signature of the configured server key: it passes the two
guards at the head of `HandleSnapNotification`. -/
def validlySigned (s : WalletService) (payload : NotificationPayload) : Prop :=
  s.midtransServerKey ≠ "" ∧ VerifyNotificationSignature s.midtransServerKey payload = true

instance (s : WalletService) (payload : NotificationPayload) :
    Decidable (validlySigned s payload) := by
  unfold validlySigned; infer_instance

/-- The number of claim rows of a user for a voucher. -/
def claimCount (db : Store) (userID voucherID : String) : Nat :=
  (db.userVoucherClaims.filter fun c => c.userId = userID ∧ c.voucherId = voucherID).length

/-- The store after a committed voucher claim. -/
def klaimed (db : Store) (inp : KlaimVoucherInput) (v : VoucherRecord) (now : Time) : Store :=
  { db with
    userVoucherClaims := db.userVoucherClaims ++ [⟨inp.UserID, v.ID, now⟩],
    transactions := db.transactions ++
      [{ UserID := inp.UserID, TipeTransaksi := "KLAIM_VOUCHER", Amount := v.Amount,
         Description := some ("Klaim voucher " ++ inp.KodeVoucher),
         ReferenceID := some v.ID, CreatedAt := now }],
    walletSummary := upsertSaldo
      { UserID := inp.UserID, DeltaTotal := v.Amount, DeltaTopup := 0,
        DeltaRedeem := v.Amount, UpdatedAt := now } db.walletSummary }

/-! ### Concrete data for evaluating the model -/

/-- An environment without failures: the clock reads `1000`, both gateways are down. -/
def env0 : Env :=
  { now := fun _ => 1000, dbNow := 1001, uuid := "0f8fad5b-d9cb-469f-a165-70867728950e",
    payoutRowID := "payout-1", faults := {},
    snap := fun _ => .error (.other "gateway down"),
    iris := fun _ => .error (.other "gateway down") }

def user0 : String := "123e4567-e89b-42d3-a456-426614174000"

def voucher0 : VoucherRecord :=
  { ID := "voucher-1", Code := "HEMAT50", Amount := 50000, Description := none,
    ExpiresAt := none, Active := true, Quota := none, PerUserLimit := none, CreatedAt := 0 }

/-- A store with one voucher and a zero balance for `user0`. -/
def dbVoucher : Store :=
  { walletSummary := [⟨user0, 0, 0, 0, 0, 0⟩], transactions := [], vouchers := [voucher0],
    userVoucherClaims := [], paymentOrders := [], payoutRequests := [], users := [] }

def klaim0 : KlaimVoucherInput := { UserID := user0, KodeVoucher := "HEMAT50" }

end services

namespace services

open repositories

/-- The order update `HandleSnapNotification` issues; `applied` is `some true` on the
crediting path and unset on the other. -/
def orderUpdate (L : Lib) (payload : NotificationPayload) (order : PaymentOrderRecord)
    (applied : Option Bool) : UpdatePaymentOrderStatusParams :=
  { OrderID := order.OrderID, Status := (newStatus L payload).1,
    MidtransTrxID := if payload.TransactionID ≠ "" then some payload.TransactionID else none,
    RawNotification := some (L.Marshal (payloadFields payload)),
    SettledAt := settledAt L payload.SettlementTime,
    BalanceAlreadyUsed := applied }

/-- The `TOP_UP` record of a settlement. -/
def topUpRecord (env : Env) (payload : NotificationPayload) (order : PaymentOrderRecord) :
    TransactionRecord :=
  { UserID := order.UserID, TipeTransaksi := "TOP_UP", Amount := order.GrossAmount,
    Description := some "Top up via Midtrans",
    ReferenceID := some (if payload.TransactionID = "" then order.OrderID
      else payload.TransactionID),
    CreatedAt := env.now 0 }

/-- The store after the crediting path of `HandleSnapNotification` commits. -/
def settled (L : Lib) (env : Env) (db : Store) (payload : NotificationPayload)
    (order : PaymentOrderRecord) : Store :=
  { db with
    paymentOrders := (updatePaymentOrderStatus (orderUpdate L payload order (some true))
      env.dbNow db).paymentOrders,
    transactions := db.transactions ++ [topUpRecord env payload order],
    walletSummary := upsertSaldo
      { UserID := order.UserID, DeltaTotal := order.GrossAmount,
        DeltaTopup := order.GrossAmount, DeltaRedeem := 0, UpdatedAt := env.now 1 }
      db.walletSummary }

end services

namespace services

open repositories

/-- The fixed part of the status table of the specification, keyed by the lower-cased
`transaction_status`. -/
def statusTable : List (String × String) :=
  [("settlement", "SETTLEMENT"), ("cancel", "CANCELLED"), ("expire", "EXPIRED"),
   ("deny", "DENY")]

/-- The internal status as the specification words it: `capture` is decided by the fraud
status, the table gives the four fixed states, every other value is upper-cased. -/
def internalStatus (L : Lib) (transactionStatus fraudStatus : String) : String :=
  if L.ToLower transactionStatus = "capture" then
    if L.ToLower fraudStatus = "accept" then "SETTLEMENT" else "PENDING"
  else
    match statusTable.lookup (L.ToLower transactionStatus) with
    | some st => st
    | none => L.ToUpper transactionStatus

/-- A service with a configured server key. -/
def svc0 : WalletService :=
  { snapClient := some ⟨"SB-Mid-server-KEY", ""⟩, irisClient := none,
    midtransServerKey := "SB-Mid-server-KEY", callbackToken := "" }

/-- A service whose server key is not configured. -/
def svcNoKey : WalletService :=
  { snapClient := none, irisClient := none, midtransServerKey := "", callbackToken := "" }

def order0 : PaymentOrderRecord :=
  { UserID := user0, OrderID := "TOPUP-1", GrossAmount := 100000, SnapToken := "tok",
    RedirectURL := "https://pay.example/tok", Status := "PENDING", MidtransTrxID := none,
    RawNotification := none, SettledAt := none, BalanceApplied := false, CreatedAt := 0,
    UpdatedAt := 0 }

/-- A store with one pending order and no wallet row. -/
def dbOrder : Store :=
  { walletSummary := [], transactions := [], vouchers := [], userVoucherClaims := [],
    paymentOrders := [order0], payoutRequests := [], users := [] }

/-- A settlement notification for `order0` signed with the key of `svc0`: its signature is
the SHA-512 digest of `TOPUP-1` `200` `100000.00` `SB-Mid-server-KEY`. -/
def payload0 : NotificationPayload :=
  { TransactionStatus := "settlement", FraudStatus := "accept", OrderID := "TOPUP-1",
    StatusCode := "200", GrossAmount := "100000.00",
    SignatureKey :=
      "2283e1002772cdf878d9a54b2586f3e87d1cb70076468f7feb904b7131f2f1bc" ++
      "d93236a6123516c370ec47dd3e16588ac8fea2e16afc133a45716966492128e8",
    PaymentType := "bank_transfer", TransactionID := "trx-1", SettlementTime := "" }

/-- The same notification with a signature that matches no key. -/
def payloadBad : NotificationPayload := { payload0 with SignatureKey := "00" }

end services

namespace services

open repositories

/-- The balance type `Withdraw` switches on: the first non-blank of the three input
fields, trimmed and lower-cased. -/
def balanceTypeOf (L : Lib) (inp : WithdrawInput) : String :=
  L.ToLower (TrimSpace (firstNonEmpty [inp.BalanceType, inp.BalanceTypeAlt, inp.Source]))

/-- The input passes the checks `Withdraw` makes before it touches the store, apart from
the balance type: user id, amount and bank details. -/
def validWithdrawInput (inp : WithdrawInput) : Prop :=
  validUUID4 inp.UserID = true ∧ validAmount inp.Jumlah = true ∧
  TrimSpace inp.BankCode ≠ "" ∧ TrimSpace inp.AccountNumber ≠ "" ∧
  TrimSpace inp.AccountHolderName ≠ ""

/-- The transaction record of a withdrawal from sub-balance `tgt`. -/
def withdrawRecord (env : Env) (inp : WithdrawInput) (tgt : String) : TransactionRecord :=
  { UserID := inp.UserID,
    TipeTransaksi := if tgt = "redeem" then "TARIK_SALDO_REFUND"
      else if tgt = "topup" then "TARIK_SALDO_PENDAPATAN" else "",
    Amount := inp.Jumlah,
    Description := some (if tgt = "redeem" then "Tarik saldo redeem"
      else if tgt = "topup" then "Tarik saldo top up" else ""),
    ReferenceID := none, CreatedAt := env.now 0 }

/-- The balance delta of a withdrawal from sub-balance `tgt`. -/
def withdrawDelta (env : Env) (inp : WithdrawInput) (tgt : String) : AddSaldoParams :=
  { UserID := inp.UserID, DeltaTotal := -inp.Jumlah,
    DeltaTopup := if tgt = "topup" then -inp.Jumlah else 0,
    DeltaRedeem := if tgt = "redeem" then -inp.Jumlah else 0,
    UpdatedAt := env.now 0 }

/-- A store whose only wallet row has a negative top-up part: `5 = -5 + 10`. -/
def dbNegativeTopup : Store :=
  { walletSummary := [⟨user0, 5, -5, 10, 0, 0⟩], transactions := [], vouchers := [],
    userVoucherClaims := [], paymentOrders := [], payoutRequests := [], users := [] }

/-- A store whose only wallet row is `(150, 50, 100)`. -/
def dbWallet : Store :=
  { walletSummary := [⟨user0, 150, 50, 100, 0, 0⟩], transactions := [], vouchers := [],
    userVoucherClaims := [], paymentOrders := [], payoutRequests := [], users := [] }

/-- A withdrawal of `10` from the redeem balance. -/
def withdraw0 : WithdrawInput :=
  { UserID := user0, Jumlah := 10, BalanceType := "redeem", BalanceTypeAlt := "",
    Source := "", BankCode := "bca", BankName := "BCA", AccountNumber := "1234567890",
    AccountHolderName := "Budi", Email := "", Phone := "", Notes := "" }

/-- A withdrawal of `500` from the redeem balance. -/
def withdrawBig : WithdrawInput := { withdraw0 with Jumlah := 500 }

end services

namespace services

instance (inp : WithdrawInput) : Decidable (validWithdrawInput inp) := by
  unfold validWithdrawInput; infer_instance

instance (db : repositories.Store) : Decidable (WalletInvariant db) := by
  unfold WalletInvariant; infer_instance

end services

namespace services

/-- The store `dbVoucher` without any wallet row. -/
def dbNoWallet : repositories.Store := { dbVoucher with walletSummary := [] }

end services

/-! ## HTTP error mapping (`internal/handlers/wallet_handler.go`) -/

/-- The method `Error()` of an error value: its message. -/
def Error.message : Error → String
  | .ErrBadRequest msg => msg
  | .ErrConflict msg => msg
  | .ErrInsufficientBalance msg => msg
  | .ErrNotFoundResource msg => msg
  | .ErrNotFound msg => msg
  | .ErrNoRows => "sql: no rows in result set"
  | .other msg => msg

namespace handlers

/-- The response `mapError` writes: the HTTP status and the `error` field of the body. -/
def mapError (err : Error) : Nat × String :=
  match err with
  | .ErrBadRequest _ => (400, err.message)
  | .ErrConflict _ => (409, err.message)
  | .ErrInsufficientBalance _ => (422, err.message)
  | .ErrNotFoundResource _ => (404, err.message)
  | _ => (500, err.message)

end handlers

namespace services

open repositories

/-- The payout request `Withdraw` sends to the gateway after the commit. -/
def irisRequestOf (env : Env) (inp : WithdrawInput) : IrisPayoutRequest :=
  { Amount := toString inp.Jumlah, BeneficiaryName := inp.AccountHolderName,
    BeneficiaryAccount := inp.AccountNumber, BeneficiaryBank := inp.BankCode,
    BeneficiaryEmail := inp.Email, Notes := inp.Notes,
    PartnerTrxID := "WD-" ++ removeDashes env.uuid }

/-- The payout gateway is not reached or refuses: the client is absent, lacks a key or a
secret, or its call returns an error. -/
def gatewayUnavailable (s : WalletService) (env : Env) (inp : WithdrawInput) : Prop :=
  s.irisClient = none ∨
  (∃ c, s.irisClient = some c ∧ (c.ClientKey = "" ∨ c.ClientSecret = "")) ∨
  (∃ e, env.iris (irisRequestOf env inp) = .error e)

/-- The row `Withdraw` inserts into `payout_requests`. -/
def payoutRow (L : Lib) (env : Env) (inp : WithdrawInput) : PayoutRequestRecord :=
  newPayoutRequest
    { UserID := inp.UserID, Amount := inp.Jumlah, BankCode := inp.BankCode,
      BankName := inp.BankName, AccountNumber := inp.AccountNumber,
      AccountHolderName := inp.AccountHolderName, Status := "PENDING",
      MidtransPayoutID := none,
      RawResponse := some (L.Marshal [("accountHolderName", inp.AccountHolderName),
        ("accountNumber", inp.AccountNumber), ("bankCode", inp.BankCode),
        ("bankName", inp.BankName), ("notes", inp.Notes)]),
      RequestedAt := env.now 0, CompletedAt := none }
    env.payoutRowID env.dbNow

/-- The store right after the debit of `Withdraw` commits: the payout request row, the
transaction record and the balance delta. -/
def debited (L : Lib) (env : Env) (db : Store) (inp : WithdrawInput) (tgt : String) : Store :=
  { db with
    payoutRequests := db.payoutRequests ++ [payoutRow L env inp],
    transactions := db.transactions ++ [withdrawRecord env inp tgt],
    walletSummary := upsertSaldo (withdrawDelta env inp tgt) db.walletSummary }

/-- The number of claim rows of a voucher, over all users. -/
def voucherClaimCount (db : Store) (voucherID : String) : Nat :=
  (db.userVoucherClaims.filter fun c => c.voucherId = voucherID).length

/-- An environment in which every statement fails. -/
def envAllFail : Env :=
  { env0 with faults :=
      { BeginTx := true, Commit := true, GetSaldoForUpdate := true, GetUserProfile := true,
        GetVoucherByCode := true, CreateVoucherClaim := true, CreateTransaction := true,
        AddSaldo := true, CreatePaymentOrder := true, GetPaymentOrder := true,
        UpdatePaymentOrderStatus := true, CreatePayoutRequest := true,
        UpdatePayoutRequestStatus := true } }

/-- An environment in which only the final commit fails. -/
def envCommitFails : Env := { env0 with faults := { Commit := true } }

/-- An environment whose store clock reads `2000`. -/
def envLater : Env := { env0 with dbNow := 2000 }

/-- A withdrawal whose balance type is white space only. -/
def withdrawBlankType : WithdrawInput := { withdraw0 with BalanceType := "  " }

/-- A withdrawal whose balance type is not in the table. -/
def withdrawBonusType : WithdrawInput := { withdraw0 with BalanceType := "bonus" }

/-- The notification `payload0` with the status spelled with U+017F (long s); the signature
does not cover the status, so it is still the one of `payload0`. -/
def payloadLongS : NotificationPayload := { payload0 with TransactionStatus := "ſettlement" }

/-- The notification `payload0` with status `cancel`, under the same signature. -/
def payloadCancel : NotificationPayload := { payload0 with TransactionStatus := "cancel" }

/-- The order `order0` once settled and applied. -/
def orderSettled : PaymentOrderRecord :=
  { order0 with Status := "SETTLEMENT", MidtransTrxID := some "trx-1",
                BalanceApplied := true, UpdatedAt := 1001 }

/-- A store in which `order0` is settled and its amount credited. -/
def dbSettled : Store :=
  { walletSummary := [⟨user0, 100000, 100000, 0, 0, 1000⟩],
    transactions := [⟨user0, "TOP_UP", 100000, some "Top up via Midtrans", some "trx-1", 1000⟩],
    vouchers := [], userVoucherClaims := [], paymentOrders := [orderSettled],
    payoutRequests := [], users := [] }

/-- A voucher with quota `1` and per-user limit `0`. -/
def voucherQuota : VoucherRecord :=
  { voucher0 with Quota := some 1, PerUserLimit := some 0 }

/-- A store in which the only unit of `voucherQuota` is already claimed by another user. -/
def dbQuota : Store :=
  { dbVoucher with vouchers := [voucherQuota],
                   userVoucherClaims := [⟨"another-user", "voucher-1", 10⟩] }

/-- A store whose voucher `HEMAT50` is inactive. -/
def dbInactive : Store := { dbVoucher with vouchers := [{ voucher0 with Active := false }] }

/-- A store whose voucher `HEMAT50` expired at `999`, before the clock reading `1000`. -/
def dbExpired : Store :=
  { dbVoucher with vouchers := [{ voucher0 with ExpiresAt := some 999 }] }

/-- A store whose voucher `HEMAT50` expires at `1000`, the clock reading of `env0`. -/
def dbExpiresNow : Store :=
  { dbVoucher with vouchers := [{ voucher0 with ExpiresAt := some 1000 }] }

/-- A claim of a code no voucher has. -/
def klaimUnknown : KlaimVoucherInput := { UserID := user0, KodeVoucher := "TIDAKADA" }

end services

namespace services

/-- An environment in which the voucher lookup succeeds and every other statement, opening
a scope included, fails. -/
def envOnlyLookup : Env :=
  { envAllFail with faults := { envAllFail.faults with GetVoucherByCode := false } }

end services

/-! ### The two phases of a notification delivery -/

namespace services

open repositories

/-- The first phase of `HandleSnapNotification` (lines 164-178): the two guards and the read
of the order, issued on the store handle outside any scope and without a lock. -/
def loadOrder (s : WalletService) (env : Env) (db : Store) (payload : NotificationPayload) :
    Except Error PaymentOrderRecord :=
  if s.midtransServerKey = "" then
    .error (.other "midtrans server key belum dikonfigurasi")
  else if !VerifyNotificationSignature s.midtransServerKey payload then
    .error (.ErrBadRequest "signature midtrans tidak valid")
  else
    match GetPaymentOrder env.faults db payload.OrderID with
    | .error (.ErrNotFound m) => .error (.ErrNotFoundResource m)
    | .error e => .error e
    | .ok order => .ok order

/-- The second phase of `HandleSnapNotification` (lines 180-273), with the order as the
first phase read it: the status switch, the test of `order.BalanceApplied`, and the writes,
which take effect on the store as it is committed when they run. -/
def applyNotification (L : Lib) (env : Env) (db : Store) (payload : NotificationPayload)
    (order : PaymentOrderRecord) : Store × Except Error Unit :=
  let st := newStatus L payload
  let rawBytes := L.Marshal (payloadFields payload)
  let midtransID := if payload.TransactionID ≠ "" then some payload.TransactionID else none
  if st.1 = "SETTLEMENT" ∧ order.BalanceApplied = false ∧ st.2 = true then
    match BeginTx env.faults with
    | .error e => (db, .error e)
    | .ok tx =>
      match UpdatePaymentOrderStatusTx env.faults tx
          { OrderID := order.OrderID, Status := st.1, MidtransTrxID := midtransID,
            RawNotification := some rawBytes,
            SettledAt := settledAt L payload.SettlementTime,
            BalanceAlreadyUsed := some true } env.dbNow with
      | .error e => (db, .error e)
      | .ok tx =>
        let ref := if payload.TransactionID = "" then order.OrderID
          else payload.TransactionID
        match CreateTransaction env.faults tx
            { UserID := order.UserID, TipeTransaksi := "TOP_UP",
              Jumlah := order.GrossAmount, Deskripsi := "Top up via Midtrans",
              ReferensiID := some ref, CreatedAt := env.now 0 } with
        | .error e => (db, .error e)
        | .ok tx =>
          match AddSaldo env.faults tx
              { UserID := order.UserID, DeltaTotal := order.GrossAmount,
                DeltaTopup := order.GrossAmount, DeltaRedeem := 0,
                UpdatedAt := env.now 1 } with
          | .error e => (db, .error e)
          | .ok tx =>
            match Commit env.faults tx db with
            | .error e => (db, .error e)
            | .ok db1 => (db1, .ok ())
  else
    match UpdatePaymentOrderStatus env.faults db
        { OrderID := order.OrderID, Status := st.1, MidtransTrxID := midtransID,
          RawNotification := some rawBytes,
          SettledAt := settledAt L payload.SettlementTime,
          BalanceAlreadyUsed := none } env.dbNow with
    | .error e => (db, .error e)
    | .ok db1 => (db1, .ok ())

/-- The number of `TOP_UP` records of a user. -/
def topUpCount (db : Store) (userID : String) : Nat :=
  (db.transactions.filter fun r => r.UserID = userID ∧ r.TipeTransaksi = "TOP_UP").length

end services

namespace services

open repositories

/-- The synonyms of the top-up balance, as the specification's table lists them. -/
def topupSynonyms : List String :=
  ["topup", "saldo_topup", "pendapatan", "deposit", "saldo_deposit"]

/-- The synonyms of the redeem balance, as the specification's table lists them. -/
def redeemSynonyms : List String :=
  ["redeem", "saldo_redeem", "refund", "saldo_refund", "ev", "ev_poin"]

/-- The sum of the amounts of a user's records whose type is in `types`. -/
def sumOfTypes (types : List String) (db : Store) (userID : String) : Int :=
  ((db.transactions.filter fun r => r.UserID = userID ∧ r.TipeTransaksi ∈ types).map
    fun r => r.Amount).sum

/-- The amounts recorded as credited to a user: `TOP_UP` and `KLAIM_VOUCHER`. -/
def credited (db : Store) (userID : String) : Int :=
  sumOfTypes ["TOP_UP", "KLAIM_VOUCHER"] db userID

/-- The amounts recorded as withdrawn by a user: the two `TARIK_SALDO` types. -/
def withdrawn (db : Store) (userID : String) : Int :=
  sumOfTypes ["TARIK_SALDO_PENDAPATAN", "TARIK_SALDO_REFUND"] db userID

/-- The gap between the cached total balance of a user and the balance the transaction
history accounts for. -/
def reconciliationGap (db : Store) (userID : String) : Int :=
  (saldo db.walletSummary userID).1 - (credited db userID - withdrawn db userID)

/-- A withdrawal from the top-up balance, typed with capitals and blanks. -/
def withdrawTopup : WithdrawInput := { withdraw0 with BalanceType := " Pendapatan " }

/-- A withdrawal of amount zero. -/
def withdrawZero : WithdrawInput := { withdraw0 with Jumlah := 0 }

/-- A withdrawal whose balance type comes from the `source` field. -/
def withdrawFromSource : WithdrawInput :=
  { withdraw0 with BalanceType := "  ", BalanceTypeAlt := "", Source := "Deposit" }

/-- The notification `payload0` with another `gross_amount`, signed for that amount:
the SHA-512 digest of `TOPUP-1` `200` `5.00` `SB-Mid-server-KEY`. -/
def payloadOtherAmount : NotificationPayload :=
  { payload0 with
    GrossAmount := "5.00",
    SignatureKey :=
      "e92bee8f5aeede2f033d46af6eb3872d37e15206c6e053065300433d7b3da356" ++
      "8e0c5523d893cfd0bcbde68b0acd3aaa0848e113d34f803fc89b8738f6edceb0" }

/-- The notification `payload0` signed with the empty key: the SHA-512 digest of
`TOPUP-1` `200` `100000.00`. -/
def payloadEmptyKey : NotificationPayload :=
  { payload0 with
    SignatureKey :=
      "93bd83e8039b9b03b073ef470c7ec7b96094e793099b8a223704671b9852c0df" ++
      "45f68afb0a17bdb95350323ad7db651b852212021ee4ff1883b9ae6cbde6a85b" }

end services

/-! # Theorems -/

namespace services

open repositories

/-! ## Auxiliary lemmas -/

theorem saldo_upsertSaldo (p : AddSaldoParams) (ws : List WalletSummary) (u : String) :
    saldo (upsertSaldo p ws) u =
      if u = p.UserID then
        ((saldo ws u).1 + p.DeltaTotal, (saldo ws u).2.1 + p.DeltaTopup,
         (saldo ws u).2.2 + p.DeltaRedeem)
      else saldo ws u := by
  induction ws with
  | nil =>
    by_cases h : u = p.UserID
    · simp [upsertSaldo, saldo, h]
    · have h2 : ¬ p.UserID = u := fun e => h e.symm
      simp [upsertSaldo, saldo, h, h2]
  | cons w ws ih =>
    unfold upsertSaldo
    by_cases hw : w.userId = p.UserID
    · by_cases h : u = p.UserID
      · simp [saldo, hw, h]
      · have h2 : ¬ p.UserID = u := fun e => h e.symm
        simp [saldo, hw, h, h2]
    · by_cases hwu : w.userId = u
      · have h : ¬ u = p.UserID := fun e => hw (hwu.trans e)
        simp [saldo, hw, hwu, h]
      · simp only [hw, if_false]
        have e1 : saldo (w :: upsertSaldo p ws) u = saldo (upsertSaldo p ws) u := by
          simp [saldo, hwu]
        have e2 : saldo (w :: ws) u = saldo ws u := by simp [saldo, hwu]
        rw [e1, e2, ih]

/-- The upsert keeps `total = topup + redeem` on every row when the deltas agree. -/
theorem upsertSaldo_invariant (p : AddSaldoParams) (ws : List WalletSummary)
    (hp : p.DeltaTotal = p.DeltaTopup + p.DeltaRedeem)
    (h : ∀ w ∈ ws, w.totalSaldo = w.saldoTopup + w.saldoRedeem) :
    ∀ w ∈ upsertSaldo p ws, w.totalSaldo = w.saldoTopup + w.saldoRedeem := by
  induction ws with
  | nil =>
    intro w hw
    simp only [upsertSaldo, List.mem_singleton] at hw
    subst hw
    exact hp
  | cons x xs ih =>
    intro w hw
    unfold upsertSaldo at hw
    have hx := h x (List.mem_cons_self _ _)
    have hxs : ∀ w ∈ xs, w.totalSaldo = w.saldoTopup + w.saldoRedeem :=
      fun w hw => h w (List.mem_cons_of_mem _ hw)
    split at hw
    · rcases List.mem_cons.mp hw with rfl | hw
      · simp only []; omega
      · exact hxs w hw
    · rcases List.mem_cons.mp hw with rfl | hw
      · exact hx
      · exact ih hxs w hw

theorem GetVoucherByCode_ok {f : Faults} {db : Store} {kode vID : String} {nilai : Int}
    {aktif : Bool} {exp : Option Time}
    (h : GetVoucherByCode f db kode = .ok (vID, nilai, aktif, exp)) :
    ∃ v, db.vouchers.find? (fun v => v.Code = kode) = some v ∧ f.GetVoucherByCode = false ∧
      vID = v.ID ∧ nilai = v.Amount ∧ aktif = v.Active ∧ exp = v.ExpiresAt := by
  unfold GetVoucherByCode at h
  split at h
  · cases h
  · rename_i hf
    split at h
    · cases h
    · rename_i v hv
      simp only [Except.ok.injEq, Prod.mk.injEq] at h
      exact ⟨v, hv, by simpa using hf, h.1.symm, h.2.1.symm, h.2.2.1.symm, h.2.2.2.symm⟩

/-- Every call of `KlaimVoucher` either fails and leaves the store as it was, or commits
exactly the claim row, the transaction record and the balance delta of one voucher. -/
theorem KlaimVoucher_cases (env : Env) (db : Store) (inp : KlaimVoucherInput) :
    (∃ e, KlaimVoucher env db inp = (db, .error e)) ∨
    (∃ v, db.vouchers.find? (fun v => v.Code = inp.KodeVoucher) = some v ∧
      validateKlaimVoucherInput inp = none ∧
      v.Active = true ∧ (∀ t, v.ExpiresAt = some t → ¬ t < env.now 0) ∧
      (∀ c ∈ db.userVoucherClaims, c.userId = inp.UserID → ¬ c.voucherId = v.ID) ∧
      KlaimVoucher env db inp = (klaimed db inp v (env.now 0), .ok ())) := by
  unfold KlaimVoucher
  split
  · exact Or.inl ⟨_, rfl⟩
  · rename_i hval
    split
    · exact Or.inl ⟨_, rfl⟩
    · exact Or.inl ⟨_, rfl⟩
    · rename_i vID nilai aktif exp hget
      obtain ⟨v, hv, -, rfl, rfl, rfl, rfl⟩ := GetVoucherByCode_ok hget
      simp only []
      split
      · exact Or.inl ⟨_, rfl⟩
      · rename_i hact
        split
        · exact Or.inl ⟨_, rfl⟩
        · rename_i hexp
          cases hb : env.faults.BeginTx <;>
            simp only [BeginTx, hb, if_true, if_false, Bool.false_eq_true]
          · cases hc : env.faults.CreateVoucherClaim <;>
              simp only [CreateVoucherClaim, hc, if_true, if_false, Bool.false_eq_true]
            · split
              · exact Or.inl ⟨_, rfl⟩
              · rename_i hins
                cases ht : env.faults.CreateTransaction <;>
                  simp only [CreateTransaction, ht, if_true, if_false, Bool.false_eq_true]
                · cases ha : env.faults.AddSaldo <;>
                    simp only [AddSaldo, ha, if_true, if_false, Bool.false_eq_true]
                  · cases hm : env.faults.Commit <;>
                      simp only [Commit, hm, if_true, if_false, Bool.false_eq_true]
                    · have hnew : ∀ c ∈ db.userVoucherClaims,
                          c.userId = inp.UserID → ¬ c.voucherId = v.ID := by
                        simpa [Tx.view] using hins
                      have hno : ¬ ∃ x ∈ db.userVoucherClaims,
                          x.userId = inp.UserID ∧ x.voucherId = v.ID := by
                        rintro ⟨x, hx, h1, h2⟩
                        exact hnew x hx h1 h2
                      refine Or.inr ⟨v, hv, hval, by simpa using hact, ?_, hnew, ?_⟩
                      · intro t ht
                        rw [ht] at hexp
                        simpa using hexp
                      · simp [Tx.view, Tx.exec, insertVoucherClaim, insertTransaction, klaimed,
                          hno]
                    · exact Or.inl ⟨_, rfl⟩
                  · exact Or.inl ⟨_, rfl⟩
                · exact Or.inl ⟨_, rfl⟩
            · exact Or.inl ⟨_, rfl⟩
          · exact Or.inl ⟨_, rfl⟩

/-- With a well-formed input, a voucher that is active, unexpired and not yet claimed by
the user, and no failing statement, `KlaimVoucher` commits the claim. -/
theorem KlaimVoucher_ok (env : Env) (db : Store) (inp : KlaimVoucherInput) (v : VoucherRecord)
    (hval : validateKlaimVoucherInput inp = none)
    (hv : db.vouchers.find? (fun v => v.Code = inp.KodeVoucher) = some v)
    (hact : v.Active = true)
    (hexp : ∀ t, v.ExpiresAt = some t → env.now 0 ≤ t)
    (hnew : ∀ c ∈ db.userVoucherClaims, c.userId = inp.UserID → ¬ c.voucherId = v.ID)
    (hf : env.faults = {}) :
    KlaimVoucher env db inp = (klaimed db inp v (env.now 0), .ok ()) := by
  have hexp2 : (match v.ExpiresAt with | some t => decide (t < env.now 0) | none => false)
      = false := by
    cases he : v.ExpiresAt with
    | none => rfl
    | some t => simpa using hexp t he
  have hno : ¬ ∃ x ∈ db.userVoucherClaims, x.userId = inp.UserID ∧ x.voucherId = v.ID := by
    rintro ⟨x, hx, h1, h2⟩
    exact hnew x hx h1 h2
  simp [KlaimVoucher, hval, GetVoucherByCode, hv, hf, hact, hexp2, BeginTx, CreateVoucherClaim,
    CreateTransaction, AddSaldo, Commit, Tx.view, Tx.exec, insertVoucherClaim,
    insertTransaction, klaimed, hno]

theorem claimCount_eq_zero {db : Store} {u vid : String}
    (h : ∀ c ∈ db.userVoucherClaims, c.userId = u → ¬ c.voucherId = vid) :
    claimCount db u vid = 0 := by
  unfold claimCount
  rw [List.length_eq_zero, List.filter_eq_nil_iff]
  intro c hc
  simpa using h c hc

theorem claimCount_klaimed (db : Store) (inp : KlaimVoucherInput) (v : VoucherRecord)
    (now : Time) :
    claimCount (klaimed db inp v now) inp.UserID v.ID = claimCount db inp.UserID v.ID + 1 := by
  simp [claimCount, klaimed, List.filter_append]

theorem sha512_abc :
    computeSHA512 "abc" =
      "ddaf35a193617abacc417349ae20413112e6fa4e89a97ea20a9eeee64b55d39a" ++
      "2192992a274fc1a836ba3c23a3feebbd454d4423643ce80e2a9ac94fa54ca49f" := by
  decide!

/-! ## Voucher claims -/

/-- C6: for an active voucher of amount `V` with no expiry, or an expiry not before the
clock reading, that the user has not claimed, `KlaimVoucher` succeeds when no statement
fails, and a successful call raises the user's balance by exactly `(V, 0, V)`, leaves exactly
one claim row for the pair, and appends exactly one `KLAIM_VOUCHER` record of amount `V`
whose reference is the voucher id; from `(0, 0, 0)` with `V = 50000` the balance becomes
`(50000, 0, 50000)`. -/
theorem klaimVoucher_credits_redeem (env : Env) (db : Store) (inp : KlaimVoucherInput)
    (v : VoucherRecord)
    (hval : validateKlaimVoucherInput inp = none)
    (hv : db.vouchers.find? (fun v => v.Code = inp.KodeVoucher) = some v)
    (hact : v.Active = true)
    (hexp : ∀ t, v.ExpiresAt = some t → env.now 0 ≤ t)
    (hnew : claimCount db inp.UserID v.ID = 0) :
    (env.faults = {} → (KlaimVoucher env db inp).2 = .ok ()) ∧
    ((KlaimVoucher env db inp).2 = .ok () →
      saldo (KlaimVoucher env db inp).1.walletSummary inp.UserID =
        ((saldo db.walletSummary inp.UserID).1 + v.Amount,
         (saldo db.walletSummary inp.UserID).2.1,
         (saldo db.walletSummary inp.UserID).2.2 + v.Amount) ∧
      (∀ u, u ≠ inp.UserID →
        saldo (KlaimVoucher env db inp).1.walletSummary u = saldo db.walletSummary u) ∧
      (KlaimVoucher env db inp).1.userVoucherClaims =
        db.userVoucherClaims ++ [⟨inp.UserID, v.ID, env.now 0⟩] ∧
      claimCount (KlaimVoucher env db inp).1 inp.UserID v.ID = 1 ∧
      (KlaimVoucher env db inp).1.transactions = db.transactions ++
        [{ UserID := inp.UserID, TipeTransaksi := "KLAIM_VOUCHER", Amount := v.Amount,
           Description := some ("Klaim voucher " ++ inp.KodeVoucher),
           ReferenceID := some v.ID, CreatedAt := env.now 0 }] ∧
      (v.Amount = 50000 → saldo db.walletSummary inp.UserID = (0, 0, 0) →
        saldo (KlaimVoucher env db inp).1.walletSummary inp.UserID = (50000, 0, 50000))) := by
  have hnew2 : ∀ c ∈ db.userVoucherClaims, c.userId = inp.UserID → ¬ c.voucherId = v.ID := by
    unfold claimCount at hnew
    rw [List.length_eq_zero, List.filter_eq_nil_iff] at hnew
    intro c hc h1 h2
    exact hnew c hc (by simp [h1, h2])
  constructor
  · intro hf
    rw [KlaimVoucher_ok env db inp v hval hv hact hexp hnew2 hf]
  · intro hok
    rcases KlaimVoucher_cases env db inp with ⟨e, he⟩ | ⟨v2, hv2, -, -, -, -, he⟩
    · rw [he] at hok
      cases hok
    · have hvv : v2 = v := by
        rw [hv] at hv2
        exact (Option.some.inj hv2).symm
      subst hvv
      rw [he]
      have hs : saldo (klaimed db inp v2 (env.now 0)).walletSummary inp.UserID =
          ((saldo db.walletSummary inp.UserID).1 + v2.Amount,
           (saldo db.walletSummary inp.UserID).2.1,
           (saldo db.walletSummary inp.UserID).2.2 + v2.Amount) := by
        simp [klaimed, saldo_upsertSaldo]
      refine ⟨hs, ?_, ?_, ?_, ?_, ?_⟩
      · intro u hu
        simp [klaimed, saldo_upsertSaldo, hu]
      · simp [klaimed]
      · rw [claimCount_klaimed, hnew]
      · simp [klaimed]
      · intro h50 h0
        rw [hs, h0, h50]
        rfl

/-- C6, at a concrete store: the scenario of the claim. -/
theorem klaimVoucher_credits_redeem_witness :
    (KlaimVoucher env0 dbVoucher klaim0).2 = .ok () ∧
    saldo (KlaimVoucher env0 dbVoucher klaim0).1.walletSummary user0 = (50000, 0, 50000) :=
  have h := klaimVoucher_credits_redeem env0 dbVoucher klaim0 voucher0 (by decide) (by decide)
    (by decide) (fun t ht => by cases ht) (by decide)
  ⟨h.1 rfl, (h.2 (h.1 rfl)).2.2.2.2.2 rfl (by decide)⟩

/-- C7: after a successful `KlaimVoucher`, claiming the same code for the same user again
leaves the whole store as it was (no balance change, no transaction record, no claim row)
and, when its statements succeed, returns `ErrConflict`; the pair ends with exactly one
claim row for the voucher and exactly one credit of its amount. -/
theorem klaimVoucher_twice (env1 env2 : Env) (db : Store) (inp : KlaimVoucherInput)
    (hok : (KlaimVoucher env1 db inp).2 = .ok ()) :
    (KlaimVoucher env2 (KlaimVoucher env1 db inp).1 inp).1 = (KlaimVoucher env1 db inp).1 ∧
    (env2.faults.GetVoucherByCode = false → env2.faults.BeginTx = false →
      env2.faults.CreateVoucherClaim = false →
      ∃ msg, (KlaimVoucher env2 (KlaimVoucher env1 db inp).1 inp).2
        = .error (.ErrConflict msg)) ∧
    (∃ v, db.vouchers.find? (fun v => v.Code = inp.KodeVoucher) = some v ∧
      claimCount (KlaimVoucher env2 (KlaimVoucher env1 db inp).1 inp).1 inp.UserID v.ID = 1 ∧
      saldo (KlaimVoucher env2 (KlaimVoucher env1 db inp).1 inp).1.walletSummary inp.UserID =
        ((saldo db.walletSummary inp.UserID).1 + v.Amount,
         (saldo db.walletSummary inp.UserID).2.1,
         (saldo db.walletSummary inp.UserID).2.2 + v.Amount) ∧
      (KlaimVoucher env2 (KlaimVoucher env1 db inp).1 inp).1.transactions =
        db.transactions ++
          [{ UserID := inp.UserID, TipeTransaksi := "KLAIM_VOUCHER", Amount := v.Amount,
             Description := some ("Klaim voucher " ++ inp.KodeVoucher),
             ReferenceID := some v.ID, CreatedAt := env1.now 0 }]) := by
  rcases KlaimVoucher_cases env1 db inp with ⟨e, he⟩ | ⟨v, hv, hval, hact, -, hnew, he⟩
  · rw [he] at hok
    cases hok
  · rw [he]
    simp only []
    have hv1 : (klaimed db inp v (env1.now 0)).vouchers.find?
        (fun v => v.Code = inp.KodeVoucher) = some v := by
      simpa [klaimed] using hv
    have hmem : (⟨inp.UserID, v.ID, env1.now 0⟩ : VoucherClaim) ∈
        (klaimed db inp v (env1.now 0)).userVoucherClaims := by
      simp [klaimed]
    have hsame : (KlaimVoucher env2 (klaimed db inp v (env1.now 0)) inp).1 =
        klaimed db inp v (env1.now 0) := by
      rcases KlaimVoucher_cases env2 (klaimed db inp v (env1.now 0)) inp with
        ⟨e, he2⟩ | ⟨v2, hv2, -, -, -, hnew2, -⟩
      · rw [he2]
      · have hvv : v2 = v := by
          rw [hv1] at hv2
          exact (Option.some.inj hv2).symm
        subst hvv
        exact absurd rfl (hnew2 _ hmem rfl)
    refine ⟨hsame, ?_, v, hv, ?_⟩
    · intro hg hb hc
      have hany : ∃ x ∈ (klaimed db inp v (env1.now 0)).userVoucherClaims,
          x.userId = inp.UserID ∧ x.voucherId = v.ID := ⟨_, hmem, rfl, rfl⟩
      by_cases hexp : (match v.ExpiresAt with
          | some t => decide (t < env2.now 0) | none => false) = true
      · exact ⟨"voucher kadaluarsa",
          by simp [KlaimVoucher, hval, GetVoucherByCode, hg, hv1, hact, hexp]⟩
      · refine ⟨"voucher sudah diklaim", ?_⟩
        simp [KlaimVoucher, hval, GetVoucherByCode, hg, hv1, hact, hexp, BeginTx, hb,
          CreateVoucherClaim, hc, Tx.view, hany]
    · rw [hsame]
      refine ⟨?_, ?_, ?_⟩
      · rw [claimCount_klaimed, claimCount_eq_zero hnew]
      · simp [klaimed, saldo_upsertSaldo]
      · simp [klaimed]

/-- C7, at a concrete store: the second claim is refused as already claimed. -/
theorem klaimVoucher_twice_witness :
    (KlaimVoucher env0 dbVoucher klaim0).2 = .ok () ∧
    (KlaimVoucher env0 (KlaimVoucher env0 dbVoucher klaim0).1 klaim0).1
      = (KlaimVoucher env0 dbVoucher klaim0).1 ∧
    (KlaimVoucher env0 (KlaimVoucher env0 dbVoucher klaim0).1 klaim0).2
      = .error (.ErrConflict "voucher sudah diklaim") :=
  ⟨by decide, (klaimVoucher_twice env0 env0 dbVoucher klaim0 (by decide)).1, by decide⟩

/-! ## Notification signature -/

/-- C8: `VerifyNotificationSignature` returns true exactly when the payload's
`signature_key` is the lower-case hex encoding of the SHA-512 digest of
`order_id + status_code + gross_amount + serverKey`. -/
theorem verifyNotificationSignature_iff (serverKey : String) (payload : NotificationPayload) :
    VerifyNotificationSignature serverKey payload = true ↔
      payload.SignatureKey = hexEncode (sha512.Sum (bytesOf
        (payload.OrderID ++ payload.StatusCode ++ payload.GrossAmount ++ serverKey))) := by
  simp only [VerifyNotificationSignature, computeSHA512, decide_eq_true_eq]
  exact eq_comm

end services

namespace services

open repositories

/-! ## Payment notifications -/

theorem GetPaymentOrder_ok {f : Faults} {db : Store} {orderID : String}
    {order : PaymentOrderRecord} (h : GetPaymentOrder f db orderID = .ok order) :
    db.paymentOrders.find? (fun o => o.OrderID = orderID) = some order := by
  unfold GetPaymentOrder at h
  split at h
  · cases h
  · split at h
    · cases h
    · rename_i o ho
      cases h
      exact ho

/-- Every call of `HandleSnapNotification` fails and leaves the store as it was, or commits
the crediting path, or performs the plain order update. -/
theorem HandleSnapNotification_cases (L : Lib) (s : WalletService) (env : Env) (db : Store)
    (payload : NotificationPayload) :
    (∃ e, HandleSnapNotification L s env db payload = (db, .error e)) ∨
    (∃ order, validlySigned s payload ∧
      db.paymentOrders.find? (fun o => o.OrderID = payload.OrderID) = some order ∧
      newStatus L payload = ("SETTLEMENT", true) ∧ order.BalanceApplied = false ∧
      HandleSnapNotification L s env db payload = (settled L env db payload order, .ok ())) ∨
    (∃ order, validlySigned s payload ∧
      db.paymentOrders.find? (fun o => o.OrderID = payload.OrderID) = some order ∧
      ¬ ((newStatus L payload).1 = "SETTLEMENT" ∧ order.BalanceApplied = false ∧
          (newStatus L payload).2 = true) ∧
      HandleSnapNotification L s env db payload =
        (updatePaymentOrderStatus (orderUpdate L payload order none) env.dbNow db, .ok ())) := by
  unfold HandleSnapNotification
  split
  · exact Or.inl ⟨_, rfl⟩
  · rename_i hkey
    split
    · exact Or.inl ⟨_, rfl⟩
    · rename_i hsig
      have hvs : validlySigned s payload := ⟨hkey, by simpa using hsig⟩
      split
      · exact Or.inl ⟨_, rfl⟩
      · exact Or.inl ⟨_, rfl⟩
      · rename_i order hget
        have hord := GetPaymentOrder_ok hget
        simp only []
        split
        · rename_i hc
          cases hb : env.faults.BeginTx <;>
            simp only [BeginTx, hb, if_true, if_false, Bool.false_eq_true]
          · cases hu : env.faults.UpdatePaymentOrderStatus <;>
              simp only [UpdatePaymentOrderStatusTx, hu, if_true, if_false, Bool.false_eq_true]
            · cases ht : env.faults.CreateTransaction <;>
                simp only [CreateTransaction, ht, if_true, if_false, Bool.false_eq_true]
              · cases ha : env.faults.AddSaldo <;>
                  simp only [AddSaldo, ha, if_true, if_false, Bool.false_eq_true]
                · cases hm : env.faults.Commit <;>
                    simp only [Commit, hm, if_true, if_false, Bool.false_eq_true]
                  · refine Or.inr (Or.inl ⟨order, hvs, hord, ?_, hc.2.1, ?_⟩)
                    · exact Prod.ext hc.1 hc.2.2
                    · simp [Tx.view, Tx.exec, insertTransaction, settled, orderUpdate,
                        topUpRecord, updatePaymentOrderStatus]
                  · exact Or.inl ⟨_, rfl⟩
                · exact Or.inl ⟨_, rfl⟩
              · exact Or.inl ⟨_, rfl⟩
            · exact Or.inl ⟨_, rfl⟩
          · exact Or.inl ⟨_, rfl⟩
        · rename_i hc
          cases hu : env.faults.UpdatePaymentOrderStatus <;>
            simp only [UpdatePaymentOrderStatus, hu, if_true, if_false, Bool.false_eq_true]
          · exact Or.inr (Or.inr ⟨order, hvs, hord, hc, rfl⟩)
          · exact Or.inl ⟨_, rfl⟩

/-- The crediting path: a validly signed notification that maps to SETTLEMENT, for an
order not yet applied, commits when no statement fails. -/
theorem HandleSnapNotification_settle (L : Lib) (s : WalletService) (env : Env) (db : Store)
    (payload : NotificationPayload) (order : PaymentOrderRecord)
    (hsig : validlySigned s payload)
    (hord : db.paymentOrders.find? (fun o => o.OrderID = payload.OrderID) = some order)
    (hst : newStatus L payload = ("SETTLEMENT", true))
    (hna : order.BalanceApplied = false)
    (hf : env.faults = {}) :
    HandleSnapNotification L s env db payload = (settled L env db payload order, .ok ()) := by
  have h1 := hsig.1
  have h2 := hsig.2
  simp [HandleSnapNotification, h1, h2, GetPaymentOrder, hord, hf, hst, hna, BeginTx,
    UpdatePaymentOrderStatusTx, CreateTransaction, AddSaldo, Commit, Tx.view, Tx.exec,
    insertTransaction, settled, orderUpdate, topUpRecord, updatePaymentOrderStatus]

/-- The plain path: any other validly signed notification for an existing order only
updates the order when the statement succeeds. -/
theorem HandleSnapNotification_plain (L : Lib) (s : WalletService) (env : Env) (db : Store)
    (payload : NotificationPayload) (order : PaymentOrderRecord)
    (hsig : validlySigned s payload)
    (hord : db.paymentOrders.find? (fun o => o.OrderID = payload.OrderID) = some order)
    (hst : ¬ ((newStatus L payload).1 = "SETTLEMENT" ∧ order.BalanceApplied = false ∧
          (newStatus L payload).2 = true))
    (hf : env.faults.GetPaymentOrder = false)
    (hu : env.faults.UpdatePaymentOrderStatus = false) :
    HandleSnapNotification L s env db payload =
      (updatePaymentOrderStatus (orderUpdate L payload order none) env.dbNow db, .ok ()) := by
  have h1 := hsig.1
  have h2 := hsig.2
  unfold HandleSnapNotification
  simp only [h1, h2, GetPaymentOrder, hord, hf, if_false, Bool.false_eq_true, Bool.not_true]
  rw [if_neg hst]
  simp [UpdatePaymentOrderStatus, hu, orderUpdate]

end services

namespace services

open repositories

theorem find?_map_of_key {α : Type} (f : α → α) (p : α → Bool) (hf : ∀ a, p (f a) = p a)
    (l : List α) : (l.map f).find? p = (l.find? p).map f := by
  induction l with
  | nil => rfl
  | cons a l ih =>
    rw [List.map_cons, List.find?_cons, List.find?_cons, hf a]
    cases p a
    · exact ih
    · rfl

theorem find?_updatePaymentOrderStatus (p : UpdatePaymentOrderStatusParams) (dbNow : Time)
    (db : Store) (oid : String) :
    (updatePaymentOrderStatus p dbNow db).paymentOrders.find? (fun o => o.OrderID = oid) =
      (db.paymentOrders.find? (fun o => o.OrderID = oid)).map
        (fun o => if o.OrderID = p.OrderID then setPaymentOrder p dbNow o else o) := by
  unfold updatePaymentOrderStatus
  apply find?_map_of_key
  intro o
  by_cases hp : o.OrderID = p.OrderID <;> simp [hp, setPaymentOrder]

theorem newStatus_settlement (L : Lib) (payload : NotificationPayload)
    (hst : L.ToLower payload.TransactionStatus = "settlement") :
    newStatus L payload = ("SETTLEMENT", true) := by
  simp [newStatus, hst]

theorem find?_OrderID {os : List PaymentOrderRecord} {oid : String} {o : PaymentOrderRecord}
    (h : os.find? (fun o => o.OrderID = oid) = some o) : o.OrderID = oid := by
  simpa using List.find?_some h

end services

namespace services

open repositories

/-- The order a notification addresses, after the crediting path. -/
theorem find?_settled (L : Lib) (env : Env) (db : Store) (payload : NotificationPayload)
    (order : PaymentOrderRecord)
    (hord : db.paymentOrders.find? (fun o => o.OrderID = payload.OrderID) = some order) :
    (settled L env db payload order).paymentOrders.find?
        (fun o => o.OrderID = payload.OrderID) =
      some (setPaymentOrder (orderUpdate L payload order (some true)) env.dbNow order) := by
  have h := find?_updatePaymentOrderStatus (orderUpdate L payload order (some true)) env.dbNow
    db payload.OrderID
  rw [hord] at h
  simpa [settled, orderUpdate] using h

/-- The order a notification addresses, after the plain update. -/
theorem find?_plain (L : Lib) (dbNow : Time) (db : Store) (payload : NotificationPayload)
    (order : PaymentOrderRecord)
    (hord : db.paymentOrders.find? (fun o => o.OrderID = payload.OrderID) = some order) :
    (updatePaymentOrderStatus (orderUpdate L payload order none) dbNow db).paymentOrders.find?
        (fun o => o.OrderID = payload.OrderID) =
      some (setPaymentOrder (orderUpdate L payload order none) dbNow order) := by
  have h := find?_updatePaymentOrderStatus (orderUpdate L payload order none) dbNow
    db payload.OrderID
  rw [hord] at h
  simpa [orderUpdate] using h

/-- After a successful call, handling the same payload again touches neither the wallet
table nor the transaction history. -/
theorem HandleSnapNotification_again (L : Lib) (s : WalletService) (env1 env2 : Env)
    (db : Store) (payload : NotificationPayload)
    (hok : (HandleSnapNotification L s env1 db payload).2 = .ok ()) :
    (HandleSnapNotification L s env2 (HandleSnapNotification L s env1 db payload).1
        payload).1.walletSummary
      = (HandleSnapNotification L s env1 db payload).1.walletSummary ∧
    (HandleSnapNotification L s env2 (HandleSnapNotification L s env1 db payload).1
        payload).1.transactions
      = (HandleSnapNotification L s env1 db payload).1.transactions := by
  rcases HandleSnapNotification_cases L s env1 db payload with
    ⟨e, he⟩ | ⟨order, -, hord, -, -, he⟩ | ⟨order, -, hord, hst, he⟩
  · rw [he] at hok
    cases hok
  · rw [he]
    simp only []
    have hf := find?_settled L env1 db payload order hord
    rcases HandleSnapNotification_cases L s env2 (settled L env1 db payload order) payload with
      ⟨e, he2⟩ | ⟨o2, -, hord2, -, hna2, -⟩ | ⟨o2, -, -, -, he2⟩
    · rw [he2]
      exact ⟨rfl, rfl⟩
    · rw [hf] at hord2
      cases hord2
      simp [setPaymentOrder, orderUpdate] at hna2
    · rw [he2]
      exact ⟨rfl, rfl⟩
  · rw [he]
    simp only []
    have hf := find?_plain L env1.dbNow db payload order hord
    rcases HandleSnapNotification_cases L s env2
        (updatePaymentOrderStatus (orderUpdate L payload order none) env1.dbNow db) payload with
      ⟨e, he2⟩ | ⟨o2, -, hord2, hst2, hna2, -⟩ | ⟨o2, -, -, -, he2⟩
    · rw [he2]
      exact ⟨rfl, rfl⟩
    · rw [hf] at hord2
      cases hord2
      simp [setPaymentOrder, orderUpdate] at hna2
      exact absurd ⟨by rw [hst2], hna2, by rw [hst2]⟩ hst
    · rw [he2]
      exact ⟨rfl, rfl⟩

/-- C2: once a settlement notification for an order has been handled successfully (which
only a validly signed one is), handling the same notification again changes no wallet
balance and appends no transaction record; for an order that was not yet applied the two
calls together append exactly one `TOP_UP` record and credit the gross amount exactly once,
and for an order already applied they append and credit nothing. -/
theorem settlement_notification_idempotent (L : Lib) (s : WalletService) (env1 env2 : Env)
    (db : Store) (payload : NotificationPayload) (order : PaymentOrderRecord)
    (hord : db.paymentOrders.find? (fun o => o.OrderID = payload.OrderID) = some order)
    (hst : L.ToLower payload.TransactionStatus = "settlement")
    (hok : (HandleSnapNotification L s env1 db payload).2 = .ok ()) :
    (HandleSnapNotification L s env2 (HandleSnapNotification L s env1 db payload).1
        payload).1.walletSummary
      = (HandleSnapNotification L s env1 db payload).1.walletSummary ∧
    (HandleSnapNotification L s env2 (HandleSnapNotification L s env1 db payload).1
        payload).1.transactions
      = (HandleSnapNotification L s env1 db payload).1.transactions ∧
    (order.BalanceApplied = false →
      (HandleSnapNotification L s env2 (HandleSnapNotification L s env1 db payload).1
          payload).1.transactions
        = db.transactions ++
          [{ UserID := order.UserID, TipeTransaksi := "TOP_UP", Amount := order.GrossAmount,
             Description := some "Top up via Midtrans",
             ReferenceID := some (if payload.TransactionID = "" then order.OrderID
               else payload.TransactionID),
             CreatedAt := env1.now 0 }] ∧
      saldo (HandleSnapNotification L s env2 (HandleSnapNotification L s env1 db payload).1
          payload).1.walletSummary order.UserID
        = ((saldo db.walletSummary order.UserID).1 + order.GrossAmount,
           (saldo db.walletSummary order.UserID).2.1 + order.GrossAmount,
           (saldo db.walletSummary order.UserID).2.2)) ∧
    (order.BalanceApplied = true →
      (HandleSnapNotification L s env2 (HandleSnapNotification L s env1 db payload).1
          payload).1.transactions = db.transactions ∧
      (HandleSnapNotification L s env2 (HandleSnapNotification L s env1 db payload).1
          payload).1.walletSummary = db.walletSummary) := by
  obtain ⟨hw, ht⟩ := HandleSnapNotification_again L s env1 env2 db payload hok
  refine ⟨hw, ht, ?_, ?_⟩
  · intro hna
    rw [ht, hw]
    rcases HandleSnapNotification_cases L s env1 db payload with
      ⟨e, he⟩ | ⟨o, -, hord1, -, -, he⟩ | ⟨o, -, hord1, hno, -⟩
    · rw [he] at hok
      cases hok
    · rw [hord] at hord1
      cases hord1
      rw [he]
      simp [settled, topUpRecord, saldo_upsertSaldo]
    · rw [hord] at hord1
      cases hord1
      have h := newStatus_settlement L payload hst
      exact absurd ⟨by rw [h], hna, by rw [h]⟩ hno
  · intro hap
    rw [ht, hw]
    rcases HandleSnapNotification_cases L s env1 db payload with
      ⟨e, he⟩ | ⟨o, -, hord1, -, hna, -⟩ | ⟨o, -, -, -, he⟩
    · rw [he] at hok
      cases hok
    · rw [hord] at hord1
      cases hord1
      rw [hap] at hna
      cases hna
    · rw [he]
      exact ⟨rfl, rfl⟩

/-- C2, at a concrete store: the settlement of `order0` delivered twice. -/
theorem settlement_notification_idempotent_witness :
    validlySigned svc0 payload0 ∧
    (HandleSnapNotification refLib svc0 env0 dbOrder payload0).2 = .ok () ∧
    (HandleSnapNotification refLib svc0 env0
        (HandleSnapNotification refLib svc0 env0 dbOrder payload0).1 payload0).1.walletSummary
      = (HandleSnapNotification refLib svc0 env0 dbOrder payload0).1.walletSummary :=
  ⟨by decide!, by decide!,
   (settlement_notification_idempotent refLib svc0 env0 env0 dbOrder payload0 order0
      (by decide) (by decide) (by decide!)).1⟩

/-- C3: for an existing order with `balanceApplied = false` and gross amount `G`, a validly
signed notification whose status is `settlement`, with no failing statement, succeeds,
leaves the order SETTLEMENT with `balanceApplied = true`, raises the owner's balance by
exactly `(G, G, 0)`, and appends exactly one `TOP_UP` record of amount `G` whose reference
is the payload's `transaction_id`, or the order id when that is empty. -/
theorem settlement_credits_topup (L : Lib) (s : WalletService) (env : Env) (db : Store)
    (payload : NotificationPayload) (order : PaymentOrderRecord)
    (hsig : validlySigned s payload)
    (hord : db.paymentOrders.find? (fun o => o.OrderID = payload.OrderID) = some order)
    (hna : order.BalanceApplied = false)
    (hst : L.ToLower payload.TransactionStatus = "settlement")
    (hf : env.faults = {}) :
    (HandleSnapNotification L s env db payload).2 = .ok () ∧
    (∃ o, (HandleSnapNotification L s env db payload).1.paymentOrders.find?
        (fun o => o.OrderID = payload.OrderID) = some o ∧
      o.Status = "SETTLEMENT" ∧ o.BalanceApplied = true ∧
      o.UserID = order.UserID ∧ o.GrossAmount = order.GrossAmount) ∧
    saldo (HandleSnapNotification L s env db payload).1.walletSummary order.UserID
      = ((saldo db.walletSummary order.UserID).1 + order.GrossAmount,
         (saldo db.walletSummary order.UserID).2.1 + order.GrossAmount,
         (saldo db.walletSummary order.UserID).2.2) ∧
    (∀ u, u ≠ order.UserID →
      saldo (HandleSnapNotification L s env db payload).1.walletSummary u
        = saldo db.walletSummary u) ∧
    (HandleSnapNotification L s env db payload).1.transactions
      = db.transactions ++
        [{ UserID := order.UserID, TipeTransaksi := "TOP_UP", Amount := order.GrossAmount,
           Description := some "Top up via Midtrans",
           ReferenceID := some (if payload.TransactionID = "" then payload.OrderID
             else payload.TransactionID),
           CreatedAt := env.now 0 }] := by
  have hns := newStatus_settlement L payload hst
  have hid := find?_OrderID hord
  rw [HandleSnapNotification_settle L s env db payload order hsig hord hns hna hf]
  refine ⟨rfl, ⟨_, find?_settled L env db payload order hord, ?_⟩, ?_, ?_, ?_⟩
  · simp [setPaymentOrder, orderUpdate, hns]
  · simp [settled, saldo_upsertSaldo]
  · intro u hu
    simp [settled, saldo_upsertSaldo, hu]
  · simp [settled, topUpRecord, hid]

/-- C3, at a concrete store: `order0` settles and its owner holds `(100000, 100000, 0)`. -/
theorem settlement_credits_topup_witness :
    validlySigned svc0 payload0 ∧
    (HandleSnapNotification refLib svc0 env0 dbOrder payload0).2 = .ok () ∧
    saldo (HandleSnapNotification refLib svc0 env0 dbOrder payload0).1.walletSummary user0
      = (100000, 100000, 0) :=
  have h := settlement_credits_topup refLib svc0 env0 dbOrder payload0 order0
    (by decide!) (by decide) (by decide) (by decide) rfl
  ⟨by decide!, h.1, h.2.2.1⟩

/-- C9, the claim fails: with an empty server key a payload whose signature does not match
is refused with the configuration error, not with `ErrBadRequest`. -/
theorem bad_signature_empty_key_counterexample :
    VerifyNotificationSignature svcNoKey.midtransServerKey payloadBad = false ∧
    HandleSnapNotification refLib svcNoKey env0 dbOrder payloadBad
      = (dbOrder, .error (.other "midtrans server key belum dikonfigurasi")) ∧
    ¬ ∃ msg, (HandleSnapNotification refLib svcNoKey env0 dbOrder payloadBad).2
      = .error (.ErrBadRequest msg) := by
  refine ⟨by decide!, by decide, ?_⟩
  rintro ⟨msg, h⟩
  have h2 : (HandleSnapNotification refLib svcNoKey env0 dbOrder payloadBad).2
      = .error (.other "midtrans server key belum dikonfigurasi") := by decide
  rw [h2] at h
  cases h

/-- C9, amended: a payload whose signature does not match changes nothing, whether or not
its order exists; the call fails with `ErrBadRequest` when the server key is configured
and with the configuration error when the key is empty. -/
theorem bad_signature_rejected (L : Lib) (s : WalletService) (env : Env) (db : Store)
    (payload : NotificationPayload)
    (hbad : VerifyNotificationSignature s.midtransServerKey payload = false) :
    HandleSnapNotification L s env db payload =
      (db, .error (if s.midtransServerKey = "" then
        .other "midtrans server key belum dikonfigurasi"
        else .ErrBadRequest "signature midtrans tidak valid")) := by
  unfold HandleSnapNotification
  by_cases hk : s.midtransServerKey = ""
  · simp [hk]
  · simp [hk, hbad]

/-- C9, amended, at a concrete store: the badly signed payload is a bad request for `svc0`. -/
theorem bad_signature_rejected_witness :
    VerifyNotificationSignature svc0.midtransServerKey payloadBad = false ∧
    HandleSnapNotification refLib svc0 env0 dbOrder payloadBad
      = (dbOrder, .error (.ErrBadRequest "signature midtrans tidak valid")) :=
  ⟨by decide!, bad_signature_rejected refLib svc0 env0 dbOrder payloadBad (by decide!)⟩

theorem Status_of_mem_updatePaymentOrderStatus (p : UpdatePaymentOrderStatusParams)
    (dbNow : Time) (db : Store) (o : PaymentOrderRecord)
    (ho : o ∈ (updatePaymentOrderStatus p dbNow db).paymentOrders)
    (hid : o.OrderID = p.OrderID) : o.Status = p.Status := by
  unfold updatePaymentOrderStatus at ho
  simp only [List.mem_map] at ho
  obtain ⟨o0, -, rfl⟩ := ho
  by_cases h : o0.OrderID = p.OrderID
  · simp [h, setPaymentOrder]
  · simp [h] at hid

theorem internalStatus_eq_newStatus (L : Lib) (payload : NotificationPayload) :
    internalStatus L payload.TransactionStatus payload.FraudStatus = (newStatus L payload).1 := by
  unfold internalStatus newStatus statusTable
  simp only []
  by_cases h1 : L.ToLower payload.TransactionStatus = "capture"
  · by_cases h2 : L.ToLower payload.FraudStatus = "accept" <;> simp [h1, h2]
  · by_cases h3 : L.ToLower payload.TransactionStatus = "settlement"
    · simp [h3, List.lookup]
    · by_cases h4 : L.ToLower payload.TransactionStatus = "cancel"
      · simp [h4, List.lookup]
      · by_cases h5 : L.ToLower payload.TransactionStatus = "expire"
        · simp [h5, List.lookup]
        · by_cases h6 : L.ToLower payload.TransactionStatus = "deny"
          · simp [h6, List.lookup]
          · have e3 : (L.ToLower payload.TransactionStatus == "settlement") = false := by
              simpa using h3
            have e4 : (L.ToLower payload.TransactionStatus == "cancel") = false := by
              simpa using h4
            have e5 : (L.ToLower payload.TransactionStatus == "expire") = false := by
              simpa using h5
            have e6 : (L.ToLower payload.TransactionStatus == "deny") = false := by
              simpa using h6
            simp [h1, h3, h4, h5, h6, List.lookup, e3, e4, e5, e6]

/-- C10: the status `HandleSnapNotification` stores on the order is the mapping of the
specification applied to the lower-cased `(transaction_status, fraud_status)`: a validly
signed notification for an existing order is handled when no statement fails, and after
every successful call the order carries `internalStatus`. -/
theorem stored_status_is_internalStatus (L : Lib) (s : WalletService) (env : Env) (db : Store)
    (payload : NotificationPayload) :
    (validlySigned s payload →
      (∃ order, db.paymentOrders.find? (fun o => o.OrderID = payload.OrderID) = some order) →
      env.faults = {} → (HandleSnapNotification L s env db payload).2 = .ok ()) ∧
    ((HandleSnapNotification L s env db payload).2 = .ok () →
      (∃ o, (HandleSnapNotification L s env db payload).1.paymentOrders.find?
          (fun o => o.OrderID = payload.OrderID) = some o ∧
        o.Status = internalStatus L payload.TransactionStatus payload.FraudStatus) ∧
      ∀ o ∈ (HandleSnapNotification L s env db payload).1.paymentOrders,
        o.OrderID = payload.OrderID →
        o.Status = internalStatus L payload.TransactionStatus payload.FraudStatus) := by
  rw [internalStatus_eq_newStatus]
  constructor
  · rintro hsig ⟨order, hord⟩ hf
    by_cases hc : (newStatus L payload).1 = "SETTLEMENT" ∧ order.BalanceApplied = false ∧
        (newStatus L payload).2 = true
    · rw [HandleSnapNotification_settle L s env db payload order hsig hord
        (Prod.ext hc.1 hc.2.2) hc.2.1 hf]
    · rw [HandleSnapNotification_plain L s env db payload order hsig hord hc
        (by rw [hf]) (by rw [hf])]
  · intro hok
    rcases HandleSnapNotification_cases L s env db payload with
      ⟨e, he⟩ | ⟨order, -, hord, -, -, he⟩ | ⟨order, -, hord, -, he⟩
    · rw [he] at hok
      cases hok
    · rw [he]
      have hid := find?_OrderID hord
      refine ⟨⟨_, find?_settled L env db payload order hord,
        by simp [setPaymentOrder, orderUpdate]⟩, ?_⟩
      intro o ho hoid
      exact Status_of_mem_updatePaymentOrderStatus _ _ _ o (by simpa [settled] using ho)
        (by simpa [orderUpdate, hid] using hoid)
    · rw [he]
      have hid := find?_OrderID hord
      refine ⟨⟨_, find?_plain L env.dbNow db payload order hord,
        by simp [setPaymentOrder, orderUpdate]⟩, ?_⟩
      intro o ho hoid
      exact Status_of_mem_updatePaymentOrderStatus _ _ _ o ho
        (by simpa [orderUpdate, hid] using hoid)

/-- C10, at a concrete store: `order0` carries SETTLEMENT after its settlement. -/
theorem stored_status_is_internalStatus_witness :
    (HandleSnapNotification refLib svc0 env0 dbOrder payload0).2 = .ok () ∧
    ∃ o, (HandleSnapNotification refLib svc0 env0 dbOrder payload0).1.paymentOrders.find?
        (fun o => o.OrderID = payload0.OrderID) = some o ∧
      o.Status = internalStatus refLib payload0.TransactionStatus payload0.FraudStatus :=
  have h := stored_status_is_internalStatus refLib svc0 env0 dbOrder payload0
  have hok := h.1 (by decide!) ⟨order0, by decide⟩ rfl
  ⟨hok, (h.2 hok).1⟩

end services

namespace services

open repositories

/-! ## Withdrawals -/

theorem target_cases {bt tgt : String} (h : target bt = some tgt) :
    tgt = "topup" ∨ tgt = "redeem" := by
  unfold target at h
  split at h
  · exact Or.inl (Option.some.inj h).symm
  · split at h
    · exact Or.inr (Option.some.inj h).symm
    · cases h

theorem selectSaldo_ok {ws : List WalletSummary} {u : String} {a b c d : Int}
    (h : selectSaldo ws u = .ok (a, b, c, d)) :
    ∃ w, ws.find? (fun w => w.userId = u) = some w ∧ a = w.totalSaldo ∧ b = w.saldoTopup ∧
      c = w.saldoRedeem := by
  unfold selectSaldo at h
  split at h
  · cases h
  · rename_i w hw
    simp only [Except.ok.injEq, Prod.mk.injEq] at h
    exact ⟨w, hw, h.1.symm, h.2.1.symm, h.2.2.1.symm⟩

/-- The payout call after the commit touches the payout table only. -/
theorem payoutAfterCommit_store (L : Lib) (s : WalletService) (env : Env) (db : Store)
    (inp : WithdrawInput) (amount : Int) (payoutID : String) (payout : PayoutRequestRecord) :
    ∃ prs, (payoutAfterCommit L s env db inp amount payoutID payout).1 =
      { db with payoutRequests := prs } := by
  unfold payoutAfterCommit
  split
  · exact ⟨db.payoutRequests, rfl⟩
  · split
    · split
      · exact ⟨db.payoutRequests, rfl⟩
      · cases hu : env.faults.UpdatePayoutRequestStatus <;>
          simp only [UpdatePayoutRequestStatus, hu, if_true, if_false, Bool.false_eq_true]
        · exact ⟨_, rfl⟩
        · exact ⟨db.payoutRequests, rfl⟩
    · exact ⟨db.payoutRequests, rfl⟩

theorem payoutAfterCommit_fst (L : Lib) (s : WalletService) (env : Env) (db : Store)
    (inp : WithdrawInput) (amount : Int) (payoutID : String) (payout : PayoutRequestRecord) :
    (payoutAfterCommit L s env db inp amount payoutID payout).1 =
      { db with payoutRequests :=
          (payoutAfterCommit L s env db inp amount payoutID payout).1.payoutRequests } := by
  obtain ⟨prs, h⟩ := payoutAfterCommit_store L s env db inp amount payoutID payout
  rw [h]

/-- Every call of `Withdraw` fails and leaves the store as it was, or has passed the
balance checks and then either fails leaving only the payout request behind, or commits the
debit with its transaction record. -/
theorem Withdraw_cases (L : Lib) (s : WalletService) (env : Env) (db : Store)
    (inp : WithdrawInput) :
    (∃ e, Withdraw L s env db inp = (db, .error e)) ∨
    (∃ tgt w, target (balanceTypeOf L inp) = some tgt ∧
      db.walletSummary.find? (fun w => w.userId = inp.UserID) = some w ∧
      validWithdrawInput inp ∧
      ¬ (tgt = "topup" ∧ w.saldoTopup < inp.Jumlah) ∧
      ¬ (tgt = "redeem" ∧ w.saldoRedeem < inp.Jumlah) ∧
      ¬ w.totalSaldo < inp.Jumlah ∧
      ((∃ e pr, Withdraw L s env db inp =
          ({ db with payoutRequests := db.payoutRequests ++ [pr] }, .error e)) ∨
       (∃ db1 res, Withdraw L s env db inp = (db1, .ok res) ∧
          db1.walletSummary = upsertSaldo (withdrawDelta env inp tgt) db.walletSummary ∧
          db1.transactions = db.transactions ++ [withdrawRecord env inp tgt] ∧
          db1.vouchers = db.vouchers ∧ db1.userVoucherClaims = db.userVoucherClaims ∧
          db1.paymentOrders = db.paymentOrders ∧ db1.users = db.users))) := by
  unfold Withdraw
  cases hu : validUUID4 inp.UserID
  · simp only [Bool.not_false, if_true]
    exact Or.inl ⟨_, rfl⟩
  simp only [Bool.not_true, Bool.false_eq_true, if_false]
  cases ha : validAmount inp.Jumlah
  · simp only [Bool.not_false, if_true]
    exact Or.inl ⟨_, rfl⟩
  simp only [Bool.not_true, Bool.false_eq_true, if_false]
  by_cases hbank : TrimSpace inp.BankCode = "" ∨ TrimSpace inp.AccountNumber = ""
      ∨ TrimSpace inp.AccountHolderName = ""
  · rw [if_pos hbank]
    exact Or.inl ⟨_, rfl⟩
  rw [if_neg hbank]
  by_cases hbt : L.ToLower (TrimSpace
      (firstNonEmpty [inp.BalanceType, inp.BalanceTypeAlt, inp.Source])) = ""
  · rw [if_pos hbt]
    exact Or.inl ⟨_, rfl⟩
  rw [if_neg hbt]
  cases htgt : target (L.ToLower (TrimSpace
      (firstNonEmpty [inp.BalanceType, inp.BalanceTypeAlt, inp.Source]))) with
  | none => exact Or.inl ⟨_, rfl⟩
  | some tgt =>
    simp only []
    cases hb : env.faults.BeginTx
    swap
    · simp only [BeginTx, hb, if_true]
      exact Or.inl ⟨_, rfl⟩
    simp only [BeginTx, hb, Bool.false_eq_true, if_false]
    cases hget : GetSaldoForUpdate env.faults ⟨[]⟩ db inp.UserID with
    | error e => exact Or.inl ⟨_, rfl⟩
    | ok r =>
      obtain ⟨total, topupBalance, redeemBalance, ev⟩ := r
      simp only []
      have hsel : selectSaldo db.walletSummary inp.UserID
          = .ok (total, topupBalance, redeemBalance, ev) := by
        unfold GetSaldoForUpdate at hget
        split at hget
        · cases hget
        · simpa [Tx.view] using hget
      obtain ⟨w, hw, rfl, rfl, rfl⟩ := selectSaldo_ok hsel
      by_cases h1 : tgt = "topup" ∧ w.saldoTopup < inp.Jumlah
      · rw [if_pos h1]
        exact Or.inl ⟨_, rfl⟩
      rw [if_neg h1]
      by_cases h2 : tgt = "redeem" ∧ w.saldoRedeem < inp.Jumlah
      · rw [if_pos h2]
        exact Or.inl ⟨_, rfl⟩
      rw [if_neg h2]
      by_cases h3 : w.totalSaldo < inp.Jumlah
      · rw [if_pos h3]
        exact Or.inl ⟨_, rfl⟩
      rw [if_neg h3]
      have hvalid : validWithdrawInput inp := by
        simp only [not_or] at hbank
        exact ⟨hu, ha, hbank.1, hbank.2.1, hbank.2.2⟩
      cases hp : env.faults.CreatePayoutRequest
      swap
      · simp only [CreatePayoutRequest, hp, if_true]
        exact Or.inl ⟨_, rfl⟩
      refine Or.inr ⟨tgt, w, htgt, hw, hvalid, h1, h2, h3, ?_⟩
      simp only [CreatePayoutRequest, hp, Bool.false_eq_true, if_false]
      cases ht : env.faults.CreateTransaction
      swap
      · simp only [CreateTransaction, ht, if_true]
        exact Or.inl ⟨_, _, rfl⟩
      simp only [CreateTransaction, ht, Bool.false_eq_true, if_false]
      cases hs : env.faults.AddSaldo
      swap
      · simp only [AddSaldo, hs, if_true]
        exact Or.inl ⟨_, _, rfl⟩
      simp only [AddSaldo, hs, Bool.false_eq_true, if_false]
      cases hm : env.faults.Commit
      swap
      · simp only [Commit, hm, if_true]
        exact Or.inl ⟨_, _, rfl⟩
      simp only [Commit, hm, Bool.false_eq_true, if_false]
      right
      refine ⟨_, _, rfl, ?_⟩
      rw [payoutAfterCommit_fst]
      simp [Tx.view, Tx.exec, insertTransaction, withdrawRecord, withdrawDelta]

theorem balanceType_ne_empty {bt tgt : String} (h : target bt = some tgt) : bt ≠ "" := by
  intro hb
  rw [hb] at h
  simp [target] at h

theorem GetSaldoForUpdate_begin (f : Faults) (db : Store) (u : String) (w : WalletSummary)
    (hg : f.GetSaldoForUpdate = false)
    (hw : db.walletSummary.find? (fun w => w.userId = u) = some w) :
    GetSaldoForUpdate f ⟨[]⟩ db u =
      .ok (w.totalSaldo, w.saldoTopup, w.saldoRedeem, w.evPoin) := by
  simp [GetSaldoForUpdate, hg, Tx.view, selectSaldo, hw]

/-- With insufficient funds in the targeted sub-balance or in the total, `Withdraw` stops
at the balance check, once the scope is open and the balance is read. -/
theorem Withdraw_insufficient (L : Lib) (s : WalletService) (env : Env) (db : Store)
    (inp : WithdrawInput) (tgt : String) (w : WalletSummary)
    (hval : validWithdrawInput inp)
    (htgt : target (balanceTypeOf L inp) = some tgt)
    (hw : db.walletSummary.find? (fun w => w.userId = inp.UserID) = some w)
    (hins : (tgt = "topup" ∧ w.saldoTopup < inp.Jumlah) ∨
      (tgt = "redeem" ∧ w.saldoRedeem < inp.Jumlah) ∨ w.totalSaldo < inp.Jumlah)
    (hb : env.faults.BeginTx = false) (hg : env.faults.GetSaldoForUpdate = false) :
    ∃ msg, Withdraw L s env db inp = (db, .error (.ErrInsufficientBalance msg)) := by
  obtain ⟨hu, ha, hb1, hb2, hb3⟩ := hval
  have hbank : ¬ (TrimSpace inp.BankCode = "" ∨ TrimSpace inp.AccountNumber = ""
      ∨ TrimSpace inp.AccountHolderName = "") := by
    simp [hb1, hb2, hb3]
  have hbt := balanceType_ne_empty htgt
  unfold balanceTypeOf at htgt hbt
  unfold Withdraw
  simp only [hu, ha, Bool.not_true, Bool.false_eq_true, if_false]
  rw [if_neg hbank, if_neg hbt, htgt]
  simp only [BeginTx, hb, Bool.false_eq_true, if_false,
    GetSaldoForUpdate_begin env.faults db inp.UserID w hg hw]
  by_cases h1 : tgt = "topup" ∧ w.saldoTopup < inp.Jumlah
  · rw [if_pos h1]
    exact ⟨_, rfl⟩
  rw [if_neg h1]
  by_cases h2 : tgt = "redeem" ∧ w.saldoRedeem < inp.Jumlah
  · rw [if_pos h2]
    exact ⟨_, rfl⟩
  rw [if_neg h2]
  have h3 : w.totalSaldo < inp.Jumlah := by
    rcases hins with h | h | h
    · exact absurd h h1
    · exact absurd h h2
    · exact h
  rw [if_pos h3]
  exact ⟨_, rfl⟩

/-- With sufficient funds and no failing statement `Withdraw` returns a result. -/
theorem Withdraw_ok (L : Lib) (s : WalletService) (env : Env) (db : Store)
    (inp : WithdrawInput) (tgt : String) (w : WalletSummary)
    (hval : validWithdrawInput inp)
    (htgt : target (balanceTypeOf L inp) = some tgt)
    (hw : db.walletSummary.find? (fun w => w.userId = inp.UserID) = some w)
    (h1 : ¬ (tgt = "topup" ∧ w.saldoTopup < inp.Jumlah))
    (h2 : ¬ (tgt = "redeem" ∧ w.saldoRedeem < inp.Jumlah))
    (h3 : ¬ w.totalSaldo < inp.Jumlah)
    (hf : env.faults = {}) :
    ∃ res, (Withdraw L s env db inp).2 = .ok res := by
  obtain ⟨hu, ha, hb1, hb2, hb3⟩ := hval
  have hbank : ¬ (TrimSpace inp.BankCode = "" ∨ TrimSpace inp.AccountNumber = ""
      ∨ TrimSpace inp.AccountHolderName = "") := by
    simp [hb1, hb2, hb3]
  have hbt := balanceType_ne_empty htgt
  unfold balanceTypeOf at htgt hbt
  have hb : env.faults.BeginTx = false := by rw [hf]
  have hg : env.faults.GetSaldoForUpdate = false := by rw [hf]
  have hp : env.faults.CreatePayoutRequest = false := by rw [hf]
  have ht : env.faults.CreateTransaction = false := by rw [hf]
  have hs : env.faults.AddSaldo = false := by rw [hf]
  have hm : env.faults.Commit = false := by rw [hf]
  unfold Withdraw
  simp only [hu, ha, Bool.not_true, Bool.false_eq_true, if_false]
  rw [if_neg hbank, if_neg hbt, htgt]
  simp only [BeginTx, hb, Bool.false_eq_true, if_false,
    GetSaldoForUpdate_begin env.faults db inp.UserID w hg hw]
  rw [if_neg h1, if_neg h2, if_neg h3]
  simp only [CreatePayoutRequest, hp, CreateTransaction, ht, AddSaldo, hs, Commit, hm,
    Bool.false_eq_true, if_false]
  exact ⟨_, rfl⟩

end services

namespace services

open repositories

theorem saldo_of_find? {ws : List WalletSummary} {u : String} {w : WalletSummary}
    (h : ws.find? (fun w => w.userId = u) = some w) :
    saldo ws u = (w.totalSaldo, w.saldoTopup, w.saldoRedeem) := by
  simp [saldo, h]

/-- C4, the claim fails: the row `(5, -5, 10)` has `redeemBalance ≥ 10`, yet a valid
withdrawal of `10` from the redeem balance is refused by the guard on the total balance
and nothing is debited. -/
theorem withdraw_redeem_total_guard_counterexample :
    validWithdrawInput withdraw0 ∧
    target (balanceTypeOf refLib withdraw0) = some "redeem" ∧
    saldo dbNegativeTopup.walletSummary withdraw0.UserID = (5, -5, 10) ∧
    withdraw0.Jumlah = 10 ∧
    Withdraw refLib svc0 env0 dbNegativeTopup withdraw0 =
      (dbNegativeTopup, .error (.ErrInsufficientBalance "total saldo tidak mencukupi")) := by
  decide

/-- C4, amended: for a wallet row with `redeemBalance ≥ A` and `totalBalance ≥ A`, a
`Withdraw` of `A > 0` with valid user id and bank details whose balance type normalises to
redeem succeeds when no statement fails, and a successful call lowers `redeemBalance` and
`totalBalance` by exactly `A`, leaves `topupBalance` and every other user's balance
unchanged, and appends exactly one `TARIK_SALDO_REFUND` record of amount `A`. -/
theorem withdraw_redeem_debits (L : Lib) (s : WalletService) (env : Env) (db : Store)
    (inp : WithdrawInput) (w : WalletSummary)
    (hval : validWithdrawInput inp)
    (htgt : target (balanceTypeOf L inp) = some "redeem")
    (hw : db.walletSummary.find? (fun w => w.userId = inp.UserID) = some w)
    (hred : inp.Jumlah ≤ w.saldoRedeem)
    (htot : inp.Jumlah ≤ w.totalSaldo) :
    (env.faults = {} → ∃ res, (Withdraw L s env db inp).2 = .ok res) ∧
    (∀ res, (Withdraw L s env db inp).2 = .ok res →
      saldo (Withdraw L s env db inp).1.walletSummary inp.UserID =
        (w.totalSaldo - inp.Jumlah, w.saldoTopup, w.saldoRedeem - inp.Jumlah) ∧
      (∀ u, u ≠ inp.UserID →
        saldo (Withdraw L s env db inp).1.walletSummary u = saldo db.walletSummary u) ∧
      (Withdraw L s env db inp).1.transactions = db.transactions ++
        [{ UserID := inp.UserID, TipeTransaksi := "TARIK_SALDO_REFUND", Amount := inp.Jumlah,
           Description := some "Tarik saldo redeem", ReferenceID := none,
           CreatedAt := env.now 0 }]) := by
  constructor
  · intro hf
    exact Withdraw_ok L s env db inp "redeem" w hval htgt hw (by simp) (by simp; omega)
      (by omega) hf
  · intro res hok
    rcases Withdraw_cases L s env db inp with
      ⟨e, he⟩ |
      ⟨tgt, w2, htgt2, hw2, -, -, -, -, ⟨e, pr, he⟩ | ⟨db1, res2, he, hws, htx, -⟩⟩
    · rw [he] at hok
      cases hok
    · rw [he] at hok
      cases hok
    · rw [htgt] at htgt2
      cases htgt2
      rw [hw] at hw2
      cases hw2
      rw [he]
      simp only []
      rw [hws, htx]
      have hs := saldo_of_find? hw
      refine ⟨?_, ?_, ?_⟩
      · simp [saldo_upsertSaldo, withdrawDelta, hs]
        constructor <;> ring
      · intro u hu
        simp [saldo_upsertSaldo, withdrawDelta, hu]
      · simp [withdrawRecord]

/-- C4, amended, at a concrete store: `10` withdrawn from `(150, 50, 100)`. -/
theorem withdraw_redeem_debits_witness :
    (∃ res, (Withdraw refLib svc0 env0 dbWallet withdraw0).2 = .ok res) ∧
    saldo (Withdraw refLib svc0 env0 dbWallet withdraw0).1.walletSummary user0
      = (140, 50, 90) :=
  have h := withdraw_redeem_debits refLib svc0 env0 dbWallet withdraw0
    ⟨user0, 150, 50, 100, 0, 0⟩ (by decide) (by decide) (by decide) (by decide) (by decide)
  ⟨h.1 rfl, by
    obtain ⟨res, hres⟩ := h.1 rfl
    exact (h.2 res hres).1⟩

/-- Without a wallet row for the user, `Withdraw` stops at the locked read with the
repository's `ErrNotFound`, once the scope is open. -/
theorem Withdraw_no_row (L : Lib) (s : WalletService) (env : Env) (db : Store)
    (inp : WithdrawInput) (tgt : String)
    (hval : validWithdrawInput inp)
    (htgt : target (balanceTypeOf L inp) = some tgt)
    (hw : db.walletSummary.find? (fun w => w.userId = inp.UserID) = none)
    (hb : env.faults.BeginTx = false) (hg : env.faults.GetSaldoForUpdate = false) :
    Withdraw L s env db inp = (db, .error (.ErrNotFound "wallet not found")) := by
  obtain ⟨hu, ha, hb1, hb2, hb3⟩ := hval
  have hbank : ¬ (TrimSpace inp.BankCode = "" ∨ TrimSpace inp.AccountNumber = ""
      ∨ TrimSpace inp.AccountHolderName = "") := by
    simp [hb1, hb2, hb3]
  have hbt := balanceType_ne_empty htgt
  have hread : GetSaldoForUpdate env.faults ⟨[]⟩ db inp.UserID
      = .error (.ErrNotFound "wallet not found") := by
    simp [GetSaldoForUpdate, hg, Tx.view, selectSaldo, hw]
  unfold balanceTypeOf at htgt hbt
  unfold Withdraw
  simp only [hu, ha, Bool.not_true, Bool.false_eq_true, if_false]
  rw [if_neg hbank, if_neg hbt, htgt]
  simp only [BeginTx, hb, Bool.false_eq_true, if_false, hread]

/-- C5, the claim fails: a user without a wallet row has balance `(0, 0, 0)`, below the
amount `10` of the valid withdrawal `withdraw0`; the call returns the repository's
`ErrNotFound`, which `mapError` answers with status 500, and not
`ErrInsufficientBalance`. -/
theorem withdraw_no_wallet_row_counterexample :
    validWithdrawInput withdraw0 ∧
    target (balanceTypeOf refLib withdraw0) = some "redeem" ∧
    saldo dbNoWallet.walletSummary withdraw0.UserID = (0, 0, 0) ∧
    withdraw0.Jumlah = 10 ∧
    Withdraw refLib svc0 env0 dbNoWallet withdraw0 =
      (dbNoWallet, .error (.ErrNotFound "wallet not found")) ∧
    handlers.mapError (.ErrNotFound "wallet not found") = (500, "wallet not found") := by
  decide

/-- C5, amended: when the targeted sub-balance or the total balance of the user, an absent
wallet row counting as zero, is less than the amount, an otherwise valid `Withdraw` leaves
the whole store as it was (no balance change, no transaction record, no payout request
row) and never succeeds; once the scope is open and the balance is read it returns
`ErrInsufficientBalance` when the user has a wallet row, and the repository's `ErrNotFound`
when the user has none. -/
theorem withdraw_insufficient_no_effect (L : Lib) (s : WalletService) (env : Env) (db : Store)
    (inp : WithdrawInput) (tgt : String)
    (hval : validWithdrawInput inp)
    (htgt : target (balanceTypeOf L inp) = some tgt)
    (hins : (tgt = "topup" ∧ (saldo db.walletSummary inp.UserID).2.1 < inp.Jumlah) ∨
      (tgt = "redeem" ∧ (saldo db.walletSummary inp.UserID).2.2 < inp.Jumlah) ∨
      (saldo db.walletSummary inp.UserID).1 < inp.Jumlah) :
    (Withdraw L s env db inp).1 = db ∧
    (∃ e, (Withdraw L s env db inp).2 = .error e) ∧
    (env.faults.BeginTx = false → env.faults.GetSaldoForUpdate = false →
      ((∃ w, db.walletSummary.find? (fun w => w.userId = inp.UserID) = some w) →
        ∃ msg, (Withdraw L s env db inp).2 = .error (.ErrInsufficientBalance msg)) ∧
      (db.walletSummary.find? (fun w => w.userId = inp.UserID) = none →
        (Withdraw L s env db inp).2 = .error (.ErrNotFound "wallet not found"))) := by
  have hcase : ∃ e, Withdraw L s env db inp = (db, .error e) := by
    rcases Withdraw_cases L s env db inp with
      ⟨e, he⟩ | ⟨tgt2, w2, htgt2, hw2, -, h1, h2, h3, -⟩
    · exact ⟨e, he⟩
    · rw [htgt] at htgt2
      cases htgt2
      rw [saldo_of_find? hw2] at hins
      rcases hins with h | h | h
      · exact absurd h h1
      · exact absurd h h2
      · exact absurd h h3
  obtain ⟨e, he⟩ := hcase
  refine ⟨by rw [he], ⟨e, by rw [he]⟩, ?_⟩
  intro hb hg
  constructor
  · rintro ⟨w, hw⟩
    rw [saldo_of_find? hw] at hins
    obtain ⟨msg, hm⟩ := Withdraw_insufficient L s env db inp tgt w hval htgt hw hins hb hg
    exact ⟨msg, by rw [hm]⟩
  · intro hw
    rw [Withdraw_no_row L s env db inp tgt hval htgt hw hb hg]

/-- C5, amended, at concrete stores: `500` asked from `(150, 50, 100)` is refused with
`ErrInsufficientBalance`, `10` asked by a user without a wallet row with `ErrNotFound`,
and both stores stay as they were. -/
theorem withdraw_insufficient_no_effect_witness :
    (Withdraw refLib svc0 env0 dbWallet withdrawBig).1 = dbWallet ∧
    (Withdraw refLib svc0 env0 dbWallet withdrawBig).2
      = .error (.ErrInsufficientBalance "saldo redeem tidak mencukupi") ∧
    (Withdraw refLib svc0 env0 dbNoWallet withdraw0).1 = dbNoWallet ∧
    (Withdraw refLib svc0 env0 dbNoWallet withdraw0).2
      = .error (.ErrNotFound "wallet not found") :=
  have h1 := withdraw_insufficient_no_effect refLib svc0 env0 dbWallet withdrawBig "redeem"
    (by decide) (by decide) (Or.inr (Or.inl (by decide)))
  have h2 := withdraw_insufficient_no_effect refLib svc0 env0 dbNoWallet withdraw0 "redeem"
    (by decide) (by decide) (Or.inr (Or.inl (by decide)))
  ⟨h1.1, by decide, h2.1, (h2.2.2 rfl rfl).2 (by decide)⟩

/-! ## The balance invariant -/

/-- `TopUp` never writes to the wallet table. -/
theorem TopUp_walletSummary (s : WalletService) (env : Env) (db : Store) (inp : TopUpInput) :
    (TopUp s env db inp).1.walletSummary = db.walletSummary := by
  unfold TopUp
  split
  · rfl
  · split
    · rfl
    · split
      · rfl
      · simp only []
        split
        · rfl
        · cases hc : env.faults.CreatePaymentOrder <;>
            simp only [CreatePaymentOrder, hc, if_true, if_false, Bool.false_eq_true]

/-- C1: if `totalBalance = topupBalance + redeemBalance` holds for every wallet row before
a call of `KlaimVoucher`, `HandleSnapNotification`, `Withdraw` or `TopUp`, it holds for
every wallet row of the store the call leaves, whatever the outcome and whichever
statements fail, rows created by the `AddSaldo` upsert included. -/
theorem wallet_invariant_preserved (L : Lib) (s : WalletService) (env : Env) (db : Store)
    (h : WalletInvariant db) :
    (∀ inp, WalletInvariant (KlaimVoucher env db inp).1) ∧
    (∀ payload, WalletInvariant (HandleSnapNotification L s env db payload).1) ∧
    (∀ inp, WalletInvariant (Withdraw L s env db inp).1) ∧
    (∀ inp, WalletInvariant (TopUp s env db inp).1) := by
  refine ⟨?_, ?_, ?_, ?_⟩
  · intro inp
    rcases KlaimVoucher_cases env db inp with ⟨e, he⟩ | ⟨v, -, -, -, -, -, he⟩
    · rw [he]
      exact h
    · rw [he]
      exact upsertSaldo_invariant _ _ (by simp) h
  · intro payload
    rcases HandleSnapNotification_cases L s env db payload with
      ⟨e, he⟩ | ⟨order, -, -, -, -, he⟩ | ⟨order, -, -, -, he⟩
    · rw [he]
      exact h
    · rw [he]
      exact upsertSaldo_invariant _ _ (by simp) h
    · rw [he]
      exact h
  · intro inp
    rcases Withdraw_cases L s env db inp with
      ⟨e, he⟩ | ⟨tgt, w, htgt, -, -, -, -, -, ⟨e, pr, he⟩ | ⟨db1, res, he, hws, -⟩⟩
    · rw [he]
      exact h
    · rw [he]
      exact h
    · rw [he]
      unfold WalletInvariant
      simp only []
      rw [hws]
      refine upsertSaldo_invariant _ _ ?_ h
      rcases target_cases htgt with rfl | rfl <;> simp [withdrawDelta]
  · intro inp
    unfold WalletInvariant
    rw [TopUp_walletSummary]
    exact h

/-- C1, at a concrete store: a claim by a user without a wallet row creates the row
`(50000, 0, 50000)` and the invariant holds after it. -/
theorem wallet_invariant_preserved_witness :
    WalletInvariant dbNoWallet ∧
    (KlaimVoucher env0 dbNoWallet klaim0).1.walletSummary
      = [⟨user0, 50000, 0, 50000, 0, 1000⟩] ∧
    WalletInvariant (KlaimVoucher env0 dbNoWallet klaim0).1 :=
  ⟨by decide, by decide,
   (wallet_invariant_preserved refLib svc0 env0 dbNoWallet (by decide)).1 klaim0⟩

end services

namespace services

open repositories

/-! ## Withdrawals: input rejection and payout -/

/-- C11: when the balance type is not in the synonym table (blank ones included),
`Withdraw` returns `ErrBadRequest` with a message fixed by the input alone and returns the
store as it was, for every store and every environment, also one in which `BeginTx` and
every other statement fail: no scope is opened, no balance is read, no row is written. -/
theorem withdraw_unknown_balance_type (L : Lib) (inp : WithdrawInput)
    (htgt : target (balanceTypeOf L inp) = none) :
    ∃ msg, ∀ (s : WalletService) (env : Env) (db : Store),
      Withdraw L s env db inp = (db, .error (.ErrBadRequest msg)) := by
  unfold balanceTypeOf at htgt
  cases hu : validUUID4 inp.UserID
  · refine ⟨"UserID", fun s env db => ?_⟩
    unfold Withdraw
    simp only [hu, Bool.not_false, if_true]
  cases ha : validAmount inp.Jumlah
  · refine ⟨"Jumlah", fun s env db => ?_⟩
    unfold Withdraw
    simp only [hu, ha, Bool.not_true, Bool.not_false, Bool.false_eq_true, if_false, if_true]
  by_cases hbank : TrimSpace inp.BankCode = "" ∨ TrimSpace inp.AccountNumber = ""
      ∨ TrimSpace inp.AccountHolderName = ""
  · refine ⟨"data bank wajib diisi", fun s env db => ?_⟩
    unfold Withdraw
    simp only [hu, ha, Bool.not_true, Bool.false_eq_true, if_false]
    rw [if_pos hbank]
  by_cases hbt : L.ToLower (TrimSpace
      (firstNonEmpty [inp.BalanceType, inp.BalanceTypeAlt, inp.Source])) = ""
  · refine ⟨"balanceType wajib diisi", fun s env db => ?_⟩
    unfold Withdraw
    simp only [hu, ha, Bool.not_true, Bool.false_eq_true, if_false]
    rw [if_neg hbank, if_pos hbt]
  · refine ⟨"balanceType tidak valid", fun s env db => ?_⟩
    unfold Withdraw
    simp only [hu, ha, Bool.not_true, Bool.false_eq_true, if_false]
    rw [if_neg hbank, if_neg hbt, htgt]

/-- C11, at concrete inputs: a blank and an unknown balance type are refused even when every
statement would fail. -/
theorem withdraw_unknown_balance_type_witness :
    target (balanceTypeOf refLib withdrawBlankType) = none ∧
    target (balanceTypeOf refLib withdrawBonusType) = none ∧
    (∃ msg, ∀ (s : WalletService) (env : Env) (db : Store),
      Withdraw refLib s env db withdrawBonusType = (db, .error (.ErrBadRequest msg))) ∧
    Withdraw refLib svc0 envAllFail dbWallet withdrawBlankType
      = (dbWallet, .error (.ErrBadRequest "balanceType wajib diisi")) ∧
    Withdraw refLib svc0 envAllFail dbWallet withdrawBonusType
      = (dbWallet, .error (.ErrBadRequest "balanceType tidak valid")) :=
  ⟨by decide, by decide, withdraw_unknown_balance_type refLib withdrawBonusType (by decide),
   by decide, by decide⟩

/-! ## Atomicity of the transactional scope -/

/-- C12: when `KlaimVoucher` or `HandleSnapNotification` returns an error the whole store is
as before the call, and when `Withdraw` returns an error the wallet table, the transaction
history, the claim rows and the payment orders are as before the call (for any error, a
failing statement of the scope or a failing commit included); and in every outcome of the
three operations the balance delta and its transaction record are committed together or
not at all. -/
theorem scope_rolls_back_on_error (L : Lib) (s : WalletService) (env : Env) (db : Store) :
    (∀ inp e, (KlaimVoucher env db inp).2 = .error e → (KlaimVoucher env db inp).1 = db) ∧
    (∀ payload e, (HandleSnapNotification L s env db payload).2 = .error e →
      (HandleSnapNotification L s env db payload).1 = db) ∧
    (∀ inp e, (Withdraw L s env db inp).2 = .error e →
      (Withdraw L s env db inp).1.walletSummary = db.walletSummary ∧
      (Withdraw L s env db inp).1.transactions = db.transactions ∧
      (Withdraw L s env db inp).1.userVoucherClaims = db.userVoucherClaims ∧
      (Withdraw L s env db inp).1.paymentOrders = db.paymentOrders) ∧
    (∀ inp,
      ((KlaimVoucher env db inp).1.walletSummary = db.walletSummary ∧
        (KlaimVoucher env db inp).1.transactions = db.transactions) ∨
      ∃ p r, (KlaimVoucher env db inp).1.walletSummary = upsertSaldo p db.walletSummary ∧
        (KlaimVoucher env db inp).1.transactions = db.transactions ++ [r] ∧
        r.UserID = p.UserID ∧ p.DeltaTotal = r.Amount) ∧
    (∀ payload,
      ((HandleSnapNotification L s env db payload).1.walletSummary = db.walletSummary ∧
        (HandleSnapNotification L s env db payload).1.transactions = db.transactions) ∨
      ∃ p r, (HandleSnapNotification L s env db payload).1.walletSummary
          = upsertSaldo p db.walletSummary ∧
        (HandleSnapNotification L s env db payload).1.transactions = db.transactions ++ [r] ∧
        r.UserID = p.UserID ∧ p.DeltaTotal = r.Amount) ∧
    (∀ inp,
      ((Withdraw L s env db inp).1.walletSummary = db.walletSummary ∧
        (Withdraw L s env db inp).1.transactions = db.transactions) ∨
      ∃ p r, (Withdraw L s env db inp).1.walletSummary = upsertSaldo p db.walletSummary ∧
        (Withdraw L s env db inp).1.transactions = db.transactions ++ [r] ∧
        r.UserID = p.UserID ∧ p.DeltaTotal = -r.Amount) := by
  refine ⟨?_, ?_, ?_, ?_, ?_, ?_⟩
  · intro inp e he
    rcases KlaimVoucher_cases env db inp with ⟨e2, h⟩ | ⟨v, -, -, -, -, -, h⟩
    · rw [h]
    · rw [h] at he
      cases he
  · intro payload e he
    rcases HandleSnapNotification_cases L s env db payload with
      ⟨e2, h⟩ | ⟨order, -, -, -, -, h⟩ | ⟨order, -, -, -, h⟩
    · rw [h]
    · rw [h] at he
      cases he
    · rw [h] at he
      cases he
  · intro inp e he
    rcases Withdraw_cases L s env db inp with
      ⟨e2, h⟩ | ⟨tgt, w, -, -, -, -, -, -, ⟨e2, pr, h⟩ | ⟨db1, res, h, -⟩⟩
    · rw [h]
      exact ⟨rfl, rfl, rfl, rfl⟩
    · rw [h]
      exact ⟨rfl, rfl, rfl, rfl⟩
    · rw [h] at he
      cases he
  · intro inp
    rcases KlaimVoucher_cases env db inp with ⟨e2, h⟩ | ⟨v, -, -, -, -, -, h⟩
    · rw [h]
      exact Or.inl ⟨rfl, rfl⟩
    · rw [h]
      exact Or.inr ⟨_, _, rfl, rfl, rfl, rfl⟩
  · intro payload
    rcases HandleSnapNotification_cases L s env db payload with
      ⟨e2, h⟩ | ⟨order, -, -, -, -, h⟩ | ⟨order, -, -, -, h⟩
    · rw [h]
      exact Or.inl ⟨rfl, rfl⟩
    · rw [h]
      exact Or.inr ⟨_, _, rfl, rfl, rfl, rfl⟩
    · rw [h]
      exact Or.inl ⟨rfl, rfl⟩
  · intro inp
    rcases Withdraw_cases L s env db inp with
      ⟨e2, h⟩ | ⟨tgt, w, -, -, -, -, -, -, ⟨e2, pr, h⟩ | ⟨db1, res, h, hws, htx, -⟩⟩
    · rw [h]
      exact Or.inl ⟨rfl, rfl⟩
    · rw [h]
      exact Or.inl ⟨rfl, rfl⟩
    · rw [h]
      exact Or.inr ⟨_, _, hws, htx, rfl, rfl⟩

/-- C12, at concrete stores: the three operations with a failing commit. -/
theorem scope_rolls_back_on_error_witness :
    (KlaimVoucher envCommitFails dbVoucher klaim0).2 = .error driverError ∧
    (KlaimVoucher envCommitFails dbVoucher klaim0).1 = dbVoucher ∧
    (HandleSnapNotification refLib svc0 envCommitFails dbOrder payload0).2
      = .error driverError ∧
    (HandleSnapNotification refLib svc0 envCommitFails dbOrder payload0).1 = dbOrder ∧
    (Withdraw refLib svc0 envCommitFails dbWallet withdraw0).2 = .error driverError ∧
    (Withdraw refLib svc0 envCommitFails dbWallet withdraw0).1.walletSummary
      = dbWallet.walletSummary :=
  have h := scope_rolls_back_on_error refLib svc0 envCommitFails
  ⟨by decide, (h dbVoucher).1 klaim0 driverError (by decide),
   by decide!, (h dbOrder).2.1 payload0 driverError (by decide!),
   by decide, ((h dbWallet).2.2.1 withdraw0 driverError (by decide)).1⟩

/-! ## The payout call after the debit -/

theorem payoutAfterCommit_unavailable (L : Lib) (s : WalletService) (env : Env) (db : Store)
    (inp : WithdrawInput) (payout : PayoutRequestRecord)
    (h : gatewayUnavailable s env inp) :
    payoutAfterCommit L s env db inp inp.Jumlah ("WD-" ++ removeDashes env.uuid) payout
      = (db, "PENDING") := by
  unfold payoutAfterCommit
  rcases h with h | ⟨c, hc, hk⟩ | ⟨e, he⟩
  · rw [h]
  · rw [hc]
    simp only []
    have hno : ¬ (c.ClientKey ≠ "" ∧ c.ClientSecret ≠ "") := by
      rintro ⟨h1, h2⟩
      rcases hk with hk | hk
      · exact h1 hk
      · exact h2 hk
    rw [if_neg hno]
  · cases hcl : s.irisClient with
    | none => rfl
    | some c =>
      simp only []
      by_cases hk : c.ClientKey ≠ "" ∧ c.ClientSecret ≠ ""
      · rw [if_pos hk]
        unfold irisRequestOf at he
        rw [he]
      · rw [if_neg hk]

/-- Once the six statements up to the commit succeed, `Withdraw` returns a result: the
store is the debited one after the payout call, the status is the one that call reports. -/
theorem Withdraw_committed (L : Lib) (s : WalletService) (env : Env) (db : Store)
    (inp : WithdrawInput) (tgt : String) (w : WalletSummary)
    (hval : validWithdrawInput inp)
    (htgt : target (balanceTypeOf L inp) = some tgt)
    (hw : db.walletSummary.find? (fun w => w.userId = inp.UserID) = some w)
    (h1 : ¬ (tgt = "topup" ∧ w.saldoTopup < inp.Jumlah))
    (h2 : ¬ (tgt = "redeem" ∧ w.saldoRedeem < inp.Jumlah))
    (h3 : ¬ w.totalSaldo < inp.Jumlah)
    (hb : env.faults.BeginTx = false) (hg : env.faults.GetSaldoForUpdate = false)
    (hp : env.faults.CreatePayoutRequest = false) (ht : env.faults.CreateTransaction = false)
    (hs : env.faults.AddSaldo = false) (hm : env.faults.Commit = false) :
    Withdraw L s env db inp =
      ((payoutAfterCommit L s env (debited L env db inp tgt) inp inp.Jumlah
          ("WD-" ++ removeDashes env.uuid) (payoutRow L env inp)).1,
       .ok { OrderID := env.payoutRowID,
             Status := (payoutAfterCommit L s env (debited L env db inp tgt) inp inp.Jumlah
               ("WD-" ++ removeDashes env.uuid) (payoutRow L env inp)).2 }) := by
  obtain ⟨hu, ha, hb1, hb2, hb3⟩ := hval
  have hbank : ¬ (TrimSpace inp.BankCode = "" ∨ TrimSpace inp.AccountNumber = ""
      ∨ TrimSpace inp.AccountHolderName = "") := by
    simp [hb1, hb2, hb3]
  have hbt := balanceType_ne_empty htgt
  unfold balanceTypeOf at htgt hbt
  unfold Withdraw
  simp only [hu, ha, Bool.not_true, Bool.false_eq_true, if_false]
  rw [if_neg hbank, if_neg hbt, htgt]
  simp only [BeginTx, hb, Bool.false_eq_true, if_false,
    GetSaldoForUpdate_begin env.faults db inp.UserID w hg hw]
  rw [if_neg h1, if_neg h2, if_neg h3]
  simp only [CreatePayoutRequest, hp, CreateTransaction, ht, AddSaldo, hs, Commit, hm,
    Bool.false_eq_true, if_false]
  rfl

/-- C13: once the debit of a `Withdraw` has committed (the statements up to the commit
succeed), the call returns a result, not an error, whatever the payout gateway answers and
whether or not the later status update fails, and the debit with its transaction record
stays applied; when the gateway client is absent or unconfigured, or its call fails, the
returned status is PENDING and the payout request row is left with status PENDING. -/
theorem withdraw_payout_is_best_effort (L : Lib) (s : WalletService) (env : Env) (db : Store)
    (inp : WithdrawInput) (tgt : String) (w : WalletSummary)
    (hval : validWithdrawInput inp)
    (htgt : target (balanceTypeOf L inp) = some tgt)
    (hw : db.walletSummary.find? (fun w => w.userId = inp.UserID) = some w)
    (h1 : ¬ (tgt = "topup" ∧ w.saldoTopup < inp.Jumlah))
    (h2 : ¬ (tgt = "redeem" ∧ w.saldoRedeem < inp.Jumlah))
    (h3 : ¬ w.totalSaldo < inp.Jumlah)
    (hb : env.faults.BeginTx = false) (hg : env.faults.GetSaldoForUpdate = false)
    (hp : env.faults.CreatePayoutRequest = false) (ht : env.faults.CreateTransaction = false)
    (hs : env.faults.AddSaldo = false) (hm : env.faults.Commit = false) :
    (∃ status, (Withdraw L s env db inp).2
        = .ok { OrderID := env.payoutRowID, Status := status }) ∧
    (Withdraw L s env db inp).1.walletSummary
      = upsertSaldo (withdrawDelta env inp tgt) db.walletSummary ∧
    (Withdraw L s env db inp).1.transactions
      = db.transactions ++ [withdrawRecord env inp tgt] ∧
    (gatewayUnavailable s env inp →
      (Withdraw L s env db inp).2 = .ok { OrderID := env.payoutRowID, Status := "PENDING" } ∧
      (Withdraw L s env db inp).1.payoutRequests
        = db.payoutRequests ++ [payoutRow L env inp] ∧
      (payoutRow L env inp).Status = "PENDING" ∧
      (payoutRow L env inp).ID = env.payoutRowID) := by
  rw [Withdraw_committed L s env db inp tgt w hval htgt hw h1 h2 h3 hb hg hp ht hs hm]
  refine ⟨⟨_, rfl⟩, ?_, ?_, ?_⟩
  · rw [payoutAfterCommit_fst]
    rfl
  · rw [payoutAfterCommit_fst]
    rfl
  · intro hgw
    rw [payoutAfterCommit_unavailable L s env _ inp _ hgw]
    exact ⟨rfl, rfl, rfl, rfl⟩

/-- C13, at a concrete store: `svc0` has no payout client; `10` is debited and the payout
stays PENDING. -/
theorem withdraw_payout_is_best_effort_witness :
    gatewayUnavailable svc0 env0 withdraw0 ∧
    Withdraw refLib svc0 env0 dbWallet withdraw0 =
      (debited refLib env0 dbWallet withdraw0 "redeem",
       .ok { OrderID := "payout-1", Status := "PENDING" }) ∧
    (Withdraw refLib svc0 env0 dbWallet withdraw0).1.payoutRequests
      = [payoutRow refLib env0 withdraw0] :=
  have h := withdraw_payout_is_best_effort refLib svc0 env0 dbWallet withdraw0 "redeem"
    ⟨user0, 150, 50, 100, 0, 0⟩ (by decide) (by decide) (by decide) (by decide) (by decide)
    (by decide) rfl rfl rfl rfl rfl rfl
  ⟨Or.inl rfl, by decide, (h.2.2.2 (Or.inl rfl)).2.1⟩

/-! ## Notifications: what each path writes -/

/-- C14: a notification whose mapped internal status is not SETTLEMENT changes no wallet
row and appends no transaction record, whatever the signature, the store and the failing
statements; the payment orders are left as they were or rewritten by the plain update,
which sets status, external transaction id, raw notification, settlement time and
`updatedAt` on the addressed order and keeps every other field and every other order; the
latter happens, with success, for a validly signed notification of an existing order when
the statements succeed. -/
theorem non_settlement_only_updates_order (L : Lib) (s : WalletService) (env : Env)
    (db : Store) (payload : NotificationPayload)
    (hns : internalStatus L payload.TransactionStatus payload.FraudStatus ≠ "SETTLEMENT") :
    (HandleSnapNotification L s env db payload).1.walletSummary = db.walletSummary ∧
    (HandleSnapNotification L s env db payload).1.transactions = db.transactions ∧
    (HandleSnapNotification L s env db payload).1.vouchers = db.vouchers ∧
    (HandleSnapNotification L s env db payload).1.userVoucherClaims = db.userVoucherClaims ∧
    (HandleSnapNotification L s env db payload).1.payoutRequests = db.payoutRequests ∧
    (HandleSnapNotification L s env db payload).1.users = db.users ∧
    ((HandleSnapNotification L s env db payload).1.paymentOrders = db.paymentOrders ∨
      (HandleSnapNotification L s env db payload).1.paymentOrders =
        db.paymentOrders.map fun o =>
          if o.OrderID = payload.OrderID then
            { o with
              Status := internalStatus L payload.TransactionStatus payload.FraudStatus,
              MidtransTrxID := if payload.TransactionID ≠ "" then some payload.TransactionID
                else o.MidtransTrxID,
              RawNotification := some (L.Marshal (payloadFields payload)),
              SettledAt := (settledAt L payload.SettlementTime).orElse fun _ => o.SettledAt,
              UpdatedAt := env.dbNow }
          else o) ∧
    (validlySigned s payload →
      (∃ order, db.paymentOrders.find? (fun o => o.OrderID = payload.OrderID) = some order) →
      env.faults.GetPaymentOrder = false → env.faults.UpdatePaymentOrderStatus = false →
      (HandleSnapNotification L s env db payload).2 = .ok () ∧
      (HandleSnapNotification L s env db payload).1.paymentOrders =
        db.paymentOrders.map fun o =>
          if o.OrderID = payload.OrderID then
            { o with
              Status := internalStatus L payload.TransactionStatus payload.FraudStatus,
              MidtransTrxID := if payload.TransactionID ≠ "" then some payload.TransactionID
                else o.MidtransTrxID,
              RawNotification := some (L.Marshal (payloadFields payload)),
              SettledAt := (settledAt L payload.SettlementTime).orElse fun _ => o.SettledAt,
              UpdatedAt := env.dbNow }
          else o) := by
  rw [internalStatus_eq_newStatus] at hns
  have hplain : ∀ order : PaymentOrderRecord, order.OrderID = payload.OrderID →
      (updatePaymentOrderStatus (orderUpdate L payload order none) env.dbNow db).paymentOrders
      = db.paymentOrders.map fun o =>
          if o.OrderID = payload.OrderID then
            { o with
              Status := internalStatus L payload.TransactionStatus payload.FraudStatus,
              MidtransTrxID := if payload.TransactionID ≠ "" then some payload.TransactionID
                else o.MidtransTrxID,
              RawNotification := some (L.Marshal (payloadFields payload)),
              SettledAt := (settledAt L payload.SettlementTime).orElse fun _ => o.SettledAt,
              UpdatedAt := env.dbNow }
          else o := by
    intro order hid
    rw [internalStatus_eq_newStatus]
    unfold updatePaymentOrderStatus
    simp only [orderUpdate, hid, setPaymentOrder]
    apply List.map_congr_left
    intro o _
    by_cases ho : o.OrderID = payload.OrderID
    · by_cases ht : payload.TransactionID = "" <;> simp [ho, ht, Option.orElse]
    · simp [ho]
  have hframe : (HandleSnapNotification L s env db payload).1 = db ∨
      ∃ order, order.OrderID = payload.OrderID ∧
        (HandleSnapNotification L s env db payload).1 =
          updatePaymentOrderStatus (orderUpdate L payload order none) env.dbNow db := by
    rcases HandleSnapNotification_cases L s env db payload with
      ⟨e, he⟩ | ⟨order, -, -, hst, -, -⟩ | ⟨order, -, hord, -, he⟩
    · exact Or.inl (by rw [he])
    · exact absurd (by rw [hst]) hns
    · exact Or.inr ⟨order, find?_OrderID hord, by rw [he]⟩
  have hrest : ∃ os, (HandleSnapNotification L s env db payload).1 =
      { db with paymentOrders := os } := by
    rcases hframe with h | ⟨o, -, h⟩
    · exact ⟨db.paymentOrders, h⟩
    · exact ⟨_, h⟩
  obtain ⟨os, hos⟩ := hrest
  refine ⟨by rw [hos], by rw [hos], by rw [hos], by rw [hos], by rw [hos], by rw [hos],
    ?_, ?_⟩
  · rcases hframe with h | ⟨o, hid, h⟩
    · exact Or.inl (by rw [h])
    · exact Or.inr (by rw [h]; exact hplain o hid)
  · rintro hsig ⟨order, hord⟩ hg hu
    have hc : ¬ ((newStatus L payload).1 = "SETTLEMENT" ∧ order.BalanceApplied = false ∧
        (newStatus L payload).2 = true) := fun h => hns h.1
    rw [HandleSnapNotification_plain L s env db payload order hsig hord hc hg hu]
    exact ⟨rfl, hplain order (find?_OrderID hord)⟩

/-- C14, at a concrete store: a validly signed `cancel` for `order0`. -/
theorem non_settlement_only_updates_order_witness :
    internalStatus refLib payloadCancel.TransactionStatus payloadCancel.FraudStatus
      = "CANCELLED" ∧
    (HandleSnapNotification refLib svc0 env0 dbOrder payloadCancel).2 = .ok () ∧
    (HandleSnapNotification refLib svc0 env0 dbOrder payloadCancel).1.walletSummary = [] ∧
    (HandleSnapNotification refLib svc0 env0 dbOrder payloadCancel).1.transactions = [] :=
  have h := non_settlement_only_updates_order refLib svc0 env0 dbOrder payloadCancel
    (by decide)
  ⟨by decide, (h.2.2.2.2.2.2.2 (by decide!) ⟨order0, by decide⟩ rfl rfl).1, h.1, h.2.1⟩

/-- C15, the code at the failing input: the status `ſettlement` (first rune U+017F) is not
matched by the switch, its upper-cased form is `SETTLEMENT`, and the validly signed
notification for the unapplied `order0` is handled with success by the plain update: the
order is stored as SETTLEMENT with `balanceApplied = false` and nothing is credited. -/
theorem settlement_stored_without_credit :
    validlySigned svc0 payloadLongS ∧
    dbOrder.paymentOrders.find? (fun o => o.OrderID = payloadLongS.OrderID) = some order0 ∧
    order0.BalanceApplied = false ∧
    newStatus refLib payloadLongS = ("SETTLEMENT", false) ∧
    internalStatus refLib payloadLongS.TransactionStatus payloadLongS.FraudStatus
      = "SETTLEMENT" ∧
    (HandleSnapNotification refLib svc0 env0 dbOrder payloadLongS).2 = .ok () ∧
    (HandleSnapNotification refLib svc0 env0 dbOrder payloadLongS).1.paymentOrders
      = [{ order0 with Status := "SETTLEMENT", MidtransTrxID := some "trx-1",
                       RawNotification := some (refLib.Marshal (payloadFields payloadLongS)),
                       UpdatedAt := 1001 }] ∧
    (HandleSnapNotification refLib svc0 env0 dbOrder payloadLongS).1.walletSummary = [] ∧
    (HandleSnapNotification refLib svc0 env0 dbOrder payloadLongS).1.transactions = [] := by
  decide!

/-- C16, the claim fails: `order0` is stored as SETTLEMENT, applied; a validly signed
`cancel` notification for it is handled with success and leaves it CANCELLED. -/
theorem settled_order_cancelled_counterexample :
    validlySigned svc0 payloadCancel ∧
    dbSettled.paymentOrders.find? (fun o => o.OrderID = payloadCancel.OrderID)
      = some orderSettled ∧
    orderSettled.Status = "SETTLEMENT" ∧
    (HandleSnapNotification refLib svc0 env0 dbSettled payloadCancel).2 = .ok () ∧
    ((HandleSnapNotification refLib svc0 env0 dbSettled payloadCancel).1.paymentOrders.find?
        (fun o => o.OrderID = payloadCancel.OrderID)).map (fun o => o.Status)
      = some "CANCELLED" := by
  decide!

/-- C16, amended: the stored status plays no part in `HandleSnapNotification`. For every
existing order, whatever its stored status, a validly signed notification handled with no
failing statement leaves the order with the status mapped from the notification, so the
stored status is kept only when the notification maps to it; what is guarded is the
credit: an order with `balanceApplied = true` keeps the flag and is not credited. -/
theorem status_follows_notification (L : Lib) (s : WalletService) (env : Env) (db : Store)
    (payload : NotificationPayload) (order : PaymentOrderRecord)
    (hsig : validlySigned s payload)
    (hord : db.paymentOrders.find? (fun o => o.OrderID = payload.OrderID) = some order)
    (hf : env.faults = {}) :
    (HandleSnapNotification L s env db payload).2 = .ok () ∧
    (∃ o, (HandleSnapNotification L s env db payload).1.paymentOrders.find?
        (fun o => o.OrderID = payload.OrderID) = some o ∧
      o.Status = internalStatus L payload.TransactionStatus payload.FraudStatus ∧
      (o.Status = order.Status ↔
        order.Status = internalStatus L payload.TransactionStatus payload.FraudStatus) ∧
      (order.BalanceApplied = true → o.BalanceApplied = true)) ∧
    (order.BalanceApplied = true →
      (HandleSnapNotification L s env db payload).1.walletSummary = db.walletSummary ∧
      (HandleSnapNotification L s env db payload).1.transactions = db.transactions) := by
  rw [internalStatus_eq_newStatus]
  by_cases hc : (newStatus L payload).1 = "SETTLEMENT" ∧ order.BalanceApplied = false ∧
      (newStatus L payload).2 = true
  · rw [HandleSnapNotification_settle L s env db payload order hsig hord
      (Prod.ext hc.1 hc.2.2) hc.2.1 hf]
    refine ⟨rfl, ⟨_, find?_settled L env db payload order hord, ?_, ?_, ?_⟩, ?_⟩
    · simp [setPaymentOrder, orderUpdate]
    · simp only [setPaymentOrder, orderUpdate]
      exact eq_comm
    · intro h
      simp [setPaymentOrder, orderUpdate]
    · intro h
      rw [hc.2.1] at h
      cases h
  · rw [HandleSnapNotification_plain L s env db payload order hsig hord hc
      (by rw [hf]) (by rw [hf])]
    refine ⟨rfl, ⟨_, find?_plain L env.dbNow db payload order hord, ?_, ?_, ?_⟩, ?_⟩
    · simp [setPaymentOrder, orderUpdate]
    · simp only [setPaymentOrder, orderUpdate]
      exact eq_comm
    · intro h
      simp [setPaymentOrder, orderUpdate, h]
    · intro _
      exact ⟨rfl, rfl⟩

/-- C16, amended, at a concrete store: the cancel of the settled `order0`. -/
theorem status_follows_notification_witness :
    validlySigned svc0 payloadCancel ∧
    (HandleSnapNotification refLib svc0 env0 dbSettled payloadCancel).2 = .ok () ∧
    (HandleSnapNotification refLib svc0 env0 dbSettled payloadCancel).1.walletSummary
      = dbSettled.walletSummary :=
  have h := status_follows_notification refLib svc0 env0 dbSettled payloadCancel orderSettled
    (by decide!) (by decide) rfl
  ⟨by decide!, h.1, (h.2.2 rfl).1⟩

/-- C17, the claim fails: the settlement of `order0` is delivered once, then again while
the store clock reads `2000`; the second call succeeds and leaves balances and history as
they were, but it rewrites the order row, whose `updatedAt` goes from `1001` to `2000`. -/
theorem redelivery_rewrites_order_counterexample :
    ((HandleSnapNotification refLib svc0 env0 dbOrder payload0).1.paymentOrders.find?
        (fun o => o.OrderID = payload0.OrderID)).map
          (fun o => (o.BalanceApplied, o.UpdatedAt)) = some (true, 1001) ∧
    (HandleSnapNotification refLib svc0 envLater
      (HandleSnapNotification refLib svc0 env0 dbOrder payload0).1 payload0).2 = .ok () ∧
    ((HandleSnapNotification refLib svc0 envLater
      (HandleSnapNotification refLib svc0 env0 dbOrder payload0).1 payload0).1.paymentOrders.find?
        (fun o => o.OrderID = payload0.OrderID)).map
          (fun o => (o.BalanceApplied, o.UpdatedAt)) = some (true, 2000) ∧
    (HandleSnapNotification refLib svc0 envLater
      (HandleSnapNotification refLib svc0 env0 dbOrder payload0).1 payload0).1.paymentOrders
      ≠ (HandleSnapNotification refLib svc0 env0 dbOrder payload0).1.paymentOrders := by
  decide!

/-- C17, amended: for an order whose `balanceApplied` is already true, a validly signed
settlement notification whose statements succeed returns success, changes no wallet row,
appends no transaction record and touches no other table, and rewrites the addressed order
row by the plain update: status, external transaction id, raw notification, settlement time
and `updatedAt` are set from the notification and the store clock, every other field,
`balanceApplied` included, is kept. -/
theorem applied_order_redelivery (L : Lib) (s : WalletService) (env : Env) (db : Store)
    (payload : NotificationPayload) (order : PaymentOrderRecord)
    (hsig : validlySigned s payload)
    (hord : db.paymentOrders.find? (fun o => o.OrderID = payload.OrderID) = some order)
    (hap : order.BalanceApplied = true)
    (hst : L.ToLower payload.TransactionStatus = "settlement")
    (hg : env.faults.GetPaymentOrder = false)
    (hu : env.faults.UpdatePaymentOrderStatus = false) :
    HandleSnapNotification L s env db payload =
      ({ db with paymentOrders := db.paymentOrders.map fun o =>
          if o.OrderID = payload.OrderID then
            { o with
              Status := "SETTLEMENT",
              MidtransTrxID := if payload.TransactionID ≠ "" then some payload.TransactionID
                else o.MidtransTrxID,
              RawNotification := some (L.Marshal (payloadFields payload)),
              SettledAt := (settledAt L payload.SettlementTime).orElse fun _ => o.SettledAt,
              UpdatedAt := env.dbNow }
          else o }, .ok ()) ∧
    ((HandleSnapNotification L s env db payload).1.paymentOrders.find?
        (fun o => o.OrderID = payload.OrderID)).map (fun o => o.BalanceApplied)
      = some true := by
  have hns := newStatus_settlement L payload hst
  have hc : ¬ ((newStatus L payload).1 = "SETTLEMENT" ∧ order.BalanceApplied = false ∧
      (newStatus L payload).2 = true) := by
    rintro ⟨-, h, -⟩
    rw [hap] at h
    cases h
  have hid := find?_OrderID hord
  rw [HandleSnapNotification_plain L s env db payload order hsig hord hc hg hu]
  constructor
  · unfold updatePaymentOrderStatus
    simp only [orderUpdate, hid, setPaymentOrder, hns]
    congr 2
    apply List.map_congr_left
    intro o _
    by_cases ho : o.OrderID = payload.OrderID
    · by_cases ht : payload.TransactionID = "" <;> simp [ho, ht, Option.orElse]
    · simp [ho]
  · rw [find?_plain L env.dbNow db payload order hord]
    simp [setPaymentOrder, orderUpdate, hap]

/-- C17, amended, at a concrete store: the settlement notification on the applied order. -/
theorem applied_order_redelivery_witness :
    validlySigned svc0 payload0 ∧
    (HandleSnapNotification refLib svc0 envLater dbSettled payload0).2 = .ok () ∧
    (HandleSnapNotification refLib svc0 envLater dbSettled payload0).1.walletSummary
      = dbSettled.walletSummary :=
  have h := applied_order_redelivery refLib svc0 envLater dbSettled payload0 orderSettled
    (by decide!) (by decide) rfl (by decide) rfl rfl
  ⟨by decide!, by rw [h.1], by rw [h.1]⟩

end services

namespace services

open repositories

/-! ## Voucher claims: rejection before the scope, quota -/

/-- C18: for a well-formed input whose voucher lookup is answered, `KlaimVoucher` fails with
`ErrBadRequest` when no voucher has the code, with `ErrConflict` when the voucher is
inactive, and with `ErrConflict` when its expiry is strictly before the one clock reading
of the call; in the three cases the store is returned as it was, and the outcome is the
same when `BeginTx` and every later statement would fail, so no scope is opened. An expiry
equal to the clock reading is not expired: the claim goes through. -/
theorem klaimVoucher_rejects_before_scope (env : Env) (db : Store) (inp : KlaimVoucherInput)
    (hval : validateKlaimVoucherInput inp = none)
    (hg : env.faults.GetVoucherByCode = false) :
    (db.vouchers.find? (fun v => v.Code = inp.KodeVoucher) = none →
      KlaimVoucher env db inp = (db, .error (.ErrBadRequest "voucher tidak ditemukan"))) ∧
    (∀ v, db.vouchers.find? (fun v => v.Code = inp.KodeVoucher) = some v →
      v.Active = false →
      KlaimVoucher env db inp = (db, .error (.ErrConflict "voucher non-aktif"))) ∧
    (∀ v t, db.vouchers.find? (fun v => v.Code = inp.KodeVoucher) = some v →
      v.Active = true → v.ExpiresAt = some t → t < env.now 0 →
      KlaimVoucher env db inp = (db, .error (.ErrConflict "voucher kadaluarsa"))) ∧
    (∀ v, db.vouchers.find? (fun v => v.Code = inp.KodeVoucher) = some v →
      v.Active = true → v.ExpiresAt = some (env.now 0) →
      claimCount db inp.UserID v.ID = 0 → env.faults = {} →
      (KlaimVoucher env db inp).2 = .ok ()) := by
  refine ⟨?_, ?_, ?_, ?_⟩
  · intro hnone
    simp [KlaimVoucher, hval, GetVoucherByCode, hg, hnone]
  · intro v hv hact
    simp [KlaimVoucher, hval, GetVoucherByCode, hg, hv, hact]
  · intro v t hv hact hexp hlt
    simp [KlaimVoucher, hval, GetVoucherByCode, hg, hv, hact, hexp, hlt]
  · intro v hv hact hexp hnew hf
    have hnew2 : ∀ c ∈ db.userVoucherClaims,
        c.userId = inp.UserID → ¬ c.voucherId = v.ID := by
      unfold claimCount at hnew
      rw [List.length_eq_zero, List.filter_eq_nil_iff] at hnew
      intro c hc h1 h2
      exact hnew c hc (by simp [h1, h2])
    rw [KlaimVoucher_ok env db inp v hval hv hact
      (fun t ht => by rw [hexp] at ht; cases ht; exact le_refl _) hnew2 hf]

/-- C18, at concrete stores: the three rejections, with every statement after the lookup
set to fail, and the claim of a voucher that expires at the clock reading. -/
theorem klaimVoucher_rejects_before_scope_witness :
    KlaimVoucher envOnlyLookup dbVoucher klaimUnknown
      = (dbVoucher, .error (.ErrBadRequest "voucher tidak ditemukan")) ∧
    KlaimVoucher envOnlyLookup dbInactive klaim0
      = (dbInactive, .error (.ErrConflict "voucher non-aktif")) ∧
    KlaimVoucher envOnlyLookup dbExpired klaim0
      = (dbExpired, .error (.ErrConflict "voucher kadaluarsa")) ∧
    (KlaimVoucher env0 dbExpiresNow klaim0).2 = .ok () :=
  have h1 := klaimVoucher_rejects_before_scope envOnlyLookup dbVoucher klaimUnknown
    (by decide) rfl
  have h2 := klaimVoucher_rejects_before_scope envOnlyLookup dbInactive klaim0
    (by decide) rfl
  have h3 := klaimVoucher_rejects_before_scope envOnlyLookup dbExpired klaim0
    (by decide) rfl
  have h4 := klaimVoucher_rejects_before_scope env0 dbExpiresNow klaim0 (by decide) rfl
  ⟨h1.1 (by decide),
   h2.2.1 { voucher0 with Active := false } (by decide) rfl,
   h3.2.2.1 { voucher0 with ExpiresAt := some 999 } 999 (by decide) rfl rfl (by decide),
   h4.2.2.2 { voucher0 with ExpiresAt := some 1000 } (by decide) rfl rfl (by decide) rfl⟩

theorem voucherClaimCount_klaimed (db : Store) (inp : KlaimVoucherInput) (v : VoucherRecord)
    (now : Time) :
    voucherClaimCount (klaimed db inp v now) v.ID = voucherClaimCount db v.ID + 1 := by
  simp [voucherClaimCount, klaimed, List.filter_append]

/-- C19: quota and per-user limit are not enforced by `KlaimVoucher`. For an active,
unexpired voucher whose claims already reach or exceed its quota `q`, the claim of a
well-formed input by a user who has not claimed it, with no failing statement, succeeds
and credits `(V, 0, V)`; afterwards the voucher has more than `q` claims, and a per-user
limit of zero or less is exceeded as well. -/
theorem klaimVoucher_ignores_quota (env : Env) (db : Store) (inp : KlaimVoucherInput)
    (v : VoucherRecord) (q : Int)
    (hval : validateKlaimVoucherInput inp = none)
    (hv : db.vouchers.find? (fun v => v.Code = inp.KodeVoucher) = some v)
    (hact : v.Active = true)
    (hexp : ∀ t, v.ExpiresAt = some t → env.now 0 ≤ t)
    (hq : v.Quota = some q)
    (hfull : q ≤ voucherClaimCount db v.ID)
    (hnew : claimCount db inp.UserID v.ID = 0)
    (hf : env.faults = {}) :
    (KlaimVoucher env db inp).2 = .ok () ∧
    saldo (KlaimVoucher env db inp).1.walletSummary inp.UserID =
      ((saldo db.walletSummary inp.UserID).1 + v.Amount,
       (saldo db.walletSummary inp.UserID).2.1,
       (saldo db.walletSummary inp.UserID).2.2 + v.Amount) ∧
    (∃ q0, v.Quota = some q0 ∧ q0 < voucherClaimCount (KlaimVoucher env db inp).1 v.ID) ∧
    (∀ l : Int, v.PerUserLimit = some l → l ≤ 0 →
      l < claimCount (KlaimVoucher env db inp).1 inp.UserID v.ID) := by
  have hnew2 : ∀ c ∈ db.userVoucherClaims, c.userId = inp.UserID → ¬ c.voucherId = v.ID := by
    unfold claimCount at hnew
    rw [List.length_eq_zero, List.filter_eq_nil_iff] at hnew
    intro c hc h1 h2
    exact hnew c hc (by simp [h1, h2])
  rw [KlaimVoucher_ok env db inp v hval hv hact hexp hnew2 hf]
  refine ⟨rfl, ?_, ⟨q, hq, ?_⟩, ?_⟩
  · simp [klaimed, saldo_upsertSaldo]
  · simp only []
    rw [voucherClaimCount_klaimed]
    push_cast
    omega
  · intro l _ hl
    simp only []
    rw [claimCount_klaimed, hnew]
    push_cast
    omega

/-- C19, at a concrete store: the only unit of the voucher is taken by another user, and
`user0` still claims it. -/
theorem klaimVoucher_ignores_quota_witness :
    voucherQuota.Quota = some 1 ∧ voucherClaimCount dbQuota voucherQuota.ID = 1 ∧
    (KlaimVoucher env0 dbQuota klaim0).2 = .ok () ∧
    saldo (KlaimVoucher env0 dbQuota klaim0).1.walletSummary user0 = (50000, 0, 50000) ∧
    voucherClaimCount (KlaimVoucher env0 dbQuota klaim0).1 voucherQuota.ID = 2 :=
  have h := klaimVoucher_ignores_quota env0 dbQuota klaim0 voucherQuota 1 (by decide)
    (by decide) rfl (fun t ht => by cases ht) rfl (by decide) (by decide) rfl
  ⟨rfl, by decide, h.1, by decide, by decide⟩

end services

namespace handlers

/-! ## HTTP status of an error -/

/-- C20: `mapError` answers 400 for `ErrBadRequest`, 409 for `ErrConflict`, 422 for
`ErrInsufficientBalance`, 404 for `ErrNotFoundResource` and 500 for every other error, with
the error's message as body; the four statuses differ from each other and from 500, and in
particular `ErrInsufficientBalance` never gets the status of `ErrBadRequest`. -/
theorem mapError_status :
    (∀ m, mapError (.ErrBadRequest m) = (400, m)) ∧
    (∀ m, mapError (.ErrConflict m) = (409, m)) ∧
    (∀ m, mapError (.ErrInsufficientBalance m) = (422, m)) ∧
    (∀ m, mapError (.ErrNotFoundResource m) = (404, m)) ∧
    (∀ e, (∀ m, e ≠ .ErrBadRequest m) → (∀ m, e ≠ .ErrConflict m) →
      (∀ m, e ≠ .ErrInsufficientBalance m) → (∀ m, e ≠ .ErrNotFoundResource m) →
      mapError e = (500, e.message)) ∧
    (∀ m1 m2,
      (mapError (.ErrInsufficientBalance m1)).1 ≠ (mapError (.ErrBadRequest m2)).1) := by
  refine ⟨fun _ => rfl, fun _ => rfl, fun _ => rfl, fun _ => rfl, ?_, ?_⟩
  · intro e h1 h2 h3 h4
    cases e with
    | ErrBadRequest m => exact absurd rfl (h1 m)
    | ErrConflict m => exact absurd rfl (h2 m)
    | ErrInsufficientBalance m => exact absurd rfl (h3 m)
    | ErrNotFoundResource m => exact absurd rfl (h4 m)
    | ErrNotFound m => rfl
    | ErrNoRows => rfl
    | other m => rfl
  · intro m1 m2 h
    simp [mapError] at h

/-- C20, on the errors the service lets through unclassified: a missing wallet row, as
`Withdraw` returns it, and a driver failure are answered with 500. -/
theorem mapError_status_witness :
    mapError (.ErrNotFound "wallet not found") = (500, "wallet not found") ∧
    mapError repositories.driverError = (500, "store failure") :=
  ⟨mapError_status.2.2.2.2.1 _ (fun _ h => by cases h) (fun _ h => by cases h)
     (fun _ h => by cases h) (fun _ h => by cases h),
   mapError_status.2.2.2.2.1 _ (fun _ h => by cases h) (fun _ h => by cases h)
     (fun _ h => by cases h) (fun _ h => by cases h)⟩

end handlers

namespace services

open repositories

/-! ## Concurrent deliveries -/

/-- A delivery is its first phase followed by its second phase on the same store. -/
theorem HandleSnapNotification_phases (L : Lib) (s : WalletService) (env : Env) (db : Store)
    (payload : NotificationPayload) :
    HandleSnapNotification L s env db payload =
      match loadOrder s env db payload with
      | .error e => (db, .error e)
      | .ok order => applyNotification L env db payload order := by
  unfold HandleSnapNotification loadOrder
  split
  · rfl
  · split
    · rfl
    · split
      · rename_i h
        simp only [h]
      · rename_i h
        simp only [h]
      · rename_i h
        simp only [h]
        rfl

/-- C21, the code on the failing schedule: two deliveries of the settlement of `order0`
both read the order before either opens its scope, so both see `balanceApplied = false`;
the first then commits, and the second, run on the store the first left, commits as well:
two `TOP_UP` records are appended and the gross amount is credited twice. -/
theorem concurrent_deliveries_credit_twice :
    validlySigned svc0 payload0 ∧
    loadOrder svc0 env0 dbOrder payload0 = .ok order0 ∧
    loadOrder svc0 envLater dbOrder payload0 = .ok order0 ∧
    order0.BalanceApplied = false ∧
    (applyNotification refLib env0 dbOrder payload0 order0).2 = .ok () ∧
    (applyNotification refLib envLater
      (applyNotification refLib env0 dbOrder payload0 order0).1 payload0 order0).2 = .ok () ∧
    topUpCount (applyNotification refLib envLater
      (applyNotification refLib env0 dbOrder payload0 order0).1 payload0 order0).1 user0 = 2 ∧
    saldo (applyNotification refLib envLater
      (applyNotification refLib env0 dbOrder payload0 order0).1 payload0 order0).1.walletSummary
        user0 = (200000, 200000, 0) ∧
    saldo dbOrder.walletSummary user0 = (0, 0, 0) := by
  decide!

end services

namespace services

open repositories

/-! ## The balance-type table -/

/-- C22: the switch of `Withdraw` is the fixed table: a value normalises to topup exactly
when it is one of `topup`, `saldo_topup`, `pendapatan`, `deposit`, `saldo_deposit`, to
redeem exactly when it is one of `redeem`, `saldo_redeem`, `refund`, `saldo_refund`, `ev`,
`ev_poin`, and to nothing else; the value looked up is the trimmed, lower-cased input, and
an input with valid user id, amount and bank details whose value is in neither list is
rejected with `ErrBadRequest`, the store untouched. -/
theorem balance_type_table (L : Lib) (inp : WithdrawInput) :
    (∀ bt, target bt = some "topup" ↔ bt ∈ topupSynonyms) ∧
    (∀ bt, target bt = some "redeem" ↔ bt ∈ redeemSynonyms) ∧
    (∀ bt, target bt = none ↔ bt ∉ topupSynonyms ∧ bt ∉ redeemSynonyms) ∧
    (∀ bt tgt, target bt = some tgt → tgt = "topup" ∨ tgt = "redeem") ∧
    balanceTypeOf L inp = L.ToLower (TrimSpace
      (firstNonEmpty [inp.BalanceType, inp.BalanceTypeAlt, inp.Source])) ∧
    (validWithdrawInput inp →
      balanceTypeOf L inp ∉ topupSynonyms ∧ balanceTypeOf L inp ∉ redeemSynonyms →
      ∀ (s : WalletService) (env : Env) (db : Store),
        Withdraw L s env db inp = (db, .error (.ErrBadRequest "balanceType wajib diisi")) ∨
        Withdraw L s env db inp = (db, .error (.ErrBadRequest "balanceType tidak valid"))) := by
  have h1 : ∀ bt, target bt = some "topup" ↔ bt ∈ topupSynonyms := by
    intro bt
    unfold target topupSynonyms
    simp only [List.mem_cons, List.mem_singleton, List.not_mem_nil, or_false]
    constructor
    · intro h
      split at h
      · assumption
      · split at h
        · simp at h
        · cases h
    · intro h
      rw [if_pos h]
  have h2 : ∀ bt, target bt = some "redeem" ↔ bt ∈ redeemSynonyms := by
    intro bt
    unfold target redeemSynonyms
    simp only [List.mem_cons, List.mem_singleton, List.not_mem_nil, or_false]
    constructor
    · intro h
      split at h
      · simp at h
      · split at h
        · assumption
        · cases h
    · intro h
      have hno : ¬ (bt = "topup" ∨ bt = "saldo_topup" ∨ bt = "pendapatan" ∨ bt = "deposit"
          ∨ bt = "saldo_deposit") := by
        rcases h with h | h | h | h | h | h <;> (subst h; decide)
      rw [if_neg hno, if_pos h]
  have h4 : ∀ bt tgt, target bt = some tgt → tgt = "topup" ∨ tgt = "redeem" :=
    fun _ _ h => target_cases h
  have h3 : ∀ bt, target bt = none ↔ bt ∉ topupSynonyms ∧ bt ∉ redeemSynonyms := by
    intro bt
    constructor
    · intro h
      constructor
      · intro hm
        rw [(h1 bt).2 hm] at h
        cases h
      · intro hm
        rw [(h2 bt).2 hm] at h
        cases h
    · rintro ⟨ha, hb⟩
      cases ht : target bt with
      | none => rfl
      | some tgt =>
        rcases target_cases ht with rfl | rfl
        · exact absurd ((h1 bt).1 ht) ha
        · exact absurd ((h2 bt).1 ht) hb
  refine ⟨h1, h2, h3, h4, rfl, ?_⟩
  intro hval hnot s env db
  have htgt : target (balanceTypeOf L inp) = none := (h3 _).2 hnot
  obtain ⟨hu, ha, hb1, hb2, hb3⟩ := hval
  have hbank : ¬ (TrimSpace inp.BankCode = "" ∨ TrimSpace inp.AccountNumber = ""
      ∨ TrimSpace inp.AccountHolderName = "") := by
    simp [hb1, hb2, hb3]
  unfold balanceTypeOf at htgt
  unfold Withdraw
  simp only [hu, ha, Bool.not_true, Bool.false_eq_true, if_false]
  rw [if_neg hbank]
  by_cases hbt : L.ToLower (TrimSpace
      (firstNonEmpty [inp.BalanceType, inp.BalanceTypeAlt, inp.Source])) = ""
  · rw [if_pos hbt]
    exact Or.inl rfl
  · rw [if_neg hbt, htgt]
    exact Or.inr rfl

/-- C22, at concrete inputs: ` Pendapatan ` normalises to topup, `bonus` to nothing. -/
theorem balance_type_table_witness :
    target (balanceTypeOf refLib withdrawTopup) = some "topup" ∧
    Withdraw refLib svc0 env0 dbWallet withdrawBonusType
      = (dbWallet, .error (.ErrBadRequest "balanceType tidak valid")) :=
  have h := balance_type_table refLib withdrawBonusType
  ⟨by decide, (h.2.2.2.2.2 (by decide) (by decide) svc0 env0 dbWallet).resolve_left
    (by decide)⟩

end services

namespace services

open repositories

/-! ## Withdrawals from the top-up balance -/

/-- C23: every successful `Withdraw` of amount `A` whose balance type normalises to topup
has `A > 0`, lowers `topupBalance` and `totalBalance` of the user by exactly `A`, leaves
`redeemBalance` and every other user's balance unchanged, and appends exactly one
transaction record, of type `TARIK_SALDO_PENDAPATAN` and amount `A`. -/
theorem withdraw_topup_debits (L : Lib) (s : WalletService) (env : Env) (db : Store)
    (inp : WithdrawInput) (res : WithdrawResult)
    (htgt : target (balanceTypeOf L inp) = some "topup")
    (hok : (Withdraw L s env db inp).2 = .ok res) :
    0 < inp.Jumlah ∧
    saldo (Withdraw L s env db inp).1.walletSummary inp.UserID =
      ((saldo db.walletSummary inp.UserID).1 - inp.Jumlah,
       (saldo db.walletSummary inp.UserID).2.1 - inp.Jumlah,
       (saldo db.walletSummary inp.UserID).2.2) ∧
    (∀ u, u ≠ inp.UserID →
      saldo (Withdraw L s env db inp).1.walletSummary u = saldo db.walletSummary u) ∧
    (Withdraw L s env db inp).1.transactions = db.transactions ++
      [{ UserID := inp.UserID, TipeTransaksi := "TARIK_SALDO_PENDAPATAN",
         Amount := inp.Jumlah, Description := some "Tarik saldo top up",
         ReferenceID := none, CreatedAt := env.now 0 }] := by
  rcases Withdraw_cases L s env db inp with
    ⟨e, he⟩ |
    ⟨tgt, w, htgt2, hw, hval, -, -, -, ⟨e, pr, he⟩ | ⟨db1, res2, he, hws, htx, -⟩⟩
  · rw [he] at hok
    cases hok
  · rw [he] at hok
    cases hok
  · rw [htgt] at htgt2
    cases htgt2
    rw [he]
    simp only []
    rw [hws, htx]
    refine ⟨?_, ?_, ?_, ?_⟩
    · have ha := hval.2.1
      simp [validAmount] at ha
      exact ha.2
    · simp [saldo_upsertSaldo, withdrawDelta]
      constructor <;> ring
    · intro u hu
      simp [saldo_upsertSaldo, withdrawDelta, hu]
    · simp [withdrawRecord]

/-- C23, at a concrete store: `10` withdrawn from the top-up part of `(150, 50, 100)`. -/
theorem withdraw_topup_debits_witness :
    target (balanceTypeOf refLib withdrawTopup) = some "topup" ∧
    (Withdraw refLib svc0 env0 dbWallet withdrawTopup).2
      = .ok { OrderID := "payout-1", Status := "PENDING" } ∧
    saldo (Withdraw refLib svc0 env0 dbWallet withdrawTopup).1.walletSummary user0
      = (140, 40, 100) :=
  ⟨by decide, by decide,
   (withdraw_topup_debits refLib svc0 env0 dbWallet withdrawTopup
      { OrderID := "payout-1", Status := "PENDING" } (by decide) (by decide)).2.1⟩

/-! ## The payment-order update -/

theorem BalanceApplied_map_updatePaymentOrderStatus (p : UpdatePaymentOrderStatusParams)
    (dbNow : Time) (db : Store) (h : p.BalanceAlreadyUsed = none) :
    (updatePaymentOrderStatus p dbNow db).paymentOrders.map (fun o => o.BalanceApplied)
      = db.paymentOrders.map (fun o => o.BalanceApplied) := by
  unfold updatePaymentOrderStatus
  simp only [List.map_map]
  apply List.map_congr_left
  intro o _
  by_cases ho : o.OrderID = p.OrderID <;> simp [ho, setPaymentOrder, h]

theorem BalanceApplied_mono_updatePaymentOrderStatus (p : UpdatePaymentOrderStatusParams)
    (dbNow : Time) (db : Store) (h : p.BalanceAlreadyUsed ≠ some false) :
    List.Forall₂ (fun o o1 => o1.OrderID = o.OrderID ∧
        (o.BalanceApplied = true → o1.BalanceApplied = true))
      db.paymentOrders (updatePaymentOrderStatus p dbNow db).paymentOrders := by
  unfold updatePaymentOrderStatus
  simp only []
  rw [List.forall₂_map_right_iff, List.forall₂_same]
  intro o _
  by_cases ho : o.OrderID = p.OrderID
  · simp only [ho, if_true, setPaymentOrder, true_and]
    intro hb
    cases hp : p.BalanceAlreadyUsed with
    | none => simpa using hb
    | some b =>
      cases b
      · exact absurd hp h
      · rfl
  · simp [ho]

/-- C24: the update of a payment order always overwrites the status, overwrites external
transaction id, raw notification, settlement time and `balanceApplied` only when a value is
supplied and keeps the stored value otherwise, keeps the remaining columns, and leaves
the rows of other orders alone. In `HandleSnapNotification` no call ever turns
`balanceApplied` from true to false, and a call that appends no transaction record (the
non-crediting path, or a failure) changes the flag of no order. -/
theorem payment_order_update_keeps_unset (L : Lib) (s : WalletService) (env : Env)
    (db : Store) (payload : NotificationPayload) :
    (∀ (p : UpdatePaymentOrderStatusParams) (dbNow : Time) (o : PaymentOrderRecord),
      (setPaymentOrder p dbNow o).Status = p.Status ∧
      (setPaymentOrder p dbNow o).MidtransTrxID =
        (match p.MidtransTrxID with | some x => some x | none => o.MidtransTrxID) ∧
      (setPaymentOrder p dbNow o).RawNotification =
        (match p.RawNotification with | some x => some x | none => o.RawNotification) ∧
      (setPaymentOrder p dbNow o).SettledAt =
        (match p.SettledAt with | some x => some x | none => o.SettledAt) ∧
      (setPaymentOrder p dbNow o).BalanceApplied =
        (match p.BalanceAlreadyUsed with | some b => b | none => o.BalanceApplied) ∧
      (setPaymentOrder p dbNow o).UserID = o.UserID ∧
      (setPaymentOrder p dbNow o).OrderID = o.OrderID ∧
      (setPaymentOrder p dbNow o).GrossAmount = o.GrossAmount ∧
      (setPaymentOrder p dbNow o).SnapToken = o.SnapToken ∧
      (setPaymentOrder p dbNow o).RedirectURL = o.RedirectURL ∧
      (setPaymentOrder p dbNow o).CreatedAt = o.CreatedAt) ∧
    (∀ (p : UpdatePaymentOrderStatusParams) (dbNow : Time),
      List.Forall₂ (fun o o1 => if o.OrderID = p.OrderID then o1 = setPaymentOrder p dbNow o
          else o1 = o)
        db.paymentOrders (updatePaymentOrderStatus p dbNow db).paymentOrders) ∧
    List.Forall₂ (fun o o1 => o1.OrderID = o.OrderID ∧
        (o.BalanceApplied = true → o1.BalanceApplied = true))
      db.paymentOrders (HandleSnapNotification L s env db payload).1.paymentOrders ∧
    ((HandleSnapNotification L s env db payload).1.transactions = db.transactions →
      (HandleSnapNotification L s env db payload).1.paymentOrders.map
          (fun o => o.BalanceApplied)
        = db.paymentOrders.map (fun o => o.BalanceApplied)) := by
  refine ⟨?_, ?_, ?_, ?_⟩
  · intro p dbNow o
    refine ⟨rfl, ?_, ?_, ?_, ?_, rfl, rfl, rfl, rfl, rfl, rfl⟩
    · cases h : p.MidtransTrxID <;> simp [setPaymentOrder, h]
    · cases h : p.RawNotification <;> simp [setPaymentOrder, h]
    · cases h : p.SettledAt <;> simp [setPaymentOrder, h]
    · cases h : p.BalanceAlreadyUsed <;> simp [setPaymentOrder, h]
  · intro p dbNow
    unfold updatePaymentOrderStatus
    simp only []
    rw [List.forall₂_map_right_iff, List.forall₂_same]
    intro o _
    by_cases ho : o.OrderID = p.OrderID <;> simp [ho]
  · rcases HandleSnapNotification_cases L s env db payload with
      ⟨e, he⟩ | ⟨order, -, -, -, -, he⟩ | ⟨order, -, -, -, he⟩
    · rw [he]
      simp only []
      rw [List.forall₂_same]
      intro o _
      exact ⟨rfl, id⟩
    · rw [he]
      exact BalanceApplied_mono_updatePaymentOrderStatus _ _ _ (by simp [orderUpdate])
    · rw [he]
      exact BalanceApplied_mono_updatePaymentOrderStatus _ _ _ (by simp [orderUpdate])
  · intro htx
    rcases HandleSnapNotification_cases L s env db payload with
      ⟨e, he⟩ | ⟨order, -, -, -, -, he⟩ | ⟨order, -, -, -, he⟩
    · rw [he]
    · rw [he] at htx
      simp [settled] at htx
    · rw [he]
      exact BalanceApplied_map_updatePaymentOrderStatus _ _ _ rfl

/-- C24, at a concrete store: a cancel for the settled, applied `order0` rewrites the
status, keeps the stored transaction id and leaves `balanceApplied` true. -/
theorem payment_order_update_keeps_unset_witness :
    (HandleSnapNotification refLib svc0 env0 dbSettled payloadCancel).1.transactions
      = dbSettled.transactions ∧
    (HandleSnapNotification refLib svc0 env0 dbSettled payloadCancel).1.paymentOrders.map
        (fun o => (o.Status, o.BalanceApplied, o.GrossAmount))
      = [("CANCELLED", true, 100000)] ∧
    (HandleSnapNotification refLib svc0 env0 dbSettled payloadCancel).1.paymentOrders.map
        (fun o => o.BalanceApplied)
      = dbSettled.paymentOrders.map (fun o => o.BalanceApplied) :=
  ⟨by decide!, by decide!,
   (payment_order_update_keeps_unset refLib svc0 env0 dbSettled payloadCancel).2.2.2
     (by decide!)⟩

end services

namespace services

open repositories

/-! ## Reconciliation of the history with the cached balance -/

theorem sumOfTypes_append (types : List String) (db db1 : Store) (r : TransactionRecord)
    (u : String) (htx : db1.transactions = db.transactions ++ [r]) :
    sumOfTypes types db1 u =
      sumOfTypes types db u +
        (if r.UserID = u ∧ r.TipeTransaksi ∈ types then r.Amount else 0) := by
  unfold sumOfTypes
  rw [htx, List.filter_append, List.map_append, List.sum_append]
  by_cases h : r.UserID = u ∧ r.TipeTransaksi ∈ types
  · simp [List.filter, h]
  · simp [List.filter, h]

theorem reconciliationGap_congr (db db1 : Store) (u : String)
    (hws : db1.walletSummary = db.walletSummary) (htx : db1.transactions = db.transactions) :
    reconciliationGap db1 u = reconciliationGap db u := by
  unfold reconciliationGap credited withdrawn sumOfTypes
  rw [hws, htx]

/-- A committed credit: the delta on the total and the record of a credit type carry the
same amount for the same user. -/
theorem reconciliationGap_credit (db db1 : Store) (p : AddSaldoParams) (r : TransactionRecord)
    (u : String)
    (hws : db1.walletSummary = upsertSaldo p db.walletSummary)
    (htx : db1.transactions = db.transactions ++ [r])
    (hu : r.UserID = p.UserID) (ha : p.DeltaTotal = r.Amount)
    (ht : r.TipeTransaksi = "TOP_UP" ∨ r.TipeTransaksi = "KLAIM_VOUCHER") :
    reconciliationGap db1 u = reconciliationGap db u := by
  unfold reconciliationGap credited withdrawn
  rw [sumOfTypes_append _ db db1 r u htx, sumOfTypes_append _ db db1 r u htx, hws,
    saldo_upsertSaldo]
  have hnot : ¬ (r.TipeTransaksi ∈ ["TARIK_SALDO_PENDAPATAN", "TARIK_SALDO_REFUND"]) := by
    rcases ht with h | h <;> (rw [h]; decide)
  have hin : r.TipeTransaksi ∈ ["TOP_UP", "KLAIM_VOUCHER"] := by
    rcases ht with h | h <;> (rw [h]; decide)
  by_cases h : u = p.UserID
  · have h2 : r.UserID = u := by rw [hu, h]
    simp only [h, if_true, h2, hin, hnot, and_true, and_false, if_false]
    omega
  · have h2 : ¬ r.UserID = u := fun e => h (by rw [← e, hu])
    simp [h, h2]

/-- A committed debit: the delta on the total is the opposite of the amount of a record of
a withdrawal type for the same user. -/
theorem reconciliationGap_debit (db db1 : Store) (p : AddSaldoParams) (r : TransactionRecord)
    (u : String)
    (hws : db1.walletSummary = upsertSaldo p db.walletSummary)
    (htx : db1.transactions = db.transactions ++ [r])
    (hu : r.UserID = p.UserID) (ha : p.DeltaTotal = -r.Amount)
    (ht : r.TipeTransaksi = "TARIK_SALDO_PENDAPATAN" ∨
      r.TipeTransaksi = "TARIK_SALDO_REFUND") :
    reconciliationGap db1 u = reconciliationGap db u := by
  unfold reconciliationGap credited withdrawn
  rw [sumOfTypes_append _ db db1 r u htx, sumOfTypes_append _ db db1 r u htx, hws,
    saldo_upsertSaldo]
  have hnot : ¬ (r.TipeTransaksi ∈ ["TOP_UP", "KLAIM_VOUCHER"]) := by
    rcases ht with h | h <;> (rw [h]; decide)
  have hin : r.TipeTransaksi ∈ ["TARIK_SALDO_PENDAPATAN", "TARIK_SALDO_REFUND"] := by
    rcases ht with h | h <;> (rw [h]; decide)
  by_cases h : u = p.UserID
  · have h2 : r.UserID = u := by rw [hu, h]
    simp only [h, if_true, h2, hin, hnot, and_true, and_false, if_false]
    omega
  · have h2 : ¬ r.UserID = u := fun e => h (by rw [← e, hu])
    simp [h, h2]

/-- C25: for every user, the total balance (zero without a wallet row) minus the sum of the
amounts of the user's `TOP_UP` and `KLAIM_VOUCHER` records less the sum of the amounts of
the user's `TARIK_SALDO_PENDAPATAN` and `TARIK_SALDO_REFUND` records is the same after
every call of `KlaimVoucher`, `HandleSnapNotification` and `Withdraw` as before it,
whatever the outcome. -/
theorem history_reconciles (L : Lib) (s : WalletService) (env : Env) (db : Store)
    (u : String) :
    (∀ inp, reconciliationGap (KlaimVoucher env db inp).1 u = reconciliationGap db u) ∧
    (∀ payload, reconciliationGap (HandleSnapNotification L s env db payload).1 u
      = reconciliationGap db u) ∧
    (∀ inp, reconciliationGap (Withdraw L s env db inp).1 u = reconciliationGap db u) := by
  refine ⟨?_, ?_, ?_⟩
  · intro inp
    rcases KlaimVoucher_cases env db inp with ⟨e, h⟩ | ⟨v, -, -, -, -, -, h⟩
    · rw [h]
    · rw [h]
      exact reconciliationGap_credit db _ _ _ u rfl rfl rfl rfl (Or.inr rfl)
  · intro payload
    rcases HandleSnapNotification_cases L s env db payload with
      ⟨e, h⟩ | ⟨order, -, -, -, -, h⟩ | ⟨order, -, -, -, h⟩
    · rw [h]
    · rw [h]
      exact reconciliationGap_credit db _ _ _ u rfl rfl rfl rfl (Or.inl rfl)
    · rw [h]
      exact reconciliationGap_congr _ _ u rfl rfl
  · intro inp
    rcases Withdraw_cases L s env db inp with
      ⟨e, h⟩ | ⟨tgt, w, htgt, -, -, -, -, -,
        ⟨e, pr, h⟩ | ⟨db1, res, h, hws, htx, -⟩⟩
    · rw [h]
    · rw [h]
      exact reconciliationGap_congr _ _ u rfl rfl
    · rw [h]
      refine reconciliationGap_debit db db1 _ _ u hws htx rfl rfl ?_
      rcases target_cases htgt with rfl | rfl
      · exact Or.inl rfl
      · exact Or.inr rfl

/-- C25, at concrete stores: the gap is `0` before and after a claim, a settlement and a
withdrawal from `(150, 50, 100)` leaves the gap `150` of that store. -/
theorem history_reconciles_witness :
    reconciliationGap dbVoucher user0 = 0 ∧
    reconciliationGap (KlaimVoucher env0 dbVoucher klaim0).1 user0 = 0 ∧
    saldo (KlaimVoucher env0 dbVoucher klaim0).1.walletSummary user0 = (50000, 0, 50000) ∧
    reconciliationGap (HandleSnapNotification refLib svc0 env0 dbOrder payload0).1 user0
      = reconciliationGap dbOrder user0 ∧
    reconciliationGap (Withdraw refLib svc0 env0 dbWallet withdraw0).1 user0 = 150 :=
  have h1 := history_reconciles refLib svc0 env0 dbVoucher user0
  have h2 := history_reconciles refLib svc0 env0 dbOrder user0
  have h3 := history_reconciles refLib svc0 env0 dbWallet user0
  ⟨by decide, (h1.1 klaim0).trans (by decide), by decide, h2.2.1 payload0,
   (h3.2.2 withdraw0).trans (by decide)⟩

end services

namespace services

open repositories

/-! ## What the signature covers -/

/-- C26: two payloads that agree on `order_id`, `status_code`, `gross_amount` and
`signature_key` get the same verdict from `VerifyNotificationSignature` under the same key,
whatever their other fields. -/
theorem verdict_depends_on_signed_fields (serverKey : String) (p q : NotificationPayload)
    (ho : p.OrderID = q.OrderID) (hc : p.StatusCode = q.StatusCode)
    (hg : p.GrossAmount = q.GrossAmount) (hs : p.SignatureKey = q.SignatureKey) :
    VerifyNotificationSignature serverKey p = VerifyNotificationSignature serverKey q := by
  unfold VerifyNotificationSignature
  rw [ho, hc, hg, hs]

/-- C26, at concrete payloads: the settlement `payload0` and its copy with status
`cancel` are both accepted under the key of `svc0`. -/
theorem verdict_depends_on_signed_fields_witness :
    payload0.TransactionStatus ≠ payloadCancel.TransactionStatus ∧
    VerifyNotificationSignature "SB-Mid-server-KEY" payloadCancel = true :=
  ⟨by decide,
   (verdict_depends_on_signed_fields "SB-Mid-server-KEY" payload0 payloadCancel
      rfl rfl rfl rfl).symm.trans (by decide!)⟩

/-- C27: the amount a settlement credits, and the amount of its `TOP_UP` record, is the
gross amount stored on the order. Two validly signed settlement notifications for the same
unapplied order, handled from the same store with no failing statement, leave the same
wallet table, whatever their `gross_amount` fields: the owner's balance raised by
`(G, G, 0)` for the stored `G`, and one `TOP_UP` record of amount `G` each. -/
theorem credit_uses_stored_amount (L : Lib) (s : WalletService) (env : Env) (db : Store)
    (p q : NotificationPayload) (order : PaymentOrderRecord)
    (hp : validlySigned s p) (hq : validlySigned s q)
    (hid : q.OrderID = p.OrderID)
    (hord : db.paymentOrders.find? (fun o => o.OrderID = p.OrderID) = some order)
    (hna : order.BalanceApplied = false)
    (hsp : L.ToLower p.TransactionStatus = "settlement")
    (hsq : L.ToLower q.TransactionStatus = "settlement")
    (hf : env.faults = {}) :
    (HandleSnapNotification L s env db p).1.walletSummary
      = (HandleSnapNotification L s env db q).1.walletSummary ∧
    saldo (HandleSnapNotification L s env db p).1.walletSummary order.UserID
      = ((saldo db.walletSummary order.UserID).1 + order.GrossAmount,
         (saldo db.walletSummary order.UserID).2.1 + order.GrossAmount,
         (saldo db.walletSummary order.UserID).2.2) ∧
    (∃ rp rq, (HandleSnapNotification L s env db p).1.transactions = db.transactions ++ [rp] ∧
      (HandleSnapNotification L s env db q).1.transactions = db.transactions ++ [rq] ∧
      rp.TipeTransaksi = "TOP_UP" ∧ rq.TipeTransaksi = "TOP_UP" ∧
      rp.Amount = order.GrossAmount ∧ rq.Amount = order.GrossAmount) := by
  have hordq : db.paymentOrders.find? (fun o => o.OrderID = q.OrderID) = some order := by
    rw [hid]
    exact hord
  rw [HandleSnapNotification_settle L s env db p order hp hord
      (newStatus_settlement L p hsp) hna hf,
    HandleSnapNotification_settle L s env db q order hq hordq
      (newStatus_settlement L q hsq) hna hf]
  refine ⟨rfl, ?_, ⟨_, _, rfl, rfl, rfl, rfl, rfl, rfl⟩⟩
  simp [settled, saldo_upsertSaldo]

/-- C27, at a concrete store: the notification that announces `5.00` for `order0`, validly
signed, credits the stored `100000`. -/
theorem credit_uses_stored_amount_witness :
    validlySigned svc0 payloadOtherAmount ∧
    payloadOtherAmount.GrossAmount ≠ payload0.GrossAmount ∧
    saldo (HandleSnapNotification refLib svc0 env0 dbOrder payloadOtherAmount).1.walletSummary
      user0 = (100000, 100000, 0) ∧
    (HandleSnapNotification refLib svc0 env0 dbOrder payload0).1.walletSummary
      = (HandleSnapNotification refLib svc0 env0 dbOrder payloadOtherAmount).1.walletSummary :=
  have h := credit_uses_stored_amount refLib svc0 env0 dbOrder payload0 payloadOtherAmount
    order0 (by decide!) (by decide!) rfl (by decide) rfl (by decide) (by decide) rfl
  ⟨by decide!, by decide, by decide!, h.1⟩

/-- C28: with an empty server key `HandleSnapNotification` returns the configuration error
and the store as it was, for every payload, every store and every environment: the
signature is not examined and no statement is issued. -/
theorem empty_key_refuses_every_notification (L : Lib) (s : WalletService) (env : Env)
    (db : Store) (payload : NotificationPayload)
    (hk : s.midtransServerKey = "") :
    HandleSnapNotification L s env db payload =
      (db, .error (.other "midtrans server key belum dikonfigurasi")) := by
  unfold HandleSnapNotification
  rw [if_pos hk]

/-- C28, at a concrete store: the notification signed with the empty key is refused. -/
theorem empty_key_refuses_every_notification_witness :
    VerifyNotificationSignature "" payloadEmptyKey = true ∧
    HandleSnapNotification refLib svcNoKey env0 dbOrder payloadEmptyKey =
      (dbOrder, .error (.other "midtrans server key belum dikonfigurasi")) ∧
    HandleSnapNotification refLib svcNoKey envAllFail dbOrder payloadEmptyKey =
      (dbOrder, .error (.other "midtrans server key belum dikonfigurasi")) :=
  ⟨by decide!,
   empty_key_refuses_every_notification refLib svcNoKey env0 dbOrder payloadEmptyKey rfl,
   empty_key_refuses_every_notification refLib svcNoKey envAllFail dbOrder payloadEmptyKey rfl⟩

/-! ## Withdrawals: the sign of the amount -/

/-- C29: a `Withdraw` whose amount is zero or negative returns `ErrBadRequest`, with a
message fixed by the input, and the store as it was, for every store and every
environment, so without any store access; and after a successful `Withdraw` the user's
total balance is lower and neither sub-balance is higher than before, every other user's
balance being unchanged. -/
theorem withdraw_never_credits (L : Lib) (inp : WithdrawInput) :
    (inp.Jumlah ≤ 0 →
      ∃ msg, ∀ (s : WalletService) (env : Env) (db : Store),
        Withdraw L s env db inp = (db, .error (.ErrBadRequest msg))) ∧
    (∀ (s : WalletService) (env : Env) (db : Store) (res : WithdrawResult),
      (Withdraw L s env db inp).2 = .ok res →
      0 < inp.Jumlah ∧
      (saldo (Withdraw L s env db inp).1.walletSummary inp.UserID).1
        < (saldo db.walletSummary inp.UserID).1 ∧
      (saldo (Withdraw L s env db inp).1.walletSummary inp.UserID).2.1
        ≤ (saldo db.walletSummary inp.UserID).2.1 ∧
      (saldo (Withdraw L s env db inp).1.walletSummary inp.UserID).2.2
        ≤ (saldo db.walletSummary inp.UserID).2.2 ∧
      (∀ u, u ≠ inp.UserID →
        saldo (Withdraw L s env db inp).1.walletSummary u = saldo db.walletSummary u)) := by
  constructor
  · intro hle
    have ha : validAmount inp.Jumlah = false := by
      simp only [validAmount, Bool.and_eq_false_imp, decide_eq_false_iff_not, not_lt]
      intro _
      exact hle
    cases hu : validUUID4 inp.UserID
    · refine ⟨"UserID", fun s env db => ?_⟩
      unfold Withdraw
      simp only [hu, Bool.not_false, if_true]
    · refine ⟨"Jumlah", fun s env db => ?_⟩
      unfold Withdraw
      simp only [hu, ha, Bool.not_true, Bool.not_false, Bool.false_eq_true, if_false,
        if_true]
  · intro s env db res hok
    rcases Withdraw_cases L s env db inp with
      ⟨e, he⟩ |
      ⟨tgt, w, htgt, hw, hval, -, -, -, ⟨e, pr, he⟩ | ⟨db1, res2, he, hws, -⟩⟩
    · rw [he] at hok
      cases hok
    · rw [he] at hok
      cases hok
    · have hpos : 0 < inp.Jumlah := by
        have ha := hval.2.1
        simp [validAmount] at ha
        exact ha.2
      rw [he]
      simp only []
      rw [hws]
      refine ⟨hpos, ?_, ?_, ?_, ?_⟩
      · simp [saldo_upsertSaldo, withdrawDelta]
        exact hpos
      · simp only [saldo_upsertSaldo, withdrawDelta, if_true]
        split <;> omega
      · simp only [saldo_upsertSaldo, withdrawDelta, if_true]
        split <;> omega
      · intro u hu
        simp [saldo_upsertSaldo, withdrawDelta, hu]

/-- C29, at concrete inputs: amount zero is refused even when every statement would fail,
and the withdrawal of `10` lowers the total. -/
theorem withdraw_never_credits_witness :
    Withdraw refLib svc0 envAllFail dbWallet withdrawZero
      = (dbWallet, .error (.ErrBadRequest "Jumlah")) ∧
    (saldo (Withdraw refLib svc0 env0 dbWallet withdraw0).1.walletSummary user0).1 < 150 :=
  have h := withdraw_never_credits refLib withdraw0
  ⟨by decide,
   (h.2 svc0 env0 dbWallet { OrderID := "payout-1", Status := "PENDING" } (by decide)).2.1⟩

/-! ## The source of the balance type -/

/-- C30: `firstNonEmpty` returns, as it stands, the first element whose trimmed form is not
empty, and the empty string when there is none; so the balance type of `Withdraw` is the
field `balanceType` unless it is blank, else `balance_type` unless it is blank, else
`source` unless it is blank, else empty. -/
theorem firstNonEmpty_first_nonblank (values : List String) :
    firstNonEmpty values = (values.find? fun v => TrimSpace v ≠ "").getD "" ∧
    (∀ pre v post, values = pre ++ v :: post → (∀ x ∈ pre, TrimSpace x = "") →
      TrimSpace v ≠ "" → firstNonEmpty values = v) ∧
    ((∀ x ∈ values, TrimSpace x = "") → firstNonEmpty values = "") ∧
    (∀ (L : Lib) (inp : WithdrawInput), balanceTypeOf L inp =
      L.ToLower (TrimSpace
        (if TrimSpace inp.BalanceType ≠ "" then inp.BalanceType
         else if TrimSpace inp.BalanceTypeAlt ≠ "" then inp.BalanceTypeAlt
         else if TrimSpace inp.Source ≠ "" then inp.Source
         else ""))) := by
  have hfind : ∀ vs : List String,
      firstNonEmpty vs = (vs.find? fun v => TrimSpace v ≠ "").getD "" := by
    intro vs
    induction vs with
    | nil => rfl
    | cons v vs ih =>
      unfold firstNonEmpty
      by_cases h : TrimSpace v = ""
      · simp [h, ih]
      · simp [h]
  refine ⟨hfind values, ?_, ?_, ?_⟩
  · intro pre v post hvs hpre hv
    subst hvs
    induction pre with
    | nil =>
      unfold firstNonEmpty
      simp [hv]
    | cons x xs ih =>
      have hx : TrimSpace x = "" := hpre x (List.mem_cons_self _ _)
      have hxs : ∀ y ∈ xs, TrimSpace y = "" := fun y hy => hpre y (List.mem_cons_of_mem _ hy)
      rw [List.cons_append]
      unfold firstNonEmpty
      simp only [hx, ne_eq, not_true_eq_false, if_false]
      exact ih hxs
  · intro hall
    induction values with
    | nil => rfl
    | cons x xs ih =>
      have hx : TrimSpace x = "" := hall x (List.mem_cons_self _ _)
      unfold firstNonEmpty
      simp only [hx, ne_eq, not_true_eq_false, if_false]
      exact ih fun y hy => hall y (List.mem_cons_of_mem _ hy)
  · intro L inp
    unfold balanceTypeOf
    simp only [firstNonEmpty]

/-- C30, at a concrete input: with a blank `balanceType` and an empty `balance_type` the
balance type is read from `source`. -/
theorem firstNonEmpty_first_nonblank_witness :
    firstNonEmpty ["  ", "", "Deposit", "refund"] = "Deposit" ∧
    balanceTypeOf refLib withdrawFromSource = "deposit" ∧
    target (balanceTypeOf refLib withdrawFromSource) = some "topup" :=
  ⟨((firstNonEmpty_first_nonblank ["  ", "", "Deposit", "refund"]).2.1
      ["  ", ""] "Deposit" ["refund"] rfl (by decide) (by decide)),
   by decide, by decide⟩

end services
